import Mathlib

/-!
Formal model of the Fertile prediction pipeline.

This file embeds, in Lean, the core components of the Fertile repository:
the symptom predictor and BBT shift detector (src/lib/predictors/symptoms.ts),
the calendar predictor (src/lib/predictors/calendar.ts), the reconciler
engine (src/lib/reconciler.ts) and the Fertility Friend CSV normalizer
(src/lib/ff-import.ts together with src/lib/types.ts), and proves or
refutes the behavioural properties stated for them.

Modelling conventions, shared by the whole file:

* Civil dates are integers counting days.  Every date computation in the
  source goes through UTC midnight, so an ISO date string is in bijection
  with its day number and all arithmetic (addDays, daysBetween,
  date ranges, millisecond variances divided by 86400000) is exact on
  these integers.  Only the CSV import layer, whose subject is the raw
  strings themselves, keeps dates as strings.
* JavaScript numbers are modelled as real numbers (the reconciler and the
  calendar predictor use Math.exp and Math.sqrt) or as rationals where the
  component only performs field operations (the symptom predictor),
  ignoring floating point rounding.
* Ambient effects are explicit: crypto.randomUUID() and the Date clock,
  used by the predictors when minting ids and timestamps, are modelled by
  an explicit environment argument.
-/

namespace Fertile

/-- One insertion step of a stable insertion sort: the new element goes
after every already placed element that compares less-or-equal, so
elements that compare equal keep their original relative order — the
behaviour ECMAScript guarantees for Array.prototype.sort, which the
source uses. -/
def insertStable (le : α → α → Bool) (x : α) : List α → List α
  | [] => [x]
  | y :: t => if le y x then y :: insertStable le x t else x :: y :: t

/-- Stable sort by a boolean comparison; models Array.prototype.sort with
a comparator.  Structurally recursive so that concrete instances reduce. -/
def stableSort (le : α → α → Bool) (l : List α) : List α :=
  l.foldl (fun acc x => insertStable le x acc) []

/-- Math.round: round half toward positive infinity, on any ordered field
with a floor. -/
def jsRound {α : Type _} [LinearOrderedField α] [FloorRing α] (x : α) : ℤ :=
  ⌊x + 1/2⌋

/-- The whitespace recognised by String.prototype.trim, restricted to the
ASCII characters that occur in the data this pipeline reads. -/
def isWhitespaceChar (c : Char) : Bool :=
  c = ' ' ∨ c = '\t' ∨ c = '\n' ∨ c = '\r'

/-- String.prototype.trim, as a structurally recursive function on the
character list so that concrete instances reduce. -/
def jsTrim (s : String) : String :=
  String.mk (((s.data.dropWhile isWhitespaceChar).reverse.dropWhile
    isWhitespaceChar).reverse)

/-- Lower casing of one ASCII character. -/
def jsCharToLower (c : Char) : Char :=
  if 'A' ≤ c ∧ c ≤ 'Z' then Char.ofNat (c.toNat + 32) else c

/-- String.prototype.toLowerCase on ASCII data. -/
def jsToLower (s : String) : String :=
  String.mk (s.data.map jsCharToLower)

/-- String.prototype.split at one separator character. -/
def splitOnChar (c : Char) : List Char → List (List Char)
  | [] => [[]]
  | x :: t =>
      if x = c then [] :: splitOnChar c t
      else
        match splitOnChar c t with
        | [] => [[x]]
        | h :: r => (x :: h) :: r

/-- Ambient environment of one invocation: the value produced by
crypto.randomUUID() and the current clock reading used by getTimestamp().
The source reads these from the host; the embedding passes them in. -/
structure Env where
  freshId : String
  now : String
  deriving DecidableEq, Repr

/-- generateId from src/types/index.ts: returns crypto.randomUUID(). -/
def generateId (env : Env) : String := env.freshId

/-- getTimestamp from src/types/index.ts: returns new Date().toISOString(). -/
def getTimestamp (env : Env) : String := env.now

/-- Cervical mucus vocabulary of the app (src/types/index.ts). -/
inductive CervicalMucusType where
  | dry | sticky | creamy | watery | eggWhite | spotting
  deriving DecidableEq, Repr

/-- OPK result vocabulary of the app (src/types/index.ts). -/
inductive OPKResultType where
  | negative | almostPositive | positive | invalid
  deriving DecidableEq, Repr

/-- The value carried by one observation; the kind tag of the source is
recovered by Observation.type below. -/
inductive ObservationValue where
  | cm (v : CervicalMucusType)
  | bbt (temp : ℚ)
  | opk (v : OPKResultType)
  | symptom (tag : String)
  deriving DecidableEq, Repr

/-- A dated observation (src/types/index.ts).  The date is a civil day
number. -/
structure Observation where
  id : String
  date : ℤ
  value : ObservationValue
  deriving DecidableEq, Repr

/-- The kind tag of an observation, as the source stores it in the
`type` field. -/
def Observation.type (o : Observation) : String :=
  match o.value with
  | .cm _ => "cervical-mucus"
  | .bbt _ => "bbt"
  | .opk _ => "opk"
  | .symptom _ => "symptom"

/-- A fertile window prediction (src/types/index.ts).  `confidence` is a
percentage; the reconciler reads it through `?? 50`, which the embedding
mirrors with an Option. -/
structure Prediction where
  id : String
  source : String
  fertileStart : ℤ
  fertileEnd : ℤ
  ovulationDate : Option ℤ
  confidence : Option ℚ
  cycleId : Option String
  notes : Option String
  createdAt : String
  updatedAt : String
  deriving DecidableEq, Repr

instance : Inhabited Prediction :=
  ⟨{ id := "", source := "", fertileStart := 0, fertileEnd := 0,
     ovulationDate := none, confidence := none, cycleId := none,
     notes := none, createdAt := "", updatedAt := "" }⟩

/-- A historical cycle (src/types/index.ts). -/
structure Cycle where
  id : String
  startDate : ℤ
  length : ℕ
  periodLength : ℕ
  deriving DecidableEq, Repr

end Fertile

namespace Fertile.Symptoms

open Fertile

/-- CM_FERTILITY_SCORES from src/lib/predictors/symptoms.ts. -/
def CM_FERTILITY_SCORES : CervicalMucusType → ℚ
  | .dry => 0
  | .sticky => 1
  | .creamy => 2
  | .watery => 4
  | .eggWhite => 5
  | .spotting => 1

/-- SymptomPredictorOptions with every field made required, as the source
does by spreading DEFAULT_OPTIONS. -/
structure SymptomOptions where
  minCMScore : ℚ
  daysBeforeOPK : ℤ
  daysAfterOPK : ℤ
  cmWeight : ℚ
  opkWeight : ℚ
  deriving DecidableEq, Repr

/-- DEFAULT_OPTIONS of the symptom predictor. -/
def defaultSymptomOptions : SymptomOptions :=
  { minCMScore := 3, daysBeforeOPK := 2, daysAfterOPK := 2,
    cmWeight := 6/10, opkWeight := 9/10 }

/-- DayFertilityData from src/lib/predictors/symptoms.ts. -/
structure DayFertilityData where
  date : ℤ
  cmScore : ℚ
  cmType : Option CervicalMucusType
  hasOPKPositive : Bool
  bbt : Option ℚ
  fertilityScore : ℚ
  deriving DecidableEq, Repr

/-- One insertion step of the byDate Map in analyzeDays: a JavaScript Map
keeps keys in first-insertion order and we append to the existing bucket. -/
def addObs : List (ℤ × List Observation) → Observation → List (ℤ × List Observation)
  | [], o => [(o.date, [o])]
  | (d, l) :: t, o =>
      if d = o.date then (d, l ++ [o]) :: t else (d, l) :: addObs t o

/-- The byDate grouping of analyzeDays. -/
def groupByDate (obs : List Observation) : List (ℤ × List Observation) :=
  obs.foldl addObs []

/-- Predicate versions of the type tests used by analyzeDays. -/
def isCM (o : Observation) : Bool := o.type = "cervical-mucus"

def isOPK (o : Observation) : Bool := o.type = "opk"

def isBBT (o : Observation) : Bool := o.type = "bbt"

/-- The cervical mucus value of an observation, when it has one. -/
def cmValue (o : Observation) : Option CervicalMucusType :=
  match o.value with
  | .cm v => some v
  | _ => none

/-- The OPK value of an observation, when it has one. -/
def opkValue (o : Observation) : Option OPKResultType :=
  match o.value with
  | .opk v => some v
  | _ => none

/-- The BBT value of an observation, when it has one. -/
def bbtValue (o : Observation) : Option ℚ :=
  match o.value with
  | .bbt v => some v
  | _ => none

/-- The per-day record built inside the loop of analyzeDays.  Note that
the source selects the FIRST observation of each kind on the day via
Array.prototype.find. -/
def mkDayData (options : SymptomOptions) (date : ℤ) (l : List Observation) :
    DayFertilityData :=
  let cmObs := l.find? isCM
  let opkObs := l.find? isOPK
  let bbtObs := l.find? isBBT
  let cmScore := match cmObs.bind cmValue with
    | some v => CM_FERTILITY_SCORES v
    | none => 0
  let hasOPKPositive :=
    match opkObs.bind opkValue with
    | some v => v = OPKResultType.positive
    | none => false
  let base := cmScore / 5 * options.cmWeight
  let fertilityScore := base + (if hasOPKPositive then options.opkWeight else 0)
  { date := date, cmScore := cmScore, cmType := cmObs.bind cmValue,
    hasOPKPositive := hasOPKPositive, bbt := bbtObs.bind bbtValue,
    fertilityScore := min 1 fertilityScore }

/-- analyzeDays from src/lib/predictors/symptoms.ts: group by date, build
the per-day record, and sort ascending by date. -/
def analyzeDays (observations : List Observation) (options : SymptomOptions) :
    List DayFertilityData :=
  let dayData := (groupByDate observations).map fun p => mkDayData options p.1 p.2
  stableSort (fun a b => decide (a.date ≤ b.date)) dayData

/-- findFertileWindow of the symptom predictor: OPK pivot first, then CM
progression, else nothing. -/
def findFertileWindow (dayData : List DayFertilityData)
    (options : SymptomOptions) : Option (ℤ × ℤ × ℤ) :=
  match dayData with
  | [] => none
  | _ :: _ =>
    let opkPositiveDays := dayData.filter (·.hasOPKPositive)
    let highCMDays := dayData.filter fun d => options.minCMScore ≤ d.cmScore
    match opkPositiveDays with
    | opkDay :: _ =>
        some (opkDay.date - options.daysBeforeOPK,
              opkDay.date + options.daysAfterOPK,
              opkDay.date + 1)
    | [] =>
      match highCMDays with
      | first :: _ =>
          let peakDay := highCMDays.foldl
            (fun best day => if best.cmScore < day.cmScore then day else best)
            first
          some (first.date, peakDay.date + 2, peakDay.date + 1)
      | [] => none

/-- calculateConfidence of the symptom predictor. -/
def calculateConfidence (dayData : List DayFertilityData)
    (hasOPK hasCM : Bool) : ℕ :=
  let c0 := 40
  let c1 := c0 + (if hasOPK then 35 else 0)
  let c2 := c1 + (if hasCM then 15 else 0)
  let c3 := c2 +
    (if 10 ≤ dayData.length then 10 else if 5 ≤ dayData.length then 5 else 0)
  let c4 := c3 + (if hasOPK && hasCM then 10 else 0)
  min 95 c4

/-- Rendering of an app cervical mucus value, as the string literal the
source stores. -/
def cmToString : CervicalMucusType → String
  | .dry => "dry"
  | .sticky => "sticky"
  | .creamy => "creamy"
  | .watery => "watery"
  | .eggWhite => "egg-white"
  | .spotting => "spotting"

/-- The template literal interpolation of an optional CM value: an absent
value prints as undefined in the source. -/
def cmOptToString : Option CervicalMucusType → String
  | some v => cmToString v
  | none => "undefined"

/-- The filter at the top of predictFromSymptoms: keep observation kinds
in ['cervical-mucus', 'opk', 'bbt']. -/
def relevantObservations (observations : List Observation) : List Observation :=
  observations.filter fun o =>
    o.type = "cervical-mucus" ∨ o.type = "opk" ∨ o.type = "bbt"

/-- The first OPK observation recorded on a date, in input order: the
value Array.prototype.find selects inside analyzeDays. -/
def firstOPKOnDate (obs : List Observation) (d : ℤ) : Option Observation :=
  (obs.filter fun o => o.date = d).find? isOPK

/-- predictFromSymptoms from src/lib/predictors/symptoms.ts.  The unused
cycleStartDate parameter is kept for fidelity. -/
def predictFromSymptoms (env : Env) (observations : List Observation)
    (_cycleStartDate : Option ℤ) (options : SymptomOptions) :
    Option Prediction :=
  let opts := options
  let relevantObs := relevantObservations observations
  if relevantObs.isEmpty then none
  else
    let dayData := analyzeDays relevantObs opts
    match findFertileWindow dayData opts with
    | none => none
    | some (ws, we, peak) =>
      let hasOPK := dayData.any (·.hasOPKPositive)
      let hasCM := dayData.any fun d => decide (opts.minCMScore ≤ d.cmScore)
      let confidence : ℚ := calculateConfidence dayData hasOPK hasCM
      let notesList :=
        (if hasOPK then ["OPK positive detected"] else []) ++
        (if hasCM then
          match dayData with
          | [] => []
          | d0 :: _ =>
            let peakCM := dayData.foldl
              (fun best d => if best.cmScore < d.cmScore then d else best) d0
            ["Peak CM: " ++ cmOptToString peakCM.cmType]
         else [])
      some
        { id := generateId env
          source := "fertility-friend"
          fertileStart := ws
          fertileEnd := we
          ovulationDate := some peak
          confidence := some confidence
          cycleId := none
          notes := some ("Symptom-based: " ++ String.intercalate ", " notesList)
          createdAt := getTimestamp env
          updatedAt := getTimestamp env }

end Fertile.Symptoms

namespace Fertile.Calendar

open Fertile

/-- CalendarPredictorOptions with every field made required, as the
source does by spreading DEFAULT_OPTIONS. -/
structure CalendarOptions where
  daysBeforeOvulation : ℤ
  daysAfterOvulation : ℤ
  lutealPhaseLength : ℤ
  regularityBonus : ℚ
  deriving DecidableEq, Repr

/-- DEFAULT_OPTIONS of the calendar predictor. -/
def defaultCalendarOptions : CalendarOptions :=
  { daysBeforeOvulation := 5, daysAfterOvulation := 1,
    lutealPhaseLength := 14, regularityBonus := 10 }

/-- calculateCycleVariability: population standard deviation of the cycle
lengths, 5 when fewer than two cycles. -/
noncomputable def calculateCycleVariability (cycles : List Cycle) : ℝ :=
  if cycles.length < 2 then 5
  else
    let lengths := cycles.map fun c => (c.length : ℝ)
    let mean := lengths.sum / (lengths.length : ℝ)
    let variance := (lengths.map fun l => (l - mean)^2).sum / (lengths.length : ℝ)
    Real.sqrt variance

/-- calculateAverageCycleLength: rounded mean length, 28 when no
history. -/
def calculateAverageCycleLength (cycles : List Cycle) : ℤ :=
  if cycles.length = 0 then 28
  else jsRound ((cycles.map fun c => (c.length : ℚ)).sum / cycles.length)

/-- Number.prototype.toFixed(1) on a nonnegative value, used only inside
the free-text notes; rendering detail, carried for completeness. -/
noncomputable def jsToFixed1 (x : ℝ) : String :=
  let n := jsRound (10 * x)
  toString (n / 10) ++ "." ++ toString (n % 10)

/-- predictFromCalendar from src/lib/predictors/calendar.ts. -/
noncomputable def predictFromCalendar (env : Env) (currentCycleStart : ℤ)
    (historicalCycles : List Cycle) (options : CalendarOptions) : Prediction :=
  let opts := options
  let avgCycleLength := calculateAverageCycleLength historicalCycles
  let variability := calculateCycleVariability historicalCycles
  let ovulationDay := avgCycleLength - opts.lutealPhaseLength
  let fertileStartDay := ovulationDay - opts.daysBeforeOvulation
  let fertileEndDay := ovulationDay + opts.daysAfterOvulation
  let ovulationDate := currentCycleStart + ovulationDay
  let fertileStart := currentCycleStart + fertileStartDay
  let fertileEnd := currentCycleStart + fertileEndDay
  let c0 : ℚ := 55
  let c1 := c0 +
    (if 6 ≤ historicalCycles.length then 10
     else if 3 ≤ historicalCycles.length then 5 else 0)
  let c2 := c1 +
    (if variability ≤ 2 then opts.regularityBonus
     else if variability ≤ 4 then opts.regularityBonus / 2
     else if 6 < variability then -15 else 0)
  let confidence := max 20 (min 80 c2)
  { id := generateId env
    source := "manual"
    fertileStart := fertileStart
    fertileEnd := fertileEnd
    ovulationDate := some ovulationDate
    confidence := some confidence
    cycleId := none
    notes := some ("Calendar method: Based on " ++
      toString historicalCycles.length ++ " cycles, avg " ++
      toString avgCycleLength ++ " days, variability ±" ++
      jsToFixed1 variability ++ " days")
    createdAt := getTimestamp env
    updatedAt := getTimestamp env }

end Fertile.Calendar

namespace Fertile.FFImport

open Fertile

/-- Fertility Friend cervical mucus vocabulary (src/lib/types.ts). -/
inductive FFCervicalMucus where
  | dry | sticky | creamy | watery | eggwhite | unknown
  deriving DecidableEq, Repr

/-- Fertility Friend OPK vocabulary (src/lib/types.ts). -/
inductive FFOPKResult where
  | negative | positive | peak | unknown
  deriving DecidableEq, Repr

/-- CM_MAP from src/lib/ff-import.ts: the static synonym table for
cervical mucus spellings. -/
def CM_MAP : String → Option FFCervicalMucus
  | "dry" => some .dry
  | "d" => some .dry
  | "none" => some .dry
  | "sticky" => some .sticky
  | "s" => some .sticky
  | "tacky" => some .sticky
  | "creamy" => some .creamy
  | "c" => some .creamy
  | "lotiony" => some .creamy
  | "watery" => some .watery
  | "w" => some .watery
  | "eggwhite" => some .eggwhite
  | "egg white" => some .eggwhite
  | "ew" => some .eggwhite
  | "e" => some .eggwhite
  | "stretchy" => some .eggwhite
  | _ => none

/-- OPK_MAP from src/lib/ff-import.ts. -/
def OPK_MAP : String → Option FFOPKResult
  | "negative" => some .negative
  | "neg" => some .negative
  | "n" => some .negative
  | "-" => some .negative
  | "positive" => some .positive
  | "pos" => some .positive
  | "p" => some .positive
  | "+" => some .positive
  | "peak" => some .peak
  | "high" => some .positive
  | "low" => some .negative
  | _ => none

/-- Row-scoped error record (src/lib/types.ts). -/
structure ImportError where
  row : ℕ
  field : String
  message : String
  value : Option String
  deriving DecidableEq, Repr

instance : DecidableEq (Except ImportError String) := fun a b =>
  match a, b with
  | .ok x, .ok y => decidable_of_iff (x = y) (by simp)
  | .error x, .error y => decidable_of_iff (x = y) (by simp)
  | .ok _, .error _ => isFalse (by simp)
  | .error _, .ok _ => isFalse (by simp)

/-- String.prototype.padStart(2, '0'). -/
def pad2 (s : String) : String :=
  if s.length < 2 then "0" ++ s else s

/-- Test for the anchored regular expression of four digit year, two
digit month, two digit day separated by hyphens. -/
def isISODate (s : String) : Bool :=
  match s.toList with
  | [y1, y2, y3, y4, h1, m1, m2, h2, d1, d2] =>
      y1.isDigit && y2.isDigit && y3.isDigit && y4.isDigit &&
      h1 = '-' && m1.isDigit && m2.isDigit && h2 = '-' &&
      d1.isDigit && d2.isDigit
  | _ => false

/-- Match against the anchored slash pattern of one or two digits, a
slash, one or two digits, a slash and four digits, returning the three
captured groups.  Both the US and the European branch of parseDate use
this same pattern. -/
def slashMatch (s : String) : Option (String × String × String) :=
  match (splitOnChar '/' s.data).map String.mk with
  | [a, b, c] =>
      if 1 ≤ a.length && a.length ≤ 2 && a.toList.all Char.isDigit &&
         1 ≤ b.length && b.length ≤ 2 && b.toList.all Char.isDigit &&
         c.length = 4 && c.toList.all Char.isDigit
      then some (a, b, c) else none
  | _ => none

/-- parseDate from src/lib/ff-import.ts.  The final fallback of the
source builds a host Date from the free-form string; that host parser is
passed in as freeParse.  Note that the second slash branch repeats the
first test verbatim, exactly as the source does. -/
def parseDate (freeParse : String → Option String) (dateStr : String)
    (rowNum : ℕ) : Except ImportError String :=
  if jsTrim dateStr = "" then
    .error { row := rowNum, field := "Date", message := "Date is required",
             value := some dateStr }
  else
    let cleaned := jsTrim dateStr
    if isISODate cleaned then .ok cleaned
    else
      match slashMatch cleaned with
      | some (month, day, year) =>
          .ok (year ++ "-" ++ pad2 month ++ "-" ++ pad2 day)
      | none =>
        match slashMatch cleaned with
        | some (day, month, year) =>
            .ok (year ++ "-" ++ pad2 month ++ "-" ++ pad2 day)
        | none =>
          match freeParse cleaned with
          | some d => .ok d
          | none =>
              .error { row := rowNum, field := "Date",
                       message := "Invalid date format: " ++ cleaned,
                       value := some cleaned }

/-- parseCervicalMucus from src/lib/ff-import.ts: lowercase, trim, look
up in the synonym table, and fall back to unknown. -/
def parseCervicalMucus (cmStr : Option String) : Option FFCervicalMucus :=
  match cmStr with
  | none => none
  | some s =>
      if jsTrim s = "" then none
      else some ((CM_MAP (jsToLower (jsTrim s))).getD .unknown)

/-- parseOPK from src/lib/ff-import.ts. -/
def parseOPK (opkStr : Option String) : Option FFOPKResult :=
  match opkStr with
  | none => none
  | some s =>
      if jsTrim s = "" then none
      else some ((OPK_MAP (jsToLower (jsTrim s))).getD .unknown)

/-- mapFFCervicalMucus from src/lib/types.ts. -/
def mapFFCervicalMucus : FFCervicalMucus → CervicalMucusType
  | .dry => .dry
  | .sticky => .sticky
  | .creamy => .creamy
  | .watery => .watery
  | .eggwhite => .eggWhite
  | .unknown => .dry

/-- mapFFOPKResult from src/lib/types.ts. -/
def mapFFOPKResult : FFOPKResult → OPKResultType
  | .negative => .negative
  | .positive => .positive
  | .peak => .positive
  | .unknown => .invalid

/-- Rendering of an app OPK value, as the string literal the source
stores. -/
def opkToString : OPKResultType → String
  | .negative => "negative"
  | .almostPositive => "almost-positive"
  | .positive => "positive"
  | .invalid => "invalid"

/-- Round trip of a canonical cervical mucus value through the import
pipeline, exactly as convertToObservations applies it: parse the spelling
through the synonym table, drop the value when the parse yields unknown,
and otherwise convert with mapFFCervicalMucus. -/
def cmRoundtrip (v : CervicalMucusType) : Option CervicalMucusType :=
  match parseCervicalMucus (some (Symptoms.cmToString v)) with
  | none => none
  | some ff =>
      if ff = FFCervicalMucus.unknown then none
      else some (mapFFCervicalMucus ff)

/-- Round trip of a canonical OPK value through the import pipeline, as
convertToObservations applies it. -/
def opkRoundtrip (v : OPKResultType) : Option OPKResultType :=
  match parseOPK (some (opkToString v)) with
  | none => none
  | some ff =>
      if ff = FFOPKResult.unknown then none
      else some (mapFFOPKResult ff)

end Fertile.FFImport

namespace Fertile.Reconciler

open Fertile

/-- SourceWeights from src/lib/reconciler.ts: a partial map from source
tag to weight. -/
def SourceWeights : Type := String → Option ℝ

/-- DEFAULT_WEIGHTS from src/lib/reconciler.ts. -/
noncomputable def DEFAULT_WEIGHTS : SourceWeights := fun s =>
  if s = "natural-cycles" then some 0.95
  else if s = "fertility-friend" then some 0.90
  else if s = "fertile-algorithm" then some 0.85
  else if s = "flo" then some 0.70
  else if s = "clue" then some 0.70
  else if s = "ovia" then some 0.65
  else if s = "manual" then some 0.60
  else if s = "calendar" then some 0.55
  else if s = "symptoms" then some 0.75
  else none

/-- DayScore from src/lib/reconciler.ts. -/
structure DayScore where
  date : ℤ
  probability : ℝ
  sources : List String
  rawScores : List (String × ℝ)

/-- The diagnostics block of ReconciledPrediction. -/
structure Diagnostics where
  sourceAgreement : ℝ
  outliers : List String
  weights : SourceWeights
  dayScores : List DayScore
  inputPredictions : ℕ

/-- ReconciledPrediction from src/lib/reconciler.ts. -/
structure ReconciledPrediction where
  fertileStart : ℤ
  fertileEnd : ℤ
  ovulationDate : Option ℤ
  confidence : ℝ
  explain : List String
  diagnostics : Diagnostics

/-- ReconcilerOptions: every field optional, merged over
DEFAULT_OPTIONS by reconcile. -/
structure ReconcilerOptions where
  weights : Option SourceWeights := none
  minConfidenceThreshold : Option ℝ := none
  disagreementPenalty : Option ℝ := none
  minSources : Option ℕ := none

/-- The weights map after the double spread in reconcile:
DEFAULT_WEIGHTS overlaid with the caller's overrides. -/
noncomputable def mergedWeights (o : ReconcilerOptions) : SourceWeights :=
  fun s => ((o.weights.getD DEFAULT_WEIGHTS) s).orElse fun _ => DEFAULT_WEIGHTS s

/-- minConfidenceThreshold after merging with DEFAULT_OPTIONS. -/
noncomputable def optMinCT (o : ReconcilerOptions) : ℝ :=
  o.minConfidenceThreshold.getD 0.3

/-- disagreementPenalty after merging with DEFAULT_OPTIONS. -/
noncomputable def optDP (o : ReconcilerOptions) : ℝ :=
  o.disagreementPenalty.getD 0.15

/-- minSources after merging with DEFAULT_OPTIONS. -/
def optMinSources (o : ReconcilerOptions) : ℕ :=
  o.minSources.getD 1

/-- getWeight from src/lib/reconciler.ts: missing tags fall back to
0.5. -/
noncomputable def getWeight (source : String) (weights : SourceWeights) : ℝ :=
  (weights source).getD 0.5

/-- daysBetween from src/lib/reconciler.ts: the millisecond difference,
divided by the length of a day and rounded.  On civil dates the division
is exact, so the day unit reals are used directly. -/
noncomputable def daysBetween (a b : ℝ) : ℤ :=
  jsRound |a - b|

/-- The self confidence factor of a prediction inside buildDayScores:
(p.confidence ?? 50) / 100. -/
noncomputable def selfConfidence (p : Prediction) : ℝ :=
  ((p.confidence.getD 50 : ℚ) : ℝ) / 100

/-- Whether a date falls inclusively inside the window of a
prediction. -/
def inWindow (p : Prediction) (date : ℤ) : Bool :=
  decide (p.fertileStart ≤ date ∧ date ≤ p.fertileEnd)

/-- calculateSourceAgreement from src/lib/reconciler.ts.  The source
works in milliseconds and divides each deviation by the length of a day
before squaring; on civil date inputs this is exactly the day-unit
computation below. -/
noncomputable def calculateSourceAgreement (predictions : List Prediction) : ℝ :=
  if predictions.length ≤ 1 then 1
  else
    let starts := predictions.map fun p => (p.fertileStart : ℝ)
    let ends := predictions.map fun p => (p.fertileEnd : ℝ)
    let avgStart := starts.sum / (starts.length : ℝ)
    let avgEnd := ends.sum / (ends.length : ℝ)
    let startVariance := (starts.map fun s => (s - avgStart)^2).sum / (starts.length : ℝ)
    let endVariance := (ends.map fun e => (e - avgEnd)^2).sum / (ends.length : ℝ)
    let avgVariance := (startVariance + endVariance) / 2
    Real.exp (-avgVariance / 8)

/-- The weighted centroid of the window starts, using the effective
weights only (no confidence factor), as identifyOutliers computes it. -/
noncomputable def weightedCentroidStart (predictions : List Prediction)
    (weights : SourceWeights) : ℝ :=
  ((predictions.map fun p => (p.fertileStart : ℝ) * getWeight p.source weights).sum) /
    ((predictions.map fun p => getWeight p.source weights).sum)

/-- The weighted centroid of the window ends. -/
noncomputable def weightedCentroidEnd (predictions : List Prediction)
    (weights : SourceWeights) : ℝ :=
  ((predictions.map fun p => (p.fertileEnd : ℝ) * getWeight p.source weights).sum) /
    ((predictions.map fun p => getWeight p.source weights).sum)

/-- identifyOutliers from src/lib/reconciler.ts: the weighted centroid
uses the effective weights only, and a prediction is an outlier when its
start or its end is more than three rounded days from the centroid. -/
noncomputable def identifyOutliers (predictions : List Prediction)
    (weights : SourceWeights) : List String :=
  if predictions.length ≤ 2 then []
  else
    let centroidStart := weightedCentroidStart predictions weights
    let centroidEnd := weightedCentroidEnd predictions weights
    (predictions.filter fun p =>
        decide (3 < daysBetween (p.fertileStart : ℝ) centroidStart) ||
        decide (3 < daysBetween (p.fertileEnd : ℝ) centroidEnd)).map (·.source)

/-- The per-prediction entry pushed into rawScores for one date: the full
weighted score inside the window, or the gaussian-decayed score outside
it, recorded only when it exceeds 0.1. -/
noncomputable def rawScoreOf (weights : SourceWeights) (date : ℤ)
    (p : Prediction) : Option (String × ℝ) :=
  if inWindow p date then
    some (p.source, getWeight p.source weights * selfConfidence p)
  else if 0.1 < getWeight p.source weights * selfConfidence p *
      Real.exp (-((min (daysBetween (date : ℝ) (p.fertileStart : ℝ))
        (daysBetween (date : ℝ) (p.fertileEnd : ℝ)) : ℝ))^2 / 2) then
    some (p.source, getWeight p.source weights * selfConfidence p *
      Real.exp (-((min (daysBetween (date : ℝ) (p.fertileStart : ℝ))
        (daysBetween (date : ℝ) (p.fertileEnd : ℝ)) : ℝ))^2 / 2))
  else none

/-- The inclusive date range between two civil dates, empty when the
start exceeds the end (getDateRange). -/
def dateRange (a b : ℤ) : List ℤ :=
  (List.range (b + 1 - a).toNat).map fun i : ℕ => a + (i : ℤ)

/-- The smallest fertileStart across the predictions, seeded from the
first one, exactly as the scan loop of buildDayScores does. -/
def minStartOf (predictions : List Prediction) : ℤ :=
  predictions.foldl (fun m p => if p.fertileStart < m then p.fertileStart else m)
    ((predictions.headD default).fertileStart)

/-- The largest fertileEnd across the predictions. -/
def maxEndOf (predictions : List Prediction) : ℤ :=
  predictions.foldl (fun m p => if m < p.fertileEnd then p.fertileEnd else m)
    ((predictions.headD default).fertileEnd)

/-- The union range of the predictions extended by two days on each
side, the domain of the day score series. -/
def extendedDates (predictions : List Prediction) : List ℤ :=
  dateRange (minStartOf predictions - 2) (maxEndOf predictions + 2)

/-- The fixed normalizer of buildDayScores: the total of the effective
weights of the predictions. -/
noncomputable def totalEffectiveWeight (predictions : List Prediction)
    (weights : SourceWeights) : ℝ :=
  (predictions.map fun p => getWeight p.source weights).sum

/-- The day score record built for one date of the series. -/
noncomputable def dayScoreAt (predictions : List Prediction)
    (weights : SourceWeights) (date : ℤ) : DayScore :=
  let rawScores := predictions.filterMap (rawScoreOf weights date)
  let sources := (predictions.filter fun p => inWindow p date).map (·.source)
  let totalWeight := totalEffectiveWeight predictions weights
  let probability :=
    if 0 < totalWeight then (rawScores.map (·.2)).sum / totalWeight else 0
  { date := date, probability := probability,
    sources := sources, rawScores := rawScores }

/-- buildDayScores from src/lib/reconciler.ts. -/
noncomputable def buildDayScores (predictions : List Prediction)
    (weights : SourceWeights) : List DayScore :=
  match predictions with
  | [] => []
  | _ :: _ => (extendedDates predictions).map (dayScoreAt predictions weights)

/-- The index loop of findFertileWindow locating the longest run of
consecutive days: i is the index of the head of rest within the whole
sorted list, and the four accumulators are bestStart, bestLength,
currentStart and currentLength. -/
def scanRuns (i : ℕ) (prev : ℤ) (rest : List (ℤ × ℝ)) (bS bL cS cL : ℕ) :
    ℕ × ℕ :=
  match rest with
  | [] => if bL < cL then (cS, cL) else (bS, bL)
  | c :: t =>
      if (c.1 - prev).natAbs = 1 then scanRuns (i + 1) c.1 t bS bL cS (cL + 1)
      else if bL < cL then scanRuns (i + 1) c.1 t cS cL i 1
      else scanRuns (i + 1) c.1 t bS bL i 1

/-- The back half of findFertileWindow, applied to the date-sorted list
of fertile days: locate the longest run of consecutive days, return its
first and last day and the first day of highest probability inside it.
The empty-window branches mirror the source reading windowDays[0] and are
unreachable, as proved below. -/
noncomputable def windowFromSorted : List (ℤ × ℝ) → Option (ℤ × ℤ × ℤ)
  | [] => none
  | d0 :: rest =>
      match (((d0 :: rest).drop (scanRuns 1 d0.1 rest 0 1 0 1).1).take
          (scanRuns 1 d0.1 rest 0 1 0 1).2) with
      | [] => none
      | w0 :: wr =>
          some (w0.1,
            ((w0 :: wr).getLastD w0).1,
            ((w0 :: wr).foldl
              (fun best day => if best.2 < day.2 then day else best) w0).1)

/-- findFertileWindow from src/lib/reconciler.ts: filter the day scores
by the threshold, sort ascending by date (the source touches only the
date and probability fields, so the embedding works on those
projections) and extract the longest consecutive run. -/
noncomputable def findFertileWindow (dayScores : List DayScore)
    (threshold : ℝ) : Option (ℤ × ℤ × ℤ) :=
  match (dayScores.map fun d => (d.date, d.probability)).filter
      (fun d => decide (threshold ≤ d.2)) with
  | [] => none
  | f0 :: frest =>
      windowFromSorted
        (stableSort (fun a b => decide (a.1 ≤ b.1)) (f0 :: frest))

/-- The value a prediction adds to the numerator of the day probability:
its recorded raw score, or zero when nothing is recorded. -/
noncomputable def contribValue (weights : SourceWeights) (date : ℤ)
    (p : Prediction) : ℝ :=
  ((rawScoreOf weights date p).map (·.2)).getD 0

/-- The fallback selection of reconcile: the source copies the admitted
predictions, sorts them descending by effective weight with a stable sort
and takes the first element. -/
noncomputable def bestByWeight (valid : List Prediction)
    (weights : SourceWeights) : Prediction :=
  (stableSort
    (fun a b => decide (getWeight b.source weights ≤ getWeight a.source weights))
    valid).headD default

/-- The unique source listing of generateExplanations: the spread of a
Set keeps first occurrences in order. -/
def uniqueSources (predictions : List Prediction) : List String :=
  (predictions.map (·.source)).foldl
    (fun acc s => if s ∈ acc then acc else acc ++ [s]) []

/-- Rendering of a civil date inside an explanation string.  The source
renders through toLocaleDateString; the embedding renders the day number,
which carries the same information.  No property below depends on this
rendering. -/
def fmtDate (d : ℤ) : String := toString d

/-- generateExplanations from src/lib/reconciler.ts. -/
noncomputable def generateExplanations (predictions : List Prediction)
    (dayScores : List DayScore) (sourceAgreement : ℝ)
    (outliers : List String) (fertileStart fertileEnd : ℤ) : List String :=
  let e1 :=
    if predictions.length = 1 then
      "Based on " ++ (predictions.headD default).source ++ " prediction only"
    else
      "Reconciled from " ++ toString predictions.length ++ " predictions (" ++
        String.intercalate ", " (uniqueSources predictions) ++ ")"
  let e2 :=
    if 0.9 ≤ sourceAgreement then "Strong agreement: All sources align closely"
    else if 0.7 ≤ sourceAgreement then "Good agreement: Sources mostly align"
    else if 0.5 ≤ sourceAgreement then
      "Moderate agreement: Some variation between sources"
    else "Low agreement: Sources show significant variation"
  let windowLength := daysBetween (fertileEnd : ℝ) (fertileStart : ℝ) + 1
  let e3 := "Fertile window: " ++ fmtDate fertileStart ++ " - " ++
    fmtDate fertileEnd ++ " (" ++ toString windowLength ++ " days)"
  let e4 :=
    if outliers.isEmpty then []
    else ["Note: " ++ String.intercalate ", " outliers ++
      (if outliers.length = 1 then " differs" else " differ") ++
      " significantly from consensus"]
  let peakDays := stableSort (fun a b => decide (b.probability ≤ a.probability))
    (dayScores.filter fun d => decide (0.8 ≤ d.probability))
  let e5 :=
    match peakDays with
    | [] => []
    | p :: _ => ["Peak fertility: " ++ fmtDate p.date]
  [e1, e2, e3] ++ e4 ++ e5

/-- The admission filter of reconcile: drop predictions whose
(confidence ?? 50) is not positive. -/
def validPredictionsOf (predictions : List Prediction) : List Prediction :=
  predictions.filter fun p => decide (0 < p.confidence.getD 50)

/-- The effective threshold of reconcile: the configured minimum plus the
disagreement penalty when agreement drops below 0.7. -/
noncomputable def effectiveThresholdOf (options : ReconcilerOptions)
    (sourceAgreement : ℝ) : ℝ :=
  if sourceAgreement < 0.7 then
    optMinCT options + optDP options * (1 - sourceAgreement)
  else optMinCT options

/-- The result reconcile returns on its fallback path: the window and
ovulation of the heaviest admitted prediction, confidence
max(0.2, agreement / 2), and the two fallback explanation lines. -/
noncomputable def fallbackResult (validPredictions : List Prediction)
    (weights : SourceWeights) (sourceAgreement : ℝ) (outliers : List String)
    (dayScores : List DayScore) : ReconciledPrediction :=
  let best := bestByWeight validPredictions weights
  { fertileStart := best.fertileStart
    fertileEnd := best.fertileEnd
    ovulationDate := best.ovulationDate
    confidence := max 0.2 (sourceAgreement * 0.5)
    explain := ["Low confidence: Could not reconcile predictions",
                "Falling back to " ++ best.source ++ " prediction"]
    diagnostics :=
      { sourceAgreement := sourceAgreement, outliers := outliers,
        weights := weights, dayScores := dayScores,
        inputPredictions := validPredictions.length } }

/-- The result reconcile returns when a window was extracted: the run
boundaries, the peak day as ovulation estimate and the synthesized
confidence agreement times min(1, 0.7 + 0.1 n) times
max(0.5, 1 - 0.1 outliers), clamped to [0, 1]. -/
noncomputable def mainResult (validPredictions : List Prediction)
    (weights : SourceWeights) (sourceAgreement : ℝ) (outliers : List String)
    (dayScores : List DayScore) (ws we peak : ℤ) : ReconciledPrediction :=
  let confidence0 := sourceAgreement *
    min 1 (0.7 + (validPredictions.length : ℝ) * 0.1) *
    max 0.5 (1 - (outliers.length : ℝ) * 0.1)
  { fertileStart := ws
    fertileEnd := we
    ovulationDate := some peak
    confidence := min 1 (max 0 confidence0)
    explain := generateExplanations validPredictions dayScores
      sourceAgreement outliers ws we
    diagnostics :=
      { sourceAgreement := sourceAgreement, outliers := outliers,
        weights := weights, dayScores := dayScores,
        inputPredictions := validPredictions.length } }

/-- reconcile from src/lib/reconciler.ts. -/
noncomputable def reconcile (predictions : List Prediction)
    (options : ReconcilerOptions) : Option ReconciledPrediction :=
  let weights := mergedWeights options
  if predictions.length < optMinSources options then none
  else
    let validPredictions := validPredictionsOf predictions
    if validPredictions.isEmpty then none
    else
      let sourceAgreement := calculateSourceAgreement validPredictions
      let outliers := identifyOutliers validPredictions weights
      let dayScores := buildDayScores validPredictions weights
      let effectiveThreshold := effectiveThresholdOf options sourceAgreement
      match findFertileWindow dayScores effectiveThreshold with
      | none =>
          some (fallbackResult validPredictions weights sourceAgreement
            outliers dayScores)
      | some (ws, we, peak) =>
          some (mainResult validPredictions weights sourceAgreement
            outliers dayScores ws we peak)

/-- The day probability stated by the specification: for each admitted
prediction, the full weighted score w times c inside the window, the
decayed score outside it when it exceeds the 0.1 floor, summed and
divided by the fixed total of effective weights. -/
noncomputable def specContribution (weights : SourceWeights) (p : Prediction)
    (date : ℤ) : ℝ :=
  let w := getWeight p.source weights
  let c := selfConfidence p
  if p.fertileStart ≤ date ∧ date ≤ p.fertileEnd then w * c
  else
    let k := min |date - p.fertileStart| |date - p.fertileEnd|
    let v := w * c * Real.exp (-((k : ℝ))^2 / 2)
    if 0.1 < v then v else 0

/-- The specified day probability series value at one date. -/
noncomputable def specDayProbability (predictions : List Prediction)
    (weights : SourceWeights) (date : ℤ) : ℝ :=
  ((predictions.map fun p => specContribution weights p date).sum) /
    totalEffectiveWeight predictions weights

end Fertile.Reconciler

/-! ## Theorems

General lemmas about the stable sort, followed by the verification of
each claimed property, component by component. -/

namespace Fertile

theorem insertStable_perm (le : α → α → Bool) (x : α) (l : List α) :
    (insertStable le x l).Perm (x :: l) := by
  induction l with
  | nil => simp [insertStable]
  | cons y t ih =>
      simp only [insertStable]
      split
      · exact (ih.cons y).trans (List.Perm.swap x y t)
      · exact List.Perm.refl _

theorem stableSort_perm (le : α → α → Bool) (l : List α) :
    (stableSort le l).Perm l := by
  suffices h : ∀ acc : List α,
      (l.foldl (fun acc x => insertStable le x acc) acc).Perm (acc ++ l) by
    simpa using h []
  induction l with
  | nil => simp
  | cons y t ih =>
      intro acc
      simp only [List.foldl_cons]
      refine (ih _).trans ?_
      have h1 : (insertStable le y acc ++ t).Perm ((y :: acc) ++ t) :=
        List.Perm.append_right t (insertStable_perm le y acc)
      exact h1.trans (by simpa using List.perm_middle.symm)

theorem insertStable_pairwise (le : α → α → Bool)
    (htr : ∀ a b c, le a b → le b c → le a c)
    (hto : ∀ a b, le a b ∨ le b a) (x : α) (l : List α)
    (hl : l.Pairwise fun a b => le a b) :
    (insertStable le x l).Pairwise fun a b => le a b := by
  induction l with
  | nil => simp [insertStable]
  | cons y t ih =>
      rcases List.pairwise_cons.mp hl with ⟨hy, ht⟩
      simp only [insertStable]
      split
      · rename_i hle
        refine List.pairwise_cons.mpr ⟨?_, ih ht⟩
        intro z hz
        have hz' : z ∈ x :: t := (insertStable_perm le x t).mem_iff.mp hz
        rcases List.mem_cons.mp hz' with h | h
        · exact h ▸ hle
        · exact hy z h
      · rename_i hle
        have hxy : le x y := by
          rcases hto x y with h | h
          · exact h
          · exact absurd h hle
        refine List.pairwise_cons.mpr ⟨?_, hl⟩
        intro z hz
        rcases List.mem_cons.mp hz with h | h
        · exact h ▸ hxy
        · exact htr x y z hxy (hy z h)

theorem stableSort_pairwise (le : α → α → Bool)
    (htr : ∀ a b c, le a b → le b c → le a c)
    (hto : ∀ a b, le a b ∨ le b a) (l : List α) :
    (stableSort le l).Pairwise fun a b => le a b := by
  suffices h : ∀ acc : List α, (acc.Pairwise fun a b => le a b) →
      ((l.foldl (fun acc x => insertStable le x acc) acc).Pairwise
        fun a b => le a b) by
    exact h [] (by simp)
  induction l with
  | nil => intro acc hacc; simpa using hacc
  | cons y t ih =>
      intro acc hacc
      simp only [List.foldl_cons]
      exact ih _ (insertStable_pairwise le htr hto y acc hacc)

end Fertile

namespace Fertile.Symptoms

open Fertile

theorem addObs_keys (m : List (ℤ × List Observation)) (o : Observation) :
    (addObs m o).map Prod.fst =
      if o.date ∈ m.map Prod.fst then m.map Prod.fst
      else m.map Prod.fst ++ [o.date] := by
  induction m with
  | nil => simp [addObs]
  | cons p t ih =>
      obtain ⟨d, l⟩ := p
      by_cases hd : d = o.date
      · subst hd
        simp [addObs]
      · simp only [addObs, if_neg (Ne.symm hd ∘ Eq.symm), List.map_cons, ih]
        by_cases hmem : o.date ∈ t.map Prod.fst
        · simp [hmem, hd, Ne.symm hd]
        · simp [hmem, hd, Ne.symm hd]

theorem addObs_mem_cases (o : Observation) :
    ∀ m : List (ℤ × List Observation), (m.map Prod.fst).Nodup →
    ∀ p : ℤ × List Observation, p ∈ addObs m o →
    (p ∈ m ∧ p.1 ≠ o.date) ∨
    (∃ l, p = (o.date, l ++ [o]) ∧ (o.date, l) ∈ m) ∨
    (p = (o.date, [o]) ∧ o.date ∉ m.map Prod.fst) := by
  intro m
  induction m with
  | nil =>
      intro _ p hp
      simp only [addObs, List.mem_singleton] at hp
      exact Or.inr (Or.inr ⟨hp, by simp⟩)
  | cons q t ih =>
      intro hnd p hp
      obtain ⟨d, l⟩ := q
      simp only [List.map_cons, List.nodup_cons] at hnd
      by_cases hd : d = o.date
      · subst hd
        simp only [addObs] at hp
        rw [if_pos trivial] at hp
        simp only [List.mem_cons] at hp
        rcases hp with hp | hp
        · exact Or.inr (Or.inl ⟨l, hp, List.mem_cons_self _ _⟩)
        · refine Or.inl ⟨List.mem_cons_of_mem _ hp, ?_⟩
          intro hcontra
          exact hnd.1 (hcontra ▸ List.mem_map_of_mem Prod.fst hp)
      · simp only [addObs] at hp
        rw [if_neg hd] at hp
        simp only [List.mem_cons] at hp
        rcases hp with hp | hp
        · exact Or.inl ⟨hp ▸ List.mem_cons_self _ _, hp ▸ hd⟩
        · rcases ih hnd.2 p hp with ⟨h1, h2⟩ | ⟨l', h1, h2⟩ | ⟨h1, h2⟩
          · exact Or.inl ⟨List.mem_cons_of_mem _ h1, h2⟩
          · exact Or.inr (Or.inl ⟨l', h1, List.mem_cons_of_mem _ h2⟩)
          · refine Or.inr (Or.inr ⟨h1, ?_⟩)
            simp only [List.map_cons, List.mem_cons]
            rintro (hc | hc)
            · exact hd hc.symm
            · exact h2 hc

theorem groupByDate_invariant (obs : List Observation) :
    (∀ p ∈ groupByDate obs, p.2 = obs.filter fun x => decide (x.date = p.1)) ∧
    (∀ x ∈ obs, x.date ∈ (groupByDate obs).map Prod.fst) ∧
    ((groupByDate obs).map Prod.fst).Nodup := by
  induction obs using List.reverseRecOn with
  | nil => simp [groupByDate]
  | append_singleton s o ih =>
      obtain ⟨h1, h2, h3⟩ := ih
      have hstep : groupByDate (s ++ [o]) = addObs (groupByDate s) o := by
        simp [groupByDate, List.foldl_append]
      have hkeys := addObs_keys (groupByDate s) o
      refine ⟨?_, ?_, ?_⟩
      · intro p hp
        rw [hstep] at hp
        rcases addObs_mem_cases o (groupByDate s) h3 p hp with
          ⟨hm, hne⟩ | ⟨l, rfl, hm⟩ | ⟨rfl, hnk⟩
        · rw [List.filter_append, h1 p hm]
          have : (List.filter (fun x => decide (x.date = p.1)) [o]) = [] := by
            simp [hne.symm, fun h : o.date = p.1 => hne h.symm]
          rw [this, List.append_nil]
        · rw [List.filter_append]
          have hl := h1 (o.date, l) hm
          simp only at hl
          rw [← hl]
          simp
        · rw [List.filter_append]
          have hs : (List.filter (fun x => decide (x.date = o.date)) s) = [] := by
            rw [List.filter_eq_nil_iff]
            intro x hx hdx
            exact hnk ((of_decide_eq_true hdx) ▸ h2 x hx)
          simp only
          rw [hs]
          simp
      · intro x hx
        rw [hstep, hkeys]
        rcases List.mem_append.mp hx with hx | hx
        · split
          · exact h2 x hx
          · exact List.mem_append_left _ (h2 x hx)
        · rcases List.mem_singleton.mp hx with rfl
          split
          · assumption
          · exact List.mem_append_right _ (List.mem_singleton_self _)
      · rw [hstep, hkeys]
        split
        · exact h3
        · rename_i hnk
          simp [List.nodup_append, h3, hnk]

theorem groupByDate_bucket (obs : List Observation)
    {p : ℤ × List Observation} (hp : p ∈ groupByDate obs) :
    p.2 = obs.filter fun x => decide (x.date = p.1) :=
  (groupByDate_invariant obs).1 p hp

theorem mkDayData_date (opts : SymptomOptions) (d : ℤ)
    (l : List Observation) : (mkDayData opts d l).date = d := rfl

theorem mkDayData_hasOPK (opts : SymptomOptions) (d : ℤ)
    (l : List Observation) :
    (mkDayData opts d l).hasOPKPositive = true ↔
      (l.find? isOPK).bind opkValue = some OPKResultType.positive := by
  simp only [mkDayData]
  cases h : (l.find? isOPK).bind opkValue with
  | none => simp [h]
  | some v =>
      simp only [h]
      constructor
      · intro hv
        exact congrArg some (of_decide_eq_true hv)
      · intro hv
        cases hv
        exact decide_eq_true rfl

theorem analyzeDays_mem (obs : List Observation) (opts : SymptomOptions)
    {day : DayFertilityData} :
    day ∈ analyzeDays obs opts ↔
      ∃ p ∈ groupByDate obs, day = mkDayData opts p.1 p.2 := by
  unfold analyzeDays
  rw [(stableSort_perm _ _).mem_iff]
  simp only [List.mem_map]
  constructor
  · rintro ⟨p, hp, rfl⟩
    exact ⟨p, hp, rfl⟩
  · rintro ⟨p, hp, rfl⟩
    exact ⟨p, hp, rfl⟩

theorem analyzeDays_sorted (obs : List Observation) (opts : SymptomOptions) :
    (analyzeDays obs opts).Pairwise fun a b => a.date ≤ b.date := by
  have h := stableSort_pairwise
    (fun (a b : DayFertilityData) => decide (a.date ≤ b.date))
    (fun a b c hab hbc =>
      decide_eq_true (le_trans (of_decide_eq_true hab) (of_decide_eq_true hbc)))
    (fun a b => by
      rcases le_total a.date b.date with h | h
      · exact Or.inl (decide_eq_true h)
      · exact Or.inr (decide_eq_true h))
    ((groupByDate obs).map fun p => mkDayData opts p.1 p.2)
  exact h.imp fun hab => of_decide_eq_true hab

theorem analyzeDays_flag (obs : List Observation) (opts : SymptomOptions)
    {day : DayFertilityData} (h : day ∈ analyzeDays obs opts) :
    day.hasOPKPositive = true ↔
      (firstOPKOnDate obs day.date).bind opkValue =
        some OPKResultType.positive := by
  obtain ⟨p, hp, rfl⟩ := (analyzeDays_mem obs opts).mp h
  rw [mkDayData_hasOPK, mkDayData_date, firstOPKOnDate,
    ← groupByDate_bucket obs hp]

/-- C6, counterexample.  Two OPK observations share the date 5, the first
negative and the second positive.  The claim says the day's opkPositive
flag is true whenever ANY OPK observation on the date is positive, but
analyzeDays reads only the first OPK observation of the day, so the flag
stays false and the predictor returns nothing. -/
theorem analyzeDays_second_opk_ignored_cex :
    (∃ o ∈ [Observation.mk "o1" 5 (.opk .negative),
            Observation.mk "o2" 5 (.opk .positive)],
        isOPK o = true ∧ o.date = 5 ∧
        opkValue o = some OPKResultType.positive) ∧
    (analyzeDays [Observation.mk "o1" 5 (.opk .negative),
                  Observation.mk "o2" 5 (.opk .positive)]
        defaultSymptomOptions).map (fun d => (d.date, d.hasOPKPositive)) =
      [(5, false)] ∧
    predictFromSymptoms ⟨"id0", "t0"⟩
      [Observation.mk "o1" 5 (.opk .negative),
       Observation.mk "o2" 5 (.opk .positive)] none defaultSymptomOptions =
      none := by
  decide

/-- C6, amended.  In the per-day aggregation a day's opkPositive flag is
true exactly when the FIRST OPK observation recorded on that date (in
input order) is positive; and when at least one day is flagged, the
emitted window is [D - daysBeforeOPK, D + daysAfterOPK] with ovulation
day D + 1, where D is the earliest flagged day. -/
theorem symptom_first_opk_window (env : Env)
    (observations : List Observation) (cs : Option ℤ)
    (opts : SymptomOptions)
    (hflag : ∃ day ∈ analyzeDays (relevantObservations observations) opts,
        day.hasOPKPositive = true) :
    (∀ day ∈ analyzeDays (relevantObservations observations) opts,
        (day.hasOPKPositive = true ↔
          (firstOPKOnDate (relevantObservations observations) day.date).bind
            opkValue = some OPKResultType.positive)) ∧
    ∃ D pred,
      (∃ day ∈ analyzeDays (relevantObservations observations) opts,
          day.date = D ∧ day.hasOPKPositive = true) ∧
      (∀ day ∈ analyzeDays (relevantObservations observations) opts,
          day.hasOPKPositive = true → D ≤ day.date) ∧
      predictFromSymptoms env observations cs opts = some pred ∧
      pred.fertileStart = D - opts.daysBeforeOPK ∧
      pred.fertileEnd = D + opts.daysAfterOPK ∧
      pred.ovulationDate = some (D + 1) := by
  refine ⟨fun day h => analyzeDays_flag _ opts h, ?_⟩
  obtain ⟨fd, hfd, hfdpos⟩ := hflag
  have hmemfil : fd ∈ (analyzeDays (relevantObservations observations)
      opts).filter (·.hasOPKPositive) :=
    List.mem_filter.mpr ⟨hfd, hfdpos⟩
  obtain ⟨h0, ft, hff⟩ : ∃ h0 ft,
      (analyzeDays (relevantObservations observations) opts).filter
        (·.hasOPKPositive) = h0 :: ft := by
    cases hc : (analyzeDays (relevantObservations observations) opts).filter
        (·.hasOPKPositive) with
    | nil => rw [hc] at hmemfil; cases hmemfil
    | cons a b => exact ⟨a, b, rfl⟩
  have hh0 : h0 ∈ (analyzeDays (relevantObservations observations)
      opts).filter (·.hasOPKPositive) := by
    rw [hff]; exact List.mem_cons_self _ _
  have hh0dd : h0 ∈ analyzeDays (relevantObservations observations) opts :=
    (List.mem_filter.mp hh0).1
  have hh0pos : h0.hasOPKPositive = true := (List.mem_filter.mp hh0).2
  have hmin : ∀ day ∈ analyzeDays (relevantObservations observations) opts,
      day.hasOPKPositive = true → h0.date ≤ day.date := by
    intro day hday hpos
    have hmem : day ∈ (analyzeDays (relevantObservations observations)
        opts).filter (·.hasOPKPositive) :=
      List.mem_filter.mpr ⟨hday, hpos⟩
    rw [hff] at hmem
    rcases List.mem_cons.mp hmem with rfl | hmem
    · exact le_refl _
    · have hpw := (analyzeDays_sorted (relevantObservations observations)
        opts).filter (·.hasOPKPositive)
      rw [hff] at hpw
      exact (List.pairwise_cons.mp hpw).1 day hmem
  obtain ⟨d0, dtl, hddeq⟩ : ∃ d0 dtl,
      analyzeDays (relevantObservations observations) opts = d0 :: dtl := by
    cases hc : analyzeDays (relevantObservations observations) opts with
    | nil => rw [hc] at hfd; cases hfd
    | cons a b => exact ⟨a, b, rfl⟩
  have hrosne : (relevantObservations observations).isEmpty = false := by
    cases hrc : relevantObservations observations with
    | nil =>
        exfalso
        have hz : analyzeDays (relevantObservations observations) opts = [] := by
          rw [hrc]; rfl
        rw [hddeq] at hz
        cases hz
    | cons a b => rfl
  have hff' : (d0 :: dtl).filter (·.hasOPKPositive) = h0 :: ft := by
    rw [← hddeq]; exact hff
  have hw : Symptoms.findFertileWindow
      (analyzeDays (relevantObservations observations) opts) opts =
      some (h0.date - opts.daysBeforeOPK, h0.date + opts.daysAfterOPK,
        h0.date + 1) := by
    rw [hddeq]
    simp only [Symptoms.findFertileWindow, hff']
  unfold predictFromSymptoms
  simp only [hrosne, Bool.false_eq_true, if_false, hw]
  refine ⟨h0.date, _, ⟨h0, hh0dd, rfl, hh0pos⟩, hmin, rfl, ?_, ?_, ?_⟩
  · rfl
  · rfl
  · rfl

/-- C6, witness for the amended theorem at a single positive OPK
observation on day 12. -/
theorem symptom_first_opk_window_witness :
    (∃ day ∈ analyzeDays (relevantObservations
        [Observation.mk "w1" 12 (.opk .positive)]) defaultSymptomOptions,
        day.hasOPKPositive = true) ∧
    ((∀ day ∈ analyzeDays (relevantObservations
          [Observation.mk "w1" 12 (.opk .positive)]) defaultSymptomOptions,
        (day.hasOPKPositive = true ↔
          (firstOPKOnDate (relevantObservations
              [Observation.mk "w1" 12 (.opk .positive)]) day.date).bind
            opkValue = some OPKResultType.positive)) ∧
    ∃ D pred,
      (∃ day ∈ analyzeDays (relevantObservations
          [Observation.mk "w1" 12 (.opk .positive)]) defaultSymptomOptions,
          day.date = D ∧ day.hasOPKPositive = true) ∧
      (∀ day ∈ analyzeDays (relevantObservations
          [Observation.mk "w1" 12 (.opk .positive)]) defaultSymptomOptions,
          day.hasOPKPositive = true → D ≤ day.date) ∧
      predictFromSymptoms ⟨"wid", "wts"⟩
        [Observation.mk "w1" 12 (.opk .positive)] none
        defaultSymptomOptions = some pred ∧
      pred.fertileStart = D - defaultSymptomOptions.daysBeforeOPK ∧
      pred.fertileEnd = D + defaultSymptomOptions.daysAfterOPK ∧
      pred.ovulationDate = some (D + 1)) :=
  ⟨by decide,
   symptom_first_opk_window ⟨"wid", "wts"⟩
     [Observation.mk "w1" 12 (.opk .positive)] none defaultSymptomOptions
     (by decide)⟩

end Fertile.Symptoms

namespace Fertile.FFImport

open Fertile

/-- C7, code evaluation at the failing input.  The claim (and the spec)
say the European day/month/year rule resolves 25/12/2024 to 2024-12-25.
In the source the United States branch and the European branch test the
same pattern, so the United States branch captures every slash date and
emits year-first-field-second-field: 25/12/2024 becomes "2024-25-12",
which is not even a valid ISO month.  The third conjunct confirms the
part of the claim that does hold: an ambiguous slash date is read as
month first. -/
theorem parseDate_eu_dead_branch :
    parseDate (fun _ => none) "25/12/2024" 5 = .ok "2024-25-12" ∧
    parseDate (fun _ => none) "25/12/2024" 5 ≠ .ok "2024-12-25" ∧
    parseDate (fun _ => none) "03/04/2024" 2 = .ok "2024-03-04" := by
  decide

/-- C8, counterexample.  The canonical value egg-white is produced by
normalization (for instance from the eggwhite spelling), but feeding the
canonical spelling back through the synonym table yields unknown, because
CM_MAP lists "eggwhite" and "egg white" yet not "egg-white"; the
conversion step then drops the value, so egg-white is not a fixed
point. -/
theorem cm_eggwhite_not_fixed_cex :
    mapFFCervicalMucus FFCervicalMucus.eggwhite = CervicalMucusType.eggWhite ∧
    parseCervicalMucus (some (Symptoms.cmToString CervicalMucusType.eggWhite)) =
      some FFCervicalMucus.unknown ∧
    cmRoundtrip CervicalMucusType.eggWhite = none := by
  decide

/-- C8, amended.  Every canonical cervical-mucus value the normalization
can produce other than egg-white (dry, sticky, creamy, watery) is a fixed
point of the round trip, and both producible canonical OPK values
(negative and positive) are fixed points; egg-white alone parses back to
unknown and is dropped. -/
theorem normalization_fixed_points :
    (∀ ff : FFCervicalMucus, ff ≠ FFCervicalMucus.unknown →
      ff ≠ FFCervicalMucus.eggwhite →
      cmRoundtrip (mapFFCervicalMucus ff) = some (mapFFCervicalMucus ff)) ∧
    (∀ fo : FFOPKResult, fo ≠ FFOPKResult.unknown →
      opkRoundtrip (mapFFOPKResult fo) = some (mapFFOPKResult fo)) := by
  constructor
  · intro ff h1 h2
    cases ff
    · decide
    · decide
    · decide
    · decide
    · exact absurd rfl h2
    · exact absurd rfl h1
  · intro fo h1
    cases fo
    · decide
    · decide
    · decide
    · exact absurd rfl h1

/-- C8, witness: the watery spelling and the peak OPK spelling (which
collapses to positive) both round-trip. -/
theorem normalization_fixed_points_witness :
    (FFCervicalMucus.watery ≠ FFCervicalMucus.unknown ∧
     FFCervicalMucus.watery ≠ FFCervicalMucus.eggwhite ∧
     FFOPKResult.peak ≠ FFOPKResult.unknown) ∧
    cmRoundtrip (mapFFCervicalMucus FFCervicalMucus.watery) =
      some (mapFFCervicalMucus FFCervicalMucus.watery) ∧
    opkRoundtrip (mapFFOPKResult FFOPKResult.peak) =
      some (mapFFOPKResult FFOPKResult.peak) :=
  ⟨by decide,
   (normalization_fixed_points.1 FFCervicalMucus.watery
     (by decide) (by decide)),
   (normalization_fixed_points.2 FFOPKResult.peak (by decide))⟩

end Fertile.FFImport

namespace Fertile.Calendar

open Fertile

/-- C9, counterexample.  predictFromCalendar reads the ambient RNG and
clock (crypto.randomUUID and new Date) for the minted identifier and
timestamps, so two invocations on the same explicit input produce
different outputs. -/
theorem predictFromCalendar_env_dependent_cex :
    predictFromCalendar ⟨"id-a", "t-a"⟩ 0 [] defaultCalendarOptions ≠
      predictFromCalendar ⟨"id-b", "t-b"⟩ 0 [] defaultCalendarOptions ∧
    (predictFromCalendar ⟨"id-a", "t-a"⟩ 0 [] defaultCalendarOptions).id =
      "id-a" ∧
    (predictFromCalendar ⟨"id-b", "t-b"⟩ 0 [] defaultCalendarOptions).id =
      "id-b" := by
  refine ⟨?_, rfl, rfl⟩
  intro h
  have hid := congrArg Prediction.id h
  exact absurd hid (by decide)

/-- C9, amended.  The predictors touch the ambient environment only for
the minted identifier and the created/updated timestamps; the source tag,
window, ovulation date, confidence and notes are functions of the
explicit inputs alone, so they agree across any two environments.  The
reconciler takes no environment at all. -/
theorem predictors_deterministic_modulo_ambient (e1 e2 : Env) :
    (∀ (start : ℤ) (cycles : List Cycle) (opts : CalendarOptions),
      ((predictFromCalendar e1 start cycles opts).source,
       (predictFromCalendar e1 start cycles opts).fertileStart,
       (predictFromCalendar e1 start cycles opts).fertileEnd,
       (predictFromCalendar e1 start cycles opts).ovulationDate,
       (predictFromCalendar e1 start cycles opts).confidence,
       (predictFromCalendar e1 start cycles opts).notes) =
      ((predictFromCalendar e2 start cycles opts).source,
       (predictFromCalendar e2 start cycles opts).fertileStart,
       (predictFromCalendar e2 start cycles opts).fertileEnd,
       (predictFromCalendar e2 start cycles opts).ovulationDate,
       (predictFromCalendar e2 start cycles opts).confidence,
       (predictFromCalendar e2 start cycles opts).notes)) ∧
    (∀ (obs : List Observation) (cs : Option ℤ)
        (opts : Symptoms.SymptomOptions),
      (Symptoms.predictFromSymptoms e1 obs cs opts).map
        (fun p => (p.source, p.fertileStart, p.fertileEnd, p.ovulationDate,
          p.confidence, p.notes)) =
      (Symptoms.predictFromSymptoms e2 obs cs opts).map
        (fun p => (p.source, p.fertileStart, p.fertileEnd, p.ovulationDate,
          p.confidence, p.notes))) := by
  constructor
  · intro start cycles opts
    rfl
  · intro obs cs opts
    unfold Symptoms.predictFromSymptoms
    cases h : (Symptoms.relevantObservations obs).isEmpty
    · simp only [h, Bool.false_eq_true, if_false]
      cases hw : Symptoms.findFertileWindow
          (Symptoms.analyzeDays (Symptoms.relevantObservations obs) opts)
          opts with
      | none => rfl
      | some w =>
          obtain ⟨ws, we, pk⟩ := w
          rfl
    · simp only [h, if_true]

end Fertile.Calendar

namespace Fertile.Reconciler

open Fertile

theorem jsRound_intCast (n : ℤ) : jsRound ((n : ℝ)) = n := by
  unfold jsRound
  rw [Int.floor_eq_iff]
  constructor
  · linarith
  · linarith

theorem daysBetween_intCast (m n : ℤ) :
    daysBetween (m : ℝ) (n : ℝ) = |m - n| := by
  unfold daysBetween
  have h : |(m : ℝ) - (n : ℝ)| = ((|m - n| : ℤ) : ℝ) := by
    push_cast
    rfl
  rw [h, jsRound_intCast]

theorem sum_rawScores (w : SourceWeights) (d : ℤ) (ps : List Prediction) :
    ((ps.filterMap (rawScoreOf w d)).map (·.2)).sum =
      (ps.map (contribValue w d)).sum := by
  induction ps with
  | nil => simp
  | cons p t ih =>
      rw [List.filterMap_cons]
      cases h : rawScoreOf w d p with
      | none => simp [contribValue, h, ih]
      | some v => simp [contribValue, h, ih]

theorem contribValue_nonneg {w : SourceWeights} {d : ℤ} {p : Prediction}
    (hw : 0 ≤ getWeight p.source w) (hc : 0 ≤ selfConfidence p) :
    0 ≤ contribValue w d p := by
  unfold contribValue rawScoreOf
  split
  · simpa using mul_nonneg hw hc
  · split
    · rename_i hkept
      simp only [Option.map_some', Option.getD_some]
      linarith [hkept]
    · simp

theorem contribValue_le {w : SourceWeights} {d : ℤ} {p : Prediction}
    (hw : 0 ≤ getWeight p.source w) (hc : 0 ≤ selfConfidence p) :
    contribValue w d p ≤ getWeight p.source w * selfConfidence p := by
  unfold contribValue rawScoreOf
  split
  · simp
  · split
    · simp only [Option.map_some', Option.getD_some]
      have hexp : Real.exp (-((min (daysBetween (d : ℝ) (p.fertileStart : ℝ))
          (daysBetween (d : ℝ) (p.fertileEnd : ℝ)) : ℝ))^2 / 2) ≤ 1 := by
        apply Real.exp_le_one_iff.mpr
        have : (0:ℝ) ≤ ((min (daysBetween (d : ℝ) (p.fertileStart : ℝ))
            (daysBetween (d : ℝ) (p.fertileEnd : ℝ)) : ℝ))^2 := sq_nonneg _
        linarith
      calc getWeight p.source w * selfConfidence p *
            Real.exp (-((min (daysBetween (d : ℝ) (p.fertileStart : ℝ))
              (daysBetween (d : ℝ) (p.fertileEnd : ℝ)) : ℝ))^2 / 2)
          ≤ getWeight p.source w * selfConfidence p * 1 := by
            apply mul_le_mul_of_nonneg_left hexp (mul_nonneg hw hc)
        _ = getWeight p.source w * selfConfidence p := by ring
    · simpa using mul_nonneg hw hc

theorem contribValue_ge_inWindow {w : SourceWeights} {d : ℤ} {p : Prediction}
    (hw : 0 ≤ getWeight p.source w) (hc : 0 ≤ selfConfidence p) :
    (if inWindow p d then getWeight p.source w * selfConfidence p else 0) ≤
      contribValue w d p := by
  by_cases h : inWindow p d
  · rw [if_pos h]
    unfold contribValue rawScoreOf
    rw [if_pos h]
    simp
  · rw [if_neg h]
    exact contribValue_nonneg hw hc

theorem dayScoreAt_date (ps : List Prediction) (w : SourceWeights) (d : ℤ) :
    (dayScoreAt ps w d).date = d := rfl

theorem dayScoreAt_probability (ps : List Prediction) (w : SourceWeights)
    (d : ℤ) :
    (dayScoreAt ps w d).probability =
      if 0 < totalEffectiveWeight ps w then
        (ps.map (contribValue w d)).sum / totalEffectiveWeight ps w
      else 0 := by
  unfold dayScoreAt
  simp only
  rw [sum_rawScores]

theorem dayScore_prob_le {ps : List Prediction} {w : SourceWeights} (d : ℤ)
    (hw : ∀ p ∈ ps, 0 ≤ getWeight p.source w)
    (hc : ∀ p ∈ ps, 0 ≤ selfConfidence p)
    (hW : 0 < totalEffectiveWeight ps w) :
    (dayScoreAt ps w d).probability ≤
      (ps.map fun p => getWeight p.source w * selfConfidence p).sum /
        totalEffectiveWeight ps w := by
  rw [dayScoreAt_probability, if_pos hW]
  refine (div_le_div_iff_of_pos_right hW).mpr ?_
  exact List.sum_le_sum fun p hp => contribValue_le (hw p hp) (hc p hp)

theorem sourceAgreement_pos (ps : List Prediction) :
    0 < calculateSourceAgreement ps := by
  unfold calculateSourceAgreement
  split
  · norm_num
  · exact Real.exp_pos _

theorem sourceAgreement_le_one (ps : List Prediction) :
    calculateSourceAgreement ps ≤ 1 := by
  unfold calculateSourceAgreement
  split
  · exact le_refl 1
  · apply Real.exp_le_one_iff.mpr
    have hs : (0:ℝ) ≤ ((ps.map fun p => (p.fertileStart : ℝ)).map fun s =>
        (s - (ps.map fun p => (p.fertileStart : ℝ)).sum /
          (((ps.map fun p => (p.fertileStart : ℝ)).length : ℝ)))^2).sum := by
      apply List.sum_nonneg
      intro x hx
      obtain ⟨y, _, rfl⟩ := List.mem_map.mp hx
      exact sq_nonneg _
    have he : (0:ℝ) ≤ ((ps.map fun p => (p.fertileEnd : ℝ)).map fun e =>
        (e - (ps.map fun p => (p.fertileEnd : ℝ)).sum /
          (((ps.map fun p => (p.fertileEnd : ℝ)).length : ℝ)))^2).sum := by
      apply List.sum_nonneg
      intro x hx
      obtain ⟨y, _, rfl⟩ := List.mem_map.mp hx
      exact sq_nonneg _
    have hlen : (0:ℝ) ≤ (((ps.map fun p => (p.fertileStart : ℝ)).length : ℕ) : ℝ) := by
      positivity
    have h1 : (0:ℝ) ≤ ((ps.map fun p => (p.fertileStart : ℝ)).map fun s =>
        (s - (ps.map fun p => (p.fertileStart : ℝ)).sum /
          (((ps.map fun p => (p.fertileStart : ℝ)).length : ℝ)))^2).sum /
        (((ps.map fun p => (p.fertileStart : ℝ)).length : ℕ) : ℝ) :=
      div_nonneg hs hlen
    have h2 : (0:ℝ) ≤ ((ps.map fun p => (p.fertileEnd : ℝ)).map fun e =>
        (e - (ps.map fun p => (p.fertileEnd : ℝ)).sum /
          (((ps.map fun p => (p.fertileEnd : ℝ)).length : ℝ)))^2).sum /
        (((ps.map fun p => (p.fertileEnd : ℝ)).length : ℕ) : ℝ) :=
      div_nonneg he (by positivity)
    linarith

theorem sourceAgreement_single (p : Prediction) :
    calculateSourceAgreement [p] = 1 := by
  simp [calculateSourceAgreement]

end Fertile.Reconciler

namespace Fertile

theorem stableSort_concat (le : α → α → Bool) (l : List α) (x : α) :
    stableSort le (l ++ [x]) = insertStable le x (stableSort le l) := by
  unfold stableSort
  rw [List.foldl_append]
  rfl

theorem foldl_pick_mem {α : Type _} (f : α → α → α)
    (hf : ∀ a b, f a b = a ∨ f a b = b) :
    ∀ (l : List α) (a : α), l.foldl f a ∈ a :: l := by
  intro l
  induction l with
  | nil => intro a; simp
  | cons x t ih =>
      intro a
      simp only [List.foldl_cons]
      rcases hf a x with h | h <;> rw [h]
      · rcases List.mem_cons.mp (ih a) with h' | h'
        · rw [h']
          exact List.mem_cons_self _ _
        · exact List.mem_cons_of_mem _ (List.mem_cons_of_mem _ h')
      · rcases List.mem_cons.mp (ih x) with h' | h'
        · rw [h']
          exact List.mem_cons_of_mem _ (List.mem_cons_self _ _)
        · exact List.mem_cons_of_mem _ (List.mem_cons_of_mem _ h')

theorem getLastD_mem {α : Type _} :
    ∀ (l : List α) (d : α), l ≠ [] → l.getLastD d ∈ l := by
  intro l
  induction l with
  | nil => intro d h; exact absurd rfl h
  | cons a t ih =>
      intro d _
      rw [List.getLastD_cons]
      cases ht : t with
      | nil => simp
      | cons b t' =>
          have := ih a (by simp [ht])
          rw [ht] at this
          exact List.mem_cons_of_mem _ (ht ▸ this)

theorem stableSort_head_firstMax {α : Type _} (f : α → ℝ) (d : α) :
    ∀ l : List α, l ≠ [] →
    ∃ i : ℕ, l[i]? = some ((stableSort (fun a b => decide (f b ≤ f a)) l).headD d) ∧
      (∀ q ∈ l,
        f q ≤ f ((stableSort (fun a b => decide (f b ≤ f a)) l).headD d)) ∧
      (∀ j, j < i → ∀ q, l[j]? = some q →
        f q < f ((stableSort (fun a b => decide (f b ≤ f a)) l).headD d)) := by
  intro l
  induction l using List.reverseRecOn with
  | nil => intro h; exact absurd rfl h
  | append_singleton l x ih =>
      intro _
      rw [stableSort_concat]
      by_cases hl : l = []
      · subst hl
        refine ⟨0, by simp [stableSort, insertStable], ?_, ?_⟩
        · intro q hq
          rcases List.mem_singleton.mp (by simpa using hq) with rfl
          simp [stableSort, insertStable]
        · intro j hj
          exact absurd hj (by omega)
      · obtain ⟨i, hi, hmax, hpre⟩ := ih hl
        cases hsd : stableSort (fun a b => decide (f b ≤ f a)) l with
        | nil =>
            exfalso
            have hp := stableSort_perm (fun a b => decide (f b ≤ f a)) l
            rw [hsd] at hp
            exact hl (hp.symm.eq_nil ▸ rfl)
        | cons h0 t0 =>
            have hh0 : (stableSort (fun a b => decide (f b ≤ f a)) l).headD d
                = h0 := by rw [hsd]; rfl
            rw [hh0] at hi hmax hpre
            by_cases hle : f x ≤ f h0
            · have hcond : (fun a b => decide (f b ≤ f a)) h0 x = true :=
                decide_eq_true hle
              have hins : insertStable (fun a b => decide (f b ≤ f a)) x
                  (h0 :: t0) = h0 :: insertStable
                    (fun a b => decide (f b ≤ f a)) x t0 := by
                simp only [insertStable, hcond, if_true]
              rw [hins]
              have hilt : i < l.length := by
                rcases List.getElem?_eq_some_iff.mp hi with ⟨hlt, _⟩
                exact hlt
              refine ⟨i, ?_, ?_, ?_⟩
              · rw [List.getElem?_append_left hilt]
                exact hi
              · intro q hq
                rcases List.mem_append.mp hq with h | h
                · exact hmax q h
                · rcases List.mem_singleton.mp h with rfl
                  exact hle
              · intro j hj q hq
                rw [List.getElem?_append_left (hj.trans hilt)] at hq
                exact hpre j hj q hq
            · have hgt : f h0 < f x := not_le.mp hle
              have hcond : (fun a b => decide (f b ≤ f a)) h0 x = false := by
                simp [hle]
              have hins : insertStable (fun a b => decide (f b ≤ f a)) x
                  (h0 :: t0) = x :: h0 :: t0 := by
                simp only [insertStable, hcond]
                rfl
              rw [hins]
              refine ⟨l.length, ?_, ?_, ?_⟩
              · simpa using List.getElem?_concat_length l x
              · intro q hq
                rcases List.mem_append.mp hq with h | h
                · exact le_of_lt ((hmax q h).trans_lt hgt)
                · rcases List.mem_singleton.mp h with rfl
                  exact le_refl _
              · intro j hj q hq
                rw [List.getElem?_append_left hj] at hq
                have hqmem : q ∈ l := by
                  rcases List.getElem?_eq_some_iff.mp hq with ⟨hlt, hget⟩
                  exact hget ▸ List.getElem_mem _
                exact (hmax q hqmem).trans_lt hgt

end Fertile

namespace Fertile.Reconciler

open Fertile

theorem effTh_default_bounds (A : ℝ) (h0 : 0 ≤ A) (h1 : A ≤ 1) :
    0.3 ≤ effectiveThresholdOf {} A ∧ effectiveThresholdOf {} A ≤ 0.45 := by
  unfold effectiveThresholdOf optMinCT optDP
  simp only [Option.getD_none]
  split
  · constructor <;> nlinarith
  · norm_num

theorem validPredictionsOf_eq_self {ps : List Prediction}
    (h : ∀ p ∈ ps, 0 < p.confidence.getD 50) :
    validPredictionsOf ps = ps :=
  List.filter_eq_self.mpr fun p hp => decide_eq_true (h p hp)

theorem scanRuns_spec :
    ∀ (rest : List (ℤ × ℝ)) (i : ℕ) (prev : ℤ) (bS bL cS cL : ℕ),
    1 ≤ bL → 1 ≤ cL → bS + bL ≤ i → cS + cL = i →
    ∃ b len, scanRuns i prev rest bS bL cS cL = (b, len) ∧
      1 ≤ len ∧ b + len ≤ i + rest.length := by
  intro rest
  induction rest with
  | nil =>
      intro i prev bS bL cS cL h1 h2 h3 h4
      unfold scanRuns
      split
      · exact ⟨cS, cL, rfl, h2, by simpa using by omega⟩
      · exact ⟨bS, bL, rfl, h1, by simpa using by omega⟩
  | cons c t ih =>
      intro i prev bS bL cS cL h1 h2 h3 h4
      unfold scanRuns
      split
      · obtain ⟨b, len, heq, hl1, hl2⟩ := ih (i + 1) c.1 bS bL cS (cL + 1)
          h1 (by omega) (by omega) (by omega)
        exact ⟨b, len, heq, hl1, by rw [List.length_cons]; omega⟩
      · split
        · obtain ⟨b, len, heq, hl1, hl2⟩ := ih (i + 1) c.1 cS cL i 1
            h2 (by omega) (by omega) (by omega)
          exact ⟨b, len, heq, hl1, by rw [List.length_cons]; omega⟩
        · obtain ⟨b, len, heq, hl1, hl2⟩ := ih (i + 1) c.1 bS bL i 1
            h1 (by omega) (by omega) (by omega)
          exact ⟨b, len, heq, hl1, by rw [List.length_cons]; omega⟩

theorem findFertileWindow_none_of {ds : List DayScore} {th : ℝ}
    (h : ∀ s ∈ ds, s.probability < th) : findFertileWindow ds th = none := by
  unfold findFertileWindow
  have hf : (ds.map fun d => (d.date, d.probability)).filter
      (fun d => decide (th ≤ d.2)) = [] := by
    rw [List.filter_eq_nil_iff]
    intro x hx
    obtain ⟨s, hs, rfl⟩ := List.mem_map.mp hx
    simp only [decide_eq_true_eq]
    exact not_le.mpr (h s hs)
  simp only [hf]

theorem pairwise_fst_le_getLastD :
    ∀ (l : List (ℤ × ℝ)) (dflt : ℤ × ℝ),
    (l.Pairwise fun a b => a.1 ≤ b.1) → ∀ x ∈ l, x.1 ≤ (l.getLastD dflt).1 := by
  intro l
  induction l with
  | nil => intro dflt _ x hx; cases hx
  | cons a t ih =>
      intro dflt hpw x hx
      rw [List.getLastD_cons]
      rcases List.mem_cons.mp hx with rfl | hx
      · by_cases ht : t = []
        · subst ht
          simp
        · have hmem := getLastD_mem t x ht
          exact (List.pairwise_cons.mp hpw).1 _ hmem
      · exact ih a (List.pairwise_cons.mp hpw).2 x hx

theorem windowFromSorted_isSome {l : List (ℤ × ℝ)} (h : l ≠ []) :
    (windowFromSorted l).isSome := by
  cases l with
  | nil => exact absurd rfl h
  | cons d0 rest =>
      obtain ⟨b, len, heq, h1, h2⟩ := scanRuns_spec rest 1 d0.1 0 1 0 1
        (le_refl 1) (le_refl 1) (by omega) (by omega)
      cases hwd : (((d0 :: rest).drop (scanRuns 1 d0.1 rest 0 1 0 1).1).take
          (scanRuns 1 d0.1 rest 0 1 0 1).2) with
      | nil =>
          exfalso
          have hlen2 := congrArg List.length hwd
          rw [heq] at hlen2
          simp only [List.length_take, List.length_drop, List.length_cons,
            List.length_nil] at hlen2
          omega
      | cons w0 wr =>
          simp only [windowFromSorted, hwd]
          simp

theorem windowFromSorted_sound {l : List (ℤ × ℝ)}
    (hpw : l.Pairwise fun a b => a.1 ≤ b.1) {ws we pk : ℤ}
    (h : windowFromSorted l = some (ws, we, pk)) : ws ≤ pk ∧ pk ≤ we := by
  cases l with
  | nil => cases h
  | cons d0 rest =>
      cases hwd : (((d0 :: rest).drop (scanRuns 1 d0.1 rest 0 1 0 1).1).take
          (scanRuns 1 d0.1 rest 0 1 0 1).2) with
      | nil =>
          simp only [windowFromSorted, hwd] at h
          cases h
      | cons w0 wr =>
          simp only [windowFromSorted, hwd] at h
          have hsub : List.Sublist (w0 :: wr) (d0 :: rest) := by
            rw [← hwd]
            exact (List.take_sublist _ _).trans (List.drop_sublist _ _)
          have hpww : (w0 :: wr).Pairwise fun a b => a.1 ≤ b.1 :=
            hpw.sublist hsub
  
          have hpick : ∀ a b : ℤ × ℝ,
              (if a.2 < b.2 then b else a) = a ∨
              (if a.2 < b.2 then b else a) = b := by
            intro a b
            split
            · exact Or.inr rfl
            · exact Or.inl rfl
          have hpeak : ((w0 :: wr).foldl
              (fun best day => if best.2 < day.2 then day else best) w0) ∈
              w0 :: w0 :: wr :=
            foldl_pick_mem _ hpick (w0 :: wr) w0
          have hpeakmem : ((w0 :: wr).foldl
              (fun best day => if best.2 < day.2 then day else best) w0) ∈
              w0 :: wr := by
            rcases List.mem_cons.mp hpeak with h' | h'
            · rw [h']
              exact List.mem_cons_self _ _
            · exact h'
          have hinj := Option.some.inj h
          have hws : ws = w0.1 := congrArg Prod.fst hinj.symm
          have hwe : we = ((w0 :: wr).getLastD w0).1 := by
            have := congrArg (fun t => t.2.1) hinj
            exact this.symm
          have hpk : pk = ((w0 :: wr).foldl
              (fun best day => if best.2 < day.2 then day else best) w0).1 := by
            have := congrArg (fun t => t.2.2) hinj
            exact this.symm
          constructor
          · rw [hws, hpk]
            rcases List.mem_cons.mp hpeakmem with h' | h'
            · rw [h']
            · exact (List.pairwise_cons.mp hpww).1 _ h'
          · rw [hwe, hpk]
            exact pairwise_fst_le_getLastD _ w0 hpww _ hpeakmem

theorem dateLe_trans : ∀ a b c : ℤ × ℝ,
    (fun a b : ℤ × ℝ => decide (a.1 ≤ b.1)) a b = true →
    (fun a b : ℤ × ℝ => decide (a.1 ≤ b.1)) b c = true →
    (fun a b : ℤ × ℝ => decide (a.1 ≤ b.1)) a c = true := by
  intro a b c hab hbc
  exact decide_eq_true
    (le_trans (of_decide_eq_true hab) (of_decide_eq_true hbc))

theorem dateLe_total : ∀ a b : ℤ × ℝ,
    (fun a b : ℤ × ℝ => decide (a.1 ≤ b.1)) a b = true ∨
    (fun a b : ℤ × ℝ => decide (a.1 ≤ b.1)) b a = true := by
  intro a b
  rcases le_total a.1 b.1 with h | h
  · exact Or.inl (decide_eq_true h)
  · exact Or.inr (decide_eq_true h)

theorem findFertileWindow_isSome_of_mem {ds : List DayScore} {th : ℝ}
    {s : DayScore} (hs : s ∈ ds) (hge : th ≤ s.probability) :
    (findFertileWindow ds th).isSome := by
  unfold findFertileWindow
  have hmem : (s.date, s.probability) ∈
      (ds.map fun d => (d.date, d.probability)).filter
        (fun d => decide (th ≤ d.2)) :=
    List.mem_filter.mpr ⟨List.mem_map_of_mem _ hs, decide_eq_true hge⟩
  cases hfd : (ds.map fun d => (d.date, d.probability)).filter
      (fun d => decide (th ≤ d.2)) with
  | nil => rw [hfd] at hmem; cases hmem
  | cons f0 ft =>
      apply windowFromSorted_isSome
      intro hnil
      have hp := stableSort_perm (fun a b : ℤ × ℝ => decide (a.1 ≤ b.1))
        (f0 :: ft)
      rw [hnil] at hp
      exact absurd hp.symm.eq_nil (by simp)

theorem findFertileWindow_some_sound {ds : List DayScore} {th : ℝ}
    {ws we pk : ℤ} (h : findFertileWindow ds th = some (ws, we, pk)) :
    ws ≤ pk ∧ pk ≤ we := by
  unfold findFertileWindow at h
  cases hfd : (ds.map fun d => (d.date, d.probability)).filter
      (fun d => decide (th ≤ d.2)) with
  | nil => rw [hfd] at h; cases h
  | cons f0 ft =>
      rw [hfd] at h
      refine windowFromSorted_sound ?_ h
      have := stableSort_pairwise (fun a b : ℤ × ℝ => decide (a.1 ≤ b.1))
        dateLe_trans dateLe_total (f0 :: ft)
      exact this.imp fun hab => of_decide_eq_true hab

theorem bestByWeight_firstMax (valid : List Prediction) (w : SourceWeights)
    (h : valid ≠ []) :
    ∃ i : ℕ, valid[i]? = some (bestByWeight valid w) ∧
      (∀ q ∈ valid, getWeight q.source w ≤
        getWeight (bestByWeight valid w).source w) ∧
      (∀ j, j < i → ∀ q, valid[j]? = some q →
        getWeight q.source w < getWeight (bestByWeight valid w).source w) :=
  stableSort_head_firstMax (fun p : Prediction => getWeight p.source w)
    default valid h

theorem reconcile_eq_fallback (ps : List Prediction)
    (opts : ReconcilerOptions)
    (hlen : ¬ ps.length < optMinSources opts)
    (hvalid : (validPredictionsOf ps).isEmpty = false)
    (hw : findFertileWindow
        (buildDayScores (validPredictionsOf ps) (mergedWeights opts))
        (effectiveThresholdOf opts
          (calculateSourceAgreement (validPredictionsOf ps))) = none) :
    reconcile ps opts = some (fallbackResult (validPredictionsOf ps)
      (mergedWeights opts)
      (calculateSourceAgreement (validPredictionsOf ps))
      (identifyOutliers (validPredictionsOf ps) (mergedWeights opts))
      (buildDayScores (validPredictionsOf ps) (mergedWeights opts))) := by
  unfold reconcile
  simp only [if_neg hlen, hvalid, Bool.false_eq_true, if_false, hw]

theorem reconcile_eq_main (ps : List Prediction) (opts : ReconcilerOptions)
    (ws we pk : ℤ)
    (hlen : ¬ ps.length < optMinSources opts)
    (hvalid : (validPredictionsOf ps).isEmpty = false)
    (hw : findFertileWindow
        (buildDayScores (validPredictionsOf ps) (mergedWeights opts))
        (effectiveThresholdOf opts
          (calculateSourceAgreement (validPredictionsOf ps))) =
        some (ws, we, pk)) :
    reconcile ps opts = some (mainResult (validPredictionsOf ps)
      (mergedWeights opts)
      (calculateSourceAgreement (validPredictionsOf ps))
      (identifyOutliers (validPredictionsOf ps) (mergedWeights opts))
      (buildDayScores (validPredictionsOf ps) (mergedWeights opts))
      ws we pk) := by
  unfold reconcile
  simp only [if_neg hlen, hvalid, Bool.false_eq_true, if_false, hw]

end Fertile.Reconciler

namespace Fertile.Reconciler

open Fertile

theorem getWeight_merged_none (s : String) :
    getWeight s (mergedWeights {}) = (DEFAULT_WEIGHTS s).getD 0.5 := by
  cases h : DEFAULT_WEIGHTS s with
  | none => simp [mergedWeights, getWeight, h, Option.orElse]
  | some v => simp [mergedWeights, getWeight, h, Option.orElse]

theorem getWeight_default_nonneg (s : String) :
    0 ≤ getWeight s (mergedWeights {}) := by
  rw [getWeight_merged_none]
  unfold DEFAULT_WEIGHTS
  split_ifs <;> norm_num

theorem getWeight_flo : getWeight "flo" (mergedWeights {}) = 0.7 := by
  rw [getWeight_merged_none]
  simp [DEFAULT_WEIGHTS]
  norm_num

theorem getWeight_clue : getWeight "clue" (mergedWeights {}) = 0.7 := by
  rw [getWeight_merged_none]
  simp [DEFAULT_WEIGHTS]
  norm_num

theorem selfConfidence_nonneg {p : Prediction}
    (h : 0 ≤ p.confidence.getD 50) : 0 ≤ selfConfidence p := by
  unfold selfConfidence
  have : (0:ℝ) ≤ ((p.confidence.getD 50 : ℚ) : ℝ) := by exact_mod_cast h
  linarith

theorem contribValue_of_inWindow {w : SourceWeights} {d : ℤ}
    {p : Prediction} (h : inWindow p d = true) :
    contribValue w d p = getWeight p.source w * selfConfidence p := by
  unfold contribValue rawScoreOf
  rw [if_pos h]
  simp

theorem sourceAgreement_const {ps : List Prediction} {s e : ℤ}
    (hs : ∀ p ∈ ps, p.fertileStart = s ∧ p.fertileEnd = e) :
    calculateSourceAgreement ps = 1 := by
  unfold calculateSourceAgreement
  split
  · rfl
  · rename_i hlen
    have hstarts : ps.map (fun p => (p.fertileStart : ℝ)) =
        List.replicate ps.length ((s : ℤ) : ℝ) := by
      rw [List.eq_replicate_iff]
      refine ⟨by simp, ?_⟩
      intro b hb
      obtain ⟨p, hp, rfl⟩ := List.mem_map.mp hb
      exact_mod_cast congrArg (fun z => ((z : ℤ) : ℝ)) (hs p hp).1
    have hends : ps.map (fun p => (p.fertileEnd : ℝ)) =
        List.replicate ps.length ((e : ℤ) : ℝ) := by
      rw [List.eq_replicate_iff]
      refine ⟨by simp, ?_⟩
      intro b hb
      obtain ⟨p, hp, rfl⟩ := List.mem_map.mp hb
      exact_mod_cast congrArg (fun z => ((z : ℤ) : ℝ)) (hs p hp).2
    have hn : ps.length ≠ 0 := by
      intro hc
      rw [hc] at hlen
      exact hlen (by norm_num)
    have hrep : ∀ (a : ℝ), (List.replicate ps.length a).sum /
        ((List.replicate ps.length a).length : ℝ) = a := by
      intro a
      rw [List.sum_replicate, List.length_replicate, nsmul_eq_mul]
      field_simp
    have hvar : ∀ (a : ℝ), ((List.replicate ps.length a).map fun x =>
        (x - (List.replicate ps.length a).sum /
          ((List.replicate ps.length a).length : ℝ))^2).sum = 0 := by
      intro a
      rw [hrep a]
      apply List.sum_eq_zero
      intro x hx
      obtain ⟨y, hy, rfl⟩ := List.mem_map.mp hx
      rw [List.eq_of_mem_replicate hy]
      ring
    simp only [hstarts, hends]
    rw [hvar, hvar]
    norm_num

theorem mem_dateRange {a b x : ℤ} (h1 : a ≤ x) (h2 : x ≤ b) :
    x ∈ dateRange a b := by
  unfold dateRange
  apply List.mem_map.mpr
  refine ⟨(x - a).toNat, ?_, by omega⟩
  apply List.mem_range.mpr
  omega

/-- C1, amended.  For every prediction of nonzero confidence (the
admission filter drops confidence-zero predictions; see the
counterexample), reconcile on the singleton list with default options
returns a result whose diagnostics report one input prediction and
source agreement one. -/
theorem reconcile_single_diagnostics (P : Prediction)
    (h : 0 < P.confidence.getD 50) :
    ∃ r, reconcile [P] {} = some r ∧
      r.diagnostics.inputPredictions = 1 ∧
      r.diagnostics.sourceAgreement = 1 := by
  have hval : validPredictionsOf [P] = [P] := by
    apply validPredictionsOf_eq_self
    intro p hp
    rcases List.mem_singleton.mp hp with rfl
    exact h
  have hlen : ¬ ([P] : List Prediction).length < optMinSources {} := by
    simp [optMinSources]
  have hvalid : (validPredictionsOf [P]).isEmpty = false := by
    rw [hval]
    rfl
  have hag : calculateSourceAgreement (validPredictionsOf [P]) = 1 := by
    rw [hval]
    exact sourceAgreement_single P
  cases hw : findFertileWindow
      (buildDayScores (validPredictionsOf [P]) (mergedWeights {}))
      (effectiveThresholdOf {}
        (calculateSourceAgreement (validPredictionsOf [P]))) with
  | none =>
      refine ⟨_, reconcile_eq_fallback [P] {} hlen hvalid hw, ?_, ?_⟩
      · show (validPredictionsOf [P]).length = 1
        rw [hval]
        rfl
      · exact hag
  | some trip =>
      obtain ⟨ws, we, pk⟩ := trip
      refine ⟨_, reconcile_eq_main [P] {} ws we pk hlen hvalid hw, ?_, ?_⟩
      · show (validPredictionsOf [P]).length = 1
        rw [hval]
        rfl
      · exact hag

/-- C1, witness at a concrete prediction of confidence 70. -/
theorem reconcile_single_diagnostics_witness :
    (0 < (Prediction.mk "c1w" "flo" 10 15 none (some 70) none none
        "" "").confidence.getD 50) ∧
    ∃ r, reconcile [Prediction.mk "c1w" "flo" 10 15 none (some 70) none none
        "" ""] {} = some r ∧
      r.diagnostics.inputPredictions = 1 ∧
      r.diagnostics.sourceAgreement = 1 :=
  ⟨by norm_num,
   reconcile_single_diagnostics
     (Prediction.mk "c1w" "flo" 10 15 none (some 70) none none "" "")
     (by norm_num)⟩

/-- C1, counterexample.  A prediction whose confidence is zero is dropped
by the admission filter, so reconcile on its singleton returns null
rather than the non-null result the claim promises for every
prediction. -/
theorem reconcile_single_zero_conf_cex :
    reconcile [Prediction.mk "c1z" "flo" 10 15 none (some 0) none none
      "" ""] {} = none := by
  have hv : validPredictionsOf [Prediction.mk "c1z" "flo" 10 15 none
      (some 0) none none "" ""] = [] := by
    unfold validPredictionsOf
    simp
  unfold reconcile
  rw [hv]
  simp [optMinSources]

end Fertile.Reconciler

namespace Fertile.Reconciler

open Fertile

theorem dayScores_all_lt {ps : List Prediction} {w : SourceWeights} {th : ℝ}
    (hw : ∀ p ∈ ps, 0 ≤ getWeight p.source w)
    (hc : ∀ p ∈ ps, 0 ≤ selfConfidence p)
    (hW : 0 < totalEffectiveWeight ps w)
    (hbound : (ps.map fun p => getWeight p.source w * selfConfidence p).sum /
      totalEffectiveWeight ps w < th) :
    ∀ s ∈ buildDayScores ps w, s.probability < th := by
  intro s hs
  cases ps with
  | nil => cases hs
  | cons a t =>
      obtain ⟨d, _, rfl⟩ := List.mem_map.mp hs
      exact (dayScore_prob_le d hw hc hW).trans_lt hbound

theorem bestByWeight_singleton (p : Prediction) (w : SourceWeights) :
    bestByWeight [p] w = p := rfl

theorem totalEffectiveWeight_singleton (p : Prediction) (w : SourceWeights) :
    totalEffectiveWeight [p] w = getWeight p.source w := by
  simp [totalEffectiveWeight]

/-- C10, amended.  Whenever the main (non-fallback) path produces the
window — the fallback path copies the source prediction's ovulation date
verbatim and may place it outside the returned window, see the
counterexample — the ovulation estimate is the peak day of the extracted
run and lies inside the inclusive window. -/
theorem reconcile_main_ovulation_in_window (ps : List Prediction)
    (opts : ReconcilerOptions)
    (hlen : ¬ ps.length < optMinSources opts)
    (hvalid : (validPredictionsOf ps).isEmpty = false)
    (hsome : (findFertileWindow
        (buildDayScores (validPredictionsOf ps) (mergedWeights opts))
        (effectiveThresholdOf opts
          (calculateSourceAgreement (validPredictionsOf ps)))).isSome) :
    ∃ r, reconcile ps opts = some r ∧
      ∀ o, r.ovulationDate = some o →
        r.fertileStart ≤ o ∧ o ≤ r.fertileEnd := by
  cases hw : findFertileWindow
      (buildDayScores (validPredictionsOf ps) (mergedWeights opts))
      (effectiveThresholdOf opts
        (calculateSourceAgreement (validPredictionsOf ps))) with
  | none => rw [hw] at hsome; cases hsome
  | some trip =>
      obtain ⟨ws, we, pk⟩ := trip
      obtain ⟨h1, h2⟩ := findFertileWindow_some_sound hw
      refine ⟨_, reconcile_eq_main ps opts ws we pk hlen hvalid hw, ?_⟩
      intro o ho
      have hpk : pk = o := Option.some.inj ho
      subst hpk
      exact ⟨h1, h2⟩

/-- C10, witness: two identical flo predictions of confidence 100 take
the main path, and the returned ovulation estimate lies inside the
window. -/
theorem reconcile_main_ovulation_in_window_witness :
    ((¬ ([Prediction.mk "wa" "flo" 0 5 none (some 100) none none "" "",
          Prediction.mk "wb" "flo" 0 5 none (some 100) none none "" ""] :
        List Prediction).length < optMinSources {}) ∧
     ((validPredictionsOf
        [Prediction.mk "wa" "flo" 0 5 none (some 100) none none "" "",
         Prediction.mk "wb" "flo" 0 5 none (some 100) none none "" ""]).isEmpty
        = false) ∧
     (findFertileWindow
        (buildDayScores (validPredictionsOf
          [Prediction.mk "wa" "flo" 0 5 none (some 100) none none "" "",
           Prediction.mk "wb" "flo" 0 5 none (some 100) none none "" ""])
          (mergedWeights {}))
        (effectiveThresholdOf {}
          (calculateSourceAgreement (validPredictionsOf
            [Prediction.mk "wa" "flo" 0 5 none (some 100) none none "" "",
             Prediction.mk "wb" "flo" 0 5 none (some 100) none none "" ""])))).isSome) ∧
    ∃ r, reconcile
        [Prediction.mk "wa" "flo" 0 5 none (some 100) none none "" "",
         Prediction.mk "wb" "flo" 0 5 none (some 100) none none "" ""] {} =
        some r ∧
      ∀ o, r.ovulationDate = some o →
        r.fertileStart ≤ o ∧ o ≤ r.fertileEnd := by
  have hval : validPredictionsOf
      [Prediction.mk "wa" "flo" 0 5 none (some 100) none none "" "",
       Prediction.mk "wb" "flo" 0 5 none (some 100) none none "" ""] =
      [Prediction.mk "wa" "flo" 0 5 none (some 100) none none "" "",
       Prediction.mk "wb" "flo" 0 5 none (some 100) none none "" ""] := by
    apply validPredictionsOf_eq_self
    intro p hp
    rcases List.mem_cons.mp hp with rfl | hp
    · norm_num
    · rcases List.mem_singleton.mp hp with rfl
      norm_num
  have hlen : ¬ ([Prediction.mk "wa" "flo" 0 5 none (some 100) none none "" "",
      Prediction.mk "wb" "flo" 0 5 none (some 100) none none "" ""] :
      List Prediction).length < optMinSources {} := by
    simp [optMinSources]
  have hvalid : (validPredictionsOf
      [Prediction.mk "wa" "flo" 0 5 none (some 100) none none "" "",
       Prediction.mk "wb" "flo" 0 5 none (some 100) none none "" ""]).isEmpty
      = false := by
    rw [hval]
    rfl
  have hag : calculateSourceAgreement (validPredictionsOf
      [Prediction.mk "wa" "flo" 0 5 none (some 100) none none "" "",
       Prediction.mk "wb" "flo" 0 5 none (some 100) none none "" ""]) = 1 := by
    rw [hval]
    have hse : ∀ p ∈ ([Prediction.mk "wa" "flo" 0 5 none (some 100) none
        none "" "", Prediction.mk "wb" "flo" 0 5 none (some 100) none none
        "" ""] : List Prediction),
        p.fertileStart = (0:ℤ) ∧ p.fertileEnd = (5:ℤ) := by
      intro p hp
      rcases List.mem_cons.mp hp with rfl | hp
      · exact ⟨rfl, rfl⟩
      · rcases List.mem_singleton.mp hp with rfl
        exact ⟨rfl, rfl⟩
    exact sourceAgreement_const hse
  have hth : effectiveThresholdOf {} (calculateSourceAgreement
      (validPredictionsOf
        [Prediction.mk "wa" "flo" 0 5 none (some 100) none none "" "",
         Prediction.mk "wb" "flo" 0 5 none (some 100) none none "" ""])) =
      0.3 := by
    rw [hag]
    norm_num [effectiveThresholdOf, optMinCT, optDP]
  have hsome : (findFertileWindow
      (buildDayScores (validPredictionsOf
        [Prediction.mk "wa" "flo" 0 5 none (some 100) none none "" "",
         Prediction.mk "wb" "flo" 0 5 none (some 100) none none "" ""])
        (mergedWeights {}))
      (effectiveThresholdOf {}
        (calculateSourceAgreement (validPredictionsOf
          [Prediction.mk "wa" "flo" 0 5 none (some 100) none none "" "",
           Prediction.mk "wb" "flo" 0 5 none (some 100) none none "" ""])))).isSome := by
    rw [hth, hval]
    have hmem : dayScoreAt
        [Prediction.mk "wa" "flo" 0 5 none (some 100) none none "" "",
         Prediction.mk "wb" "flo" 0 5 none (some 100) none none "" ""]
        (mergedWeights {}) 0 ∈ buildDayScores
        [Prediction.mk "wa" "flo" 0 5 none (some 100) none none "" "",
         Prediction.mk "wb" "flo" 0 5 none (some 100) none none "" ""]
        (mergedWeights {}) := by
      apply List.mem_map_of_mem
      apply mem_dateRange
      · show minStartOf _ - 2 ≤ 0
        norm_num [minStartOf]
      · show (0:ℤ) ≤ maxEndOf _ + 2
        norm_num [maxEndOf]
    refine findFertileWindow_isSome_of_mem hmem ?_
    rw [dayScoreAt_probability]
    have hW : totalEffectiveWeight
        [Prediction.mk "wa" "flo" 0 5 none (some 100) none none "" "",
         Prediction.mk "wb" "flo" 0 5 none (some 100) none none "" ""]
        (mergedWeights {}) = 1.4 := by
      simp [totalEffectiveWeight, getWeight_flo]
      norm_num
    rw [hW, if_pos (by norm_num)]
    have hc1 : contribValue (mergedWeights {}) 0
        (Prediction.mk "wa" "flo" 0 5 none (some 100) none none "" "") =
        0.7 := by
      rw [contribValue_of_inWindow (by decide)]
      rw [getWeight_flo]
      norm_num [selfConfidence]
    have hc2 : contribValue (mergedWeights {}) 0
        (Prediction.mk "wb" "flo" 0 5 none (some 100) none none "" "") =
        0.7 := by
      rw [contribValue_of_inWindow (by decide)]
      rw [getWeight_flo]
      norm_num [selfConfidence]
    simp only [List.map_cons, List.map_nil, List.sum_cons, List.sum_nil,
      hc1, hc2]
    norm_num
  exact ⟨⟨hlen, hvalid, hsome⟩,
    reconcile_main_ovulation_in_window _ {} hlen hvalid hsome⟩

/-- C10, counterexample.  A single flo prediction of confidence 20 whose
ovulation date 20 lies outside its own window [10, 15] takes the fallback
path (its in-window probability 0.2 stays below the 0.3 threshold), and
reconcile returns that window with the ovulation date passed through
verbatim, outside the returned window. -/
theorem reconcile_fallback_ovulation_outside_cex :
    ∃ r, reconcile [Prediction.mk "cx" "flo" 10 15 (some 20) (some 20)
        none none "" ""] {} = some r ∧
      r.ovulationDate = some 20 ∧ r.fertileStart = 10 ∧ r.fertileEnd = 15 ∧
      ¬ (∀ o, r.ovulationDate = some o →
        r.fertileStart ≤ o ∧ o ≤ r.fertileEnd) := by
  have hval : validPredictionsOf [Prediction.mk "cx" "flo" 10 15 (some 20)
      (some 20) none none "" ""] =
      [Prediction.mk "cx" "flo" 10 15 (some 20) (some 20) none none "" ""] := by
    apply validPredictionsOf_eq_self
    intro p hp
    rcases List.mem_singleton.mp hp with rfl
    norm_num
  have hlen : ¬ ([Prediction.mk "cx" "flo" 10 15 (some 20) (some 20) none
      none "" ""] : List Prediction).length < optMinSources {} := by
    simp [optMinSources]
  have hvalid : (validPredictionsOf [Prediction.mk "cx" "flo" 10 15 (some 20)
      (some 20) none none "" ""]).isEmpty = false := by
    rw [hval]
    rfl
  have hag : calculateSourceAgreement (validPredictionsOf
      [Prediction.mk "cx" "flo" 10 15 (some 20) (some 20) none none "" ""]) =
      1 := by
    rw [hval]
    exact sourceAgreement_single _
  have hth : effectiveThresholdOf {} (calculateSourceAgreement
      (validPredictionsOf [Prediction.mk "cx" "flo" 10 15 (some 20) (some 20)
        none none "" ""])) = 0.3 := by
    rw [hag]
    norm_num [effectiveThresholdOf, optMinCT, optDP]
  have hwnone : findFertileWindow
      (buildDayScores (validPredictionsOf
        [Prediction.mk "cx" "flo" 10 15 (some 20) (some 20) none none "" ""])
        (mergedWeights {}))
      (effectiveThresholdOf {}
        (calculateSourceAgreement (validPredictionsOf
          [Prediction.mk "cx" "flo" 10 15 (some 20) (some 20) none none
            "" ""]))) = none := by
    rw [hth, hval]
    apply findFertileWindow_none_of
    apply dayScores_all_lt
    · intro p _
      exact getWeight_default_nonneg _
    · intro p hp
      rcases List.mem_singleton.mp hp with rfl
      exact selfConfidence_nonneg (by norm_num)
    · rw [totalEffectiveWeight_singleton]
      rw [getWeight_flo]
      norm_num
    · rw [totalEffectiveWeight_singleton]
      simp only [List.map_cons, List.map_nil, List.sum_cons, List.sum_nil]
      rw [getWeight_flo]
      have hsc : selfConfidence (Prediction.mk "cx" "flo" 10 15 (some 20)
          (some 20) none none "" "") = 0.2 := by
        norm_num [selfConfidence]
      rw [hsc]
      norm_num
  refine ⟨_, reconcile_eq_fallback _ {} hlen hvalid hwnone, ?_, ?_, ?_, ?_⟩
  · show (bestByWeight (validPredictionsOf _) (mergedWeights {})).ovulationDate
      = some 20
    rw [hval, bestByWeight_singleton]
  · show (bestByWeight (validPredictionsOf _) (mergedWeights {})).fertileStart
      = 10
    rw [hval, bestByWeight_singleton]
  · show (bestByWeight (validPredictionsOf _) (mergedWeights {})).fertileEnd
      = 15
    rw [hval, bestByWeight_singleton]
  · intro hall
    have h20 := hall 20 (by
      show (bestByWeight (validPredictionsOf
          [Prediction.mk "cx" "flo" 10 15 (some 20) (some 20) none none
            "" ""]) (mergedWeights {})).ovulationDate = some 20
      rw [hval, bestByWeight_singleton])
    simp only [fallbackResult] at h20
    rw [hval, bestByWeight_singleton] at h20
    exact absurd h20.2 (by decide)

end Fertile.Reconciler

namespace Fertile.Reconciler

open Fertile

/-- C5.  When admission succeeds but no day reaches the effective
threshold, reconcile returns a result built from the admitted prediction
with the highest effective weight, first seen on ties (characterized as:
it occurs at an index i, it weakly dominates every admitted prediction,
and strictly dominates everything before index i), with that
prediction's window and ovulation date verbatim, confidence
max(0.2, agreement ⬝ 0.5), and the explanation list beginning with the
low-confidence note naming the fallback source. -/
theorem reconcile_fallback_spec (ps : List Prediction)
    (opts : ReconcilerOptions)
    (hlen : ¬ ps.length < optMinSources opts)
    (hvalid : (validPredictionsOf ps).isEmpty = false)
    (hwnone : findFertileWindow
        (buildDayScores (validPredictionsOf ps) (mergedWeights opts))
        (effectiveThresholdOf opts
          (calculateSourceAgreement (validPredictionsOf ps))) = none) :
    ∃ r, reconcile ps opts = some r ∧
      (∃ i : ℕ, (validPredictionsOf ps)[i]? =
          some (bestByWeight (validPredictionsOf ps) (mergedWeights opts)) ∧
        (∀ q ∈ validPredictionsOf ps,
          getWeight q.source (mergedWeights opts) ≤
            getWeight (bestByWeight (validPredictionsOf ps)
              (mergedWeights opts)).source (mergedWeights opts)) ∧
        (∀ j, j < i → ∀ q, (validPredictionsOf ps)[j]? = some q →
          getWeight q.source (mergedWeights opts) <
            getWeight (bestByWeight (validPredictionsOf ps)
              (mergedWeights opts)).source (mergedWeights opts))) ∧
      r.fertileStart = (bestByWeight (validPredictionsOf ps)
        (mergedWeights opts)).fertileStart ∧
      r.fertileEnd = (bestByWeight (validPredictionsOf ps)
        (mergedWeights opts)).fertileEnd ∧
      r.ovulationDate = (bestByWeight (validPredictionsOf ps)
        (mergedWeights opts)).ovulationDate ∧
      r.confidence = max 0.2
        (calculateSourceAgreement (validPredictionsOf ps) * 0.5) ∧
      r.explain = ["Low confidence: Could not reconcile predictions",
        "Falling back to " ++ (bestByWeight (validPredictionsOf ps)
          (mergedWeights opts)).source ++ " prediction"] := by
  have hne : validPredictionsOf ps ≠ [] := by
    intro h
    rw [h] at hvalid
    simp at hvalid
  exact ⟨_, reconcile_eq_fallback ps opts hlen hvalid hwnone,
    bestByWeight_firstMax _ _ hne, rfl, rfl, rfl, rfl, rfl⟩

/-- C5, witness: a flo prediction on [0, 4] and a clue prediction on
[10, 14], both with confidence 20, leave every day probability at most
0.2, below the threshold of at least 0.3, so the fallback path is taken. -/
theorem reconcile_fallback_spec_witness :
    (¬ ([Prediction.mk "f1" "flo" 0 4 none (some 20) none none "" "",
         Prediction.mk "f2" "clue" 10 14 none (some 20) none none "" ""] :
       List Prediction).length < optMinSources {}) ∧
    ((validPredictionsOf
       [Prediction.mk "f1" "flo" 0 4 none (some 20) none none "" "",
        Prediction.mk "f2" "clue" 10 14 none (some 20) none none "" ""]).isEmpty
       = false) ∧
    (findFertileWindow
       (buildDayScores (validPredictionsOf
         [Prediction.mk "f1" "flo" 0 4 none (some 20) none none "" "",
          Prediction.mk "f2" "clue" 10 14 none (some 20) none none "" ""])
         (mergedWeights {}))
       (effectiveThresholdOf {}
         (calculateSourceAgreement (validPredictionsOf
           [Prediction.mk "f1" "flo" 0 4 none (some 20) none none "" "",
            Prediction.mk "f2" "clue" 10 14 none (some 20) none none
              "" ""]))) = none) ∧
    ∃ r, reconcile
        [Prediction.mk "f1" "flo" 0 4 none (some 20) none none "" "",
         Prediction.mk "f2" "clue" 10 14 none (some 20) none none "" ""]
        {} = some r ∧
      (∃ i : ℕ, (validPredictionsOf
          [Prediction.mk "f1" "flo" 0 4 none (some 20) none none "" "",
           Prediction.mk "f2" "clue" 10 14 none (some 20) none none
             "" ""])[i]? =
          some (bestByWeight (validPredictionsOf
            [Prediction.mk "f1" "flo" 0 4 none (some 20) none none "" "",
             Prediction.mk "f2" "clue" 10 14 none (some 20) none none
               "" ""]) (mergedWeights {})) ∧
        (∀ q ∈ validPredictionsOf
            [Prediction.mk "f1" "flo" 0 4 none (some 20) none none "" "",
             Prediction.mk "f2" "clue" 10 14 none (some 20) none none
               "" ""],
          getWeight q.source (mergedWeights {}) ≤
            getWeight (bestByWeight (validPredictionsOf
              [Prediction.mk "f1" "flo" 0 4 none (some 20) none none "" "",
               Prediction.mk "f2" "clue" 10 14 none (some 20) none none
                 "" ""]) (mergedWeights {})).source (mergedWeights {})) ∧
        (∀ j, j < i → ∀ q, (validPredictionsOf
            [Prediction.mk "f1" "flo" 0 4 none (some 20) none none "" "",
             Prediction.mk "f2" "clue" 10 14 none (some 20) none none
               "" ""])[j]? = some q →
          getWeight q.source (mergedWeights {}) <
            getWeight (bestByWeight (validPredictionsOf
              [Prediction.mk "f1" "flo" 0 4 none (some 20) none none "" "",
               Prediction.mk "f2" "clue" 10 14 none (some 20) none none
                 "" ""]) (mergedWeights {})).source (mergedWeights {}))) ∧
      r.fertileStart = (bestByWeight (validPredictionsOf
        [Prediction.mk "f1" "flo" 0 4 none (some 20) none none "" "",
         Prediction.mk "f2" "clue" 10 14 none (some 20) none none "" ""])
        (mergedWeights {})).fertileStart ∧
      r.fertileEnd = (bestByWeight (validPredictionsOf
        [Prediction.mk "f1" "flo" 0 4 none (some 20) none none "" "",
         Prediction.mk "f2" "clue" 10 14 none (some 20) none none "" ""])
        (mergedWeights {})).fertileEnd ∧
      r.ovulationDate = (bestByWeight (validPredictionsOf
        [Prediction.mk "f1" "flo" 0 4 none (some 20) none none "" "",
         Prediction.mk "f2" "clue" 10 14 none (some 20) none none "" ""])
        (mergedWeights {})).ovulationDate ∧
      r.confidence = max 0.2
        (calculateSourceAgreement (validPredictionsOf
          [Prediction.mk "f1" "flo" 0 4 none (some 20) none none "" "",
           Prediction.mk "f2" "clue" 10 14 none (some 20) none none
             "" ""]) * 0.5) ∧
      r.explain = ["Low confidence: Could not reconcile predictions",
        "Falling back to " ++ (bestByWeight (validPredictionsOf
          [Prediction.mk "f1" "flo" 0 4 none (some 20) none none "" "",
           Prediction.mk "f2" "clue" 10 14 none (some 20) none none "" ""])
          (mergedWeights {})).source ++ " prediction"] := by
  have hval : validPredictionsOf
      [Prediction.mk "f1" "flo" 0 4 none (some 20) none none "" "",
       Prediction.mk "f2" "clue" 10 14 none (some 20) none none "" ""] =
      [Prediction.mk "f1" "flo" 0 4 none (some 20) none none "" "",
       Prediction.mk "f2" "clue" 10 14 none (some 20) none none "" ""] := by
    apply validPredictionsOf_eq_self
    intro p hp
    rcases List.mem_cons.mp hp with rfl | hp
    · norm_num
    · rcases List.mem_singleton.mp hp with rfl
      norm_num
  have hlen : ¬ ([Prediction.mk "f1" "flo" 0 4 none (some 20) none none
      "" "", Prediction.mk "f2" "clue" 10 14 none (some 20) none none
      "" ""] : List Prediction).length < optMinSources {} := by
    simp [optMinSources]
  have hvalid : (validPredictionsOf
      [Prediction.mk "f1" "flo" 0 4 none (some 20) none none "" "",
       Prediction.mk "f2" "clue" 10 14 none (some 20) none none
         "" ""]).isEmpty = false := by
    rw [hval]
    rfl
  have hth := (effTh_default_bounds (calculateSourceAgreement
      [Prediction.mk "f1" "flo" 0 4 none (some 20) none none "" "",
       Prediction.mk "f2" "clue" 10 14 none (some 20) none none "" ""])
    (sourceAgreement_pos _).le (sourceAgreement_le_one _)).1
  have hwnone : findFertileWindow
      (buildDayScores (validPredictionsOf
        [Prediction.mk "f1" "flo" 0 4 none (some 20) none none "" "",
         Prediction.mk "f2" "clue" 10 14 none (some 20) none none "" ""])
        (mergedWeights {}))
      (effectiveThresholdOf {}
        (calculateSourceAgreement (validPredictionsOf
          [Prediction.mk "f1" "flo" 0 4 none (some 20) none none "" "",
           Prediction.mk "f2" "clue" 10 14 none (some 20) none none
             "" ""]))) = none := by
    rw [hval]
    apply findFertileWindow_none_of
    apply dayScores_all_lt
    · intro p _
      exact getWeight_default_nonneg _
    · intro p hp
      rcases List.mem_cons.mp hp with rfl | hp
      · exact selfConfidence_nonneg (by norm_num)
      · rcases List.mem_singleton.mp hp with rfl
        exact selfConfidence_nonneg (by norm_num)
    · show (0:ℝ) < totalEffectiveWeight _ _
      simp only [totalEffectiveWeight, List.map_cons, List.map_nil,
        List.sum_cons, List.sum_nil]
      rw [getWeight_flo, getWeight_clue]
      norm_num
    · have hWv : totalEffectiveWeight
          [Prediction.mk "f1" "flo" 0 4 none (some 20) none none "" "",
           Prediction.mk "f2" "clue" 10 14 none (some 20) none none "" ""]
          (mergedWeights {}) = 1.4 := by
        simp only [totalEffectiveWeight, List.map_cons, List.map_nil,
          List.sum_cons, List.sum_nil]
        rw [getWeight_flo, getWeight_clue]
        norm_num
      have hsum : (([Prediction.mk "f1" "flo" 0 4 none (some 20) none none
          "" "", Prediction.mk "f2" "clue" 10 14 none (some 20) none none
          "" ""] : List Prediction).map fun p =>
          getWeight p.source (mergedWeights {}) * selfConfidence p).sum =
          0.28 := by
        simp only [List.map_cons, List.map_nil, List.sum_cons, List.sum_nil]
        rw [getWeight_flo, getWeight_clue]
        norm_num [selfConfidence]
      rw [hWv, hsum]
      have h02 : (0.28:ℝ) / 1.4 = 0.2 := by norm_num
      rw [h02]
      linarith
  exact ⟨hlen, hvalid, hwnone,
    reconcile_fallback_spec _ {} hlen hvalid hwnone⟩

end Fertile.Reconciler

namespace Fertile.Reconciler

open Fertile

theorem contribValue_eq_spec (w : SourceWeights) (d : ℤ) (p : Prediction) :
    contribValue w d p = specContribution w p d := by
  have hk : min ((daysBetween (d:ℝ) (p.fertileStart:ℝ) : ℤ) : ℝ)
      ((daysBetween (d:ℝ) (p.fertileEnd:ℝ) : ℤ) : ℝ) =
      ((min |d - p.fertileStart| |d - p.fertileEnd| : ℤ) : ℝ) := by
    rw [daysBetween_intCast, daysBetween_intCast]
    push_cast
    rfl
  simp only [contribValue, rawScoreOf, specContribution, hk]
  cases hin : inWindow p d with
  | true =>
      have hwin : p.fertileStart ≤ d ∧ d ≤ p.fertileEnd :=
        of_decide_eq_true hin
      rw [if_pos hwin]
      simp
  | false =>
      have hwin : ¬ (p.fertileStart ≤ d ∧ d ≤ p.fertileEnd) :=
        of_decide_eq_false hin
      rw [if_neg hwin]
      simp only [Bool.false_eq_true, if_false]
      split
      · simp
      · simp

/-- C4.  Over a nonempty admitted list with positive total effective
weight, the day score series is exactly the specified one: at every date
of the extended union range the probability is the sum over predictions
of the specified contribution (full weight times self confidence in
window, Gaussian-decayed outside, zero when the decayed value is
discarded) divided by the fixed total of effective weights; and every
recorded raw score is either an in-window full score or exceeds the 0.1
floor. -/
theorem buildDayScores_spec (ps : List Prediction) (w : SourceWeights)
    (hne : ps ≠ []) (hW : 0 < totalEffectiveWeight ps w) :
    ((buildDayScores ps w).map fun s => (s.date, s.probability)) =
      (extendedDates ps).map (fun D => (D, specDayProbability ps w D)) ∧
    ∀ s ∈ buildDayScores ps w, ∀ pr ∈ s.rawScores,
      (∃ p ∈ ps, inWindow p s.date = true ∧
        pr.2 = getWeight p.source w * selfConfidence p) ∨
      (0.1:ℝ) < pr.2 := by
  have hbd : buildDayScores ps w =
      (extendedDates ps).map (dayScoreAt ps w) := by
    cases ps with
    | nil => exact absurd rfl hne
    | cons a t => rfl
  constructor
  · rw [hbd, List.map_map]
    apply List.map_congr_left
    intro D _
    show ((dayScoreAt ps w D).date, (dayScoreAt ps w D).probability) =
      (D, specDayProbability ps w D)
    rw [dayScoreAt_date, dayScoreAt_probability, if_pos hW]
    have hsum : (ps.map (contribValue w D)).sum =
        (ps.map fun p => specContribution w p D).sum := by
      apply congrArg
      apply List.map_congr_left
      intro p _
      exact contribValue_eq_spec w D p
    rw [hsum]
    rfl
  · intro s hs pr hpr
    rw [hbd] at hs
    obtain ⟨D, _, rfl⟩ := List.mem_map.mp hs
    have hraw : (dayScoreAt ps w D).rawScores =
        ps.filterMap (rawScoreOf w D) := rfl
    rw [hraw] at hpr
    obtain ⟨p, hp, hsc⟩ := List.mem_filterMap.mp hpr
    rw [dayScoreAt_date]
    unfold rawScoreOf at hsc
    by_cases hin : inWindow p D = true
    · rw [if_pos hin] at hsc
      left
      refine ⟨p, hp, hin, ?_⟩
      cases hsc
      rfl
    · rw [if_neg hin] at hsc
      split at hsc
      · rename_i hv
        right
        cases hsc
        exact hv
      · cases hsc

/-- C4, witness: a single flo prediction with confidence 80 satisfies the
nonemptiness and positive-total-weight hypotheses, and its score series
equals the specified one. -/
theorem buildDayScores_spec_witness :
    (([Prediction.mk "w4" "flo" 3 7 none (some 80) none none "" ""] :
       List Prediction) ≠ []) ∧
    ((0:ℝ) < totalEffectiveWeight
      [Prediction.mk "w4" "flo" 3 7 none (some 80) none none "" ""]
      (mergedWeights {})) ∧
    (((buildDayScores
        [Prediction.mk "w4" "flo" 3 7 none (some 80) none none "" ""]
        (mergedWeights {})).map fun s => (s.date, s.probability)) =
      (extendedDates
        [Prediction.mk "w4" "flo" 3 7 none (some 80) none none "" ""]).map
        (fun D => (D, specDayProbability
          [Prediction.mk "w4" "flo" 3 7 none (some 80) none none "" ""]
          (mergedWeights {}) D)) ∧
    ∀ s ∈ buildDayScores
        [Prediction.mk "w4" "flo" 3 7 none (some 80) none none "" ""]
        (mergedWeights {}), ∀ pr ∈ s.rawScores,
      (∃ p ∈ ([Prediction.mk "w4" "flo" 3 7 none (some 80) none none
          "" ""] : List Prediction), inWindow p s.date = true ∧
        pr.2 = getWeight p.source (mergedWeights {}) * selfConfidence p) ∨
      (0.1:ℝ) < pr.2) := by
  have hne : ([Prediction.mk "w4" "flo" 3 7 none (some 80) none none
      "" ""] : List Prediction) ≠ [] := by
    intro h
    cases h
  have hW : (0:ℝ) < totalEffectiveWeight
      [Prediction.mk "w4" "flo" 3 7 none (some 80) none none "" ""]
      (mergedWeights {}) := by
    simp only [totalEffectiveWeight, List.map_cons, List.map_nil,
      List.sum_cons, List.sum_nil]
    rw [getWeight_flo]
    norm_num
  exact ⟨hne, hW, buildDayScores_spec _ _ hne hW⟩

end Fertile.Reconciler

namespace Fertile.Reconciler

open Fertile

theorem foldl_minstart_mem :
    ∀ (l : List Prediction) (s : ℤ),
    l.foldl (fun m p => if p.fertileStart < m then p.fertileStart else m) s ∈
      s :: l.map (·.fertileStart) := by
  intro l
  induction l with
  | nil => intro s; simp
  | cons a t ih =>
      intro s
      simp only [List.foldl_cons, List.map_cons]
      rcases List.mem_cons.mp
          (ih (if a.fertileStart < s then a.fertileStart else s)) with hh | hh
      · rw [hh]
        split_ifs
        · exact List.mem_cons_of_mem _ (List.mem_cons_self _ _)
        · exact List.mem_cons_self _ _
      · exact List.mem_cons_of_mem _ (List.mem_cons_of_mem _ hh)

theorem foldl_minstart_le :
    ∀ (l : List Prediction) (s : ℤ),
    l.foldl (fun m p => if p.fertileStart < m then p.fertileStart else m) s ≤
      s ∧
    ∀ p ∈ l,
      l.foldl (fun m p => if p.fertileStart < m then p.fertileStart else m) s
        ≤ p.fertileStart := by
  intro l
  induction l with
  | nil => intro s; simp
  | cons a t ih =>
      intro s
      simp only [List.foldl_cons]
      have hs' : (if a.fertileStart < s then a.fertileStart else s) ≤ s ∧
          (if a.fertileStart < s then a.fertileStart else s) ≤
            a.fertileStart := by
        split_ifs with hh
        exacts [⟨le_of_lt hh, le_refl _⟩, ⟨le_refl _, le_of_not_lt hh⟩]
      obtain ⟨h1, h2⟩ := ih (if a.fertileStart < s then a.fertileStart else s)
      refine ⟨h1.trans hs'.1, ?_⟩
      intro p hp
      rcases List.mem_cons.mp hp with rfl | hp
      · exact h1.trans hs'.2
      · exact h2 p hp

theorem foldl_maxend_mem :
    ∀ (l : List Prediction) (s : ℤ),
    l.foldl (fun m p => if m < p.fertileEnd then p.fertileEnd else m) s ∈
      s :: l.map (·.fertileEnd) := by
  intro l
  induction l with
  | nil => intro s; simp
  | cons a t ih =>
      intro s
      simp only [List.foldl_cons, List.map_cons]
      rcases List.mem_cons.mp
          (ih (if s < a.fertileEnd then a.fertileEnd else s)) with hh | hh
      · rw [hh]
        split_ifs
        · exact List.mem_cons_of_mem _ (List.mem_cons_self _ _)
        · exact List.mem_cons_self _ _
      · exact List.mem_cons_of_mem _ (List.mem_cons_of_mem _ hh)

theorem foldl_maxend_ge :
    ∀ (l : List Prediction) (s : ℤ),
    s ≤ l.foldl (fun m p => if m < p.fertileEnd then p.fertileEnd else m) s ∧
    ∀ p ∈ l, p.fertileEnd ≤
      l.foldl (fun m p => if m < p.fertileEnd then p.fertileEnd else m) s := by
  intro l
  induction l with
  | nil => intro s; simp
  | cons a t ih =>
      intro s
      simp only [List.foldl_cons]
      have hs' : s ≤ (if s < a.fertileEnd then a.fertileEnd else s) ∧
          a.fertileEnd ≤ (if s < a.fertileEnd then a.fertileEnd else s) := by
        split_ifs with hh
        exacts [⟨le_of_lt hh, le_refl _⟩, ⟨le_refl _, le_of_not_lt hh⟩]
      obtain ⟨h1, h2⟩ := ih (if s < a.fertileEnd then a.fertileEnd else s)
      refine ⟨hs'.1.trans h1, ?_⟩
      intro p hp
      rcases List.mem_cons.mp hp with rfl | hp
      · exact hs'.2.trans h1
      · exact h2 p hp

theorem minStartOf_mem {l : List Prediction} (h : l ≠ []) :
    minStartOf l ∈ l.map (·.fertileStart) := by
  unfold minStartOf
  rcases List.mem_cons.mp (foldl_minstart_mem l ((l.headD default).fertileStart))
    with hh | hh
  · rw [hh]
    cases l with
    | nil => exact absurd rfl h
    | cons a t => exact List.mem_cons_self _ _
  · exact hh

theorem minStartOf_le {l : List Prediction} :
    ∀ p ∈ l, minStartOf l ≤ p.fertileStart :=
  (foldl_minstart_le l ((l.headD default).fertileStart)).2

theorem maxEndOf_mem {l : List Prediction} (h : l ≠ []) :
    maxEndOf l ∈ l.map (·.fertileEnd) := by
  unfold maxEndOf
  rcases List.mem_cons.mp (foldl_maxend_mem l ((l.headD default).fertileEnd))
    with hh | hh
  · rw [hh]
    cases l with
    | nil => exact absurd rfl h
    | cons a t => exact List.mem_cons_self _ _
  · exact hh

theorem maxEndOf_ge {l : List Prediction} :
    ∀ p ∈ l, p.fertileEnd ≤ maxEndOf l :=
  (foldl_maxend_ge l ((l.headD default).fertileEnd)).2

theorem minStartOf_perm {l l' : List Prediction} (h : l.Perm l') :
    minStartOf l = minStartOf l' := by
  cases hl : l with
  | nil =>
      have hl' : l' = [] := by
        rw [hl] at h
        exact h.symm.eq_nil
      rw [hl']
  | cons a t =>
      have hne : l ≠ [] := by rw [hl]; exact List.cons_ne_nil a t
      have hne' : l' ≠ [] := by
        intro hh
        rw [hh] at h
        rw [h.eq_nil] at hne
        exact hne rfl
      rw [← hl]
      apply le_antisymm
      · obtain ⟨p', hp', hv⟩ := List.mem_map.mp (minStartOf_mem hne')
        rw [← hv]
        exact minStartOf_le p' (h.mem_iff.mpr hp')
      · obtain ⟨p, hp, hv⟩ := List.mem_map.mp (minStartOf_mem hne)
        rw [← hv]
        exact minStartOf_le p (h.mem_iff.mp hp)

theorem maxEndOf_perm {l l' : List Prediction} (h : l.Perm l') :
    maxEndOf l = maxEndOf l' := by
  cases hl : l with
  | nil =>
      have hl' : l' = [] := by
        rw [hl] at h
        exact h.symm.eq_nil
      rw [hl']
  | cons a t =>
      have hne : l ≠ [] := by rw [hl]; exact List.cons_ne_nil a t
      have hne' : l' ≠ [] := by
        intro hh
        rw [hh] at h
        rw [h.eq_nil] at hne
        exact hne rfl
      rw [← hl]
      apply le_antisymm
      · obtain ⟨p, hp, hv⟩ := List.mem_map.mp (maxEndOf_mem hne)
        rw [← hv]
        exact maxEndOf_ge p (h.mem_iff.mp hp)
      · obtain ⟨p', hp', hv⟩ := List.mem_map.mp (maxEndOf_mem hne')
        rw [← hv]
        exact maxEndOf_ge p' (h.mem_iff.mpr hp')

theorem extendedDates_perm {l l' : List Prediction} (h : l.Perm l') :
    extendedDates l = extendedDates l' := by
  unfold extendedDates
  rw [minStartOf_perm h, maxEndOf_perm h]

end Fertile.Reconciler

namespace Fertile.Reconciler

open Fertile

theorem totalEffectiveWeight_perm {l l' : List Prediction}
    (w : SourceWeights) (h : l.Perm l') :
    totalEffectiveWeight l w = totalEffectiveWeight l' w := by
  unfold totalEffectiveWeight
  exact (h.map fun p : Prediction => getWeight p.source w).sum_eq

theorem sourceAgreement_perm {l l' : List Prediction} (h : l.Perm l') :
    calculateSourceAgreement l = calculateSourceAgreement l' := by
  have hs : (l.map fun p => (p.fertileStart : ℝ)).sum =
      (l'.map fun p => (p.fertileStart : ℝ)).sum :=
    (h.map fun p => (p.fertileStart : ℝ)).sum_eq
  have he : (l.map fun p => (p.fertileEnd : ℝ)).sum =
      (l'.map fun p => (p.fertileEnd : ℝ)).sum :=
    (h.map fun p => (p.fertileEnd : ℝ)).sum_eq
  have hlen : l.length = l'.length := h.length_eq
  have hvs : ∀ a : ℝ,
      ((l.map fun p => (p.fertileStart : ℝ)).map fun s => (s - a)^2).sum =
      ((l'.map fun p => (p.fertileStart : ℝ)).map fun s => (s - a)^2).sum :=
    fun a => ((h.map fun p => (p.fertileStart : ℝ)).map fun s => (s - a)^2).sum_eq
  have hve : ∀ a : ℝ,
      ((l.map fun p => (p.fertileEnd : ℝ)).map fun e => (e - a)^2).sum =
      ((l'.map fun p => (p.fertileEnd : ℝ)).map fun e => (e - a)^2).sum :=
    fun a => ((h.map fun p => (p.fertileEnd : ℝ)).map fun e => (e - a)^2).sum_eq
  unfold calculateSourceAgreement
  rw [hlen]
  split
  · rfl
  · simp only [List.length_map, hlen, hs, he, hvs, hve]

theorem weightedCentroidStart_perm {l l' : List Prediction}
    (w : SourceWeights) (h : l.Perm l') :
    weightedCentroidStart l w = weightedCentroidStart l' w := by
  unfold weightedCentroidStart
  rw [(h.map fun p => (p.fertileStart : ℝ) * getWeight p.source w).sum_eq,
    (h.map fun p => getWeight p.source w).sum_eq]

theorem weightedCentroidEnd_perm {l l' : List Prediction}
    (w : SourceWeights) (h : l.Perm l') :
    weightedCentroidEnd l w = weightedCentroidEnd l' w := by
  unfold weightedCentroidEnd
  rw [(h.map fun p => (p.fertileEnd : ℝ) * getWeight p.source w).sum_eq,
    (h.map fun p => getWeight p.source w).sum_eq]

theorem identifyOutliers_perm {l l' : List Prediction}
    (w : SourceWeights) (h : l.Perm l') :
    (identifyOutliers l w).Perm (identifyOutliers l' w) := by
  have hcs := weightedCentroidStart_perm w h
  have hce := weightedCentroidEnd_perm w h
  unfold identifyOutliers
  rw [h.length_eq, hcs, hce]
  by_cases hc : l'.length ≤ 2
  · rw [if_pos hc, if_pos hc]
  · rw [if_neg hc, if_neg hc]
    exact (h.filter _).map _

theorem dayScoreAt_prob_perm {l l' : List Prediction} (w : SourceWeights)
    (d : ℤ) (h : l.Perm l') :
    (dayScoreAt l w d).probability = (dayScoreAt l' w d).probability := by
  rw [dayScoreAt_probability, dayScoreAt_probability,
    totalEffectiveWeight_perm w h, (h.map (contribValue w d)).sum_eq]

theorem buildDayScores_proj_perm {l l' : List Prediction}
    (w : SourceWeights) (h : l.Perm l') :
    ((buildDayScores l w).map fun s => (s.date, s.probability)) =
      ((buildDayScores l' w).map fun s => (s.date, s.probability)) := by
  cases hl : l with
  | nil =>
      have hl' : l' = [] := by
        rw [hl] at h
        exact h.symm.eq_nil
      rw [hl']
  | cons a t =>
      have hl'ne : l' ≠ [] := by
        intro hh
        rw [hh] at h
        exact absurd (hl ▸ h.eq_nil) (List.cons_ne_nil a t)
      have hbd : buildDayScores l w = (extendedDates l).map (dayScoreAt l w) := by
        rw [hl]
        rfl
      have hbd' : buildDayScores l' w =
          (extendedDates l').map (dayScoreAt l' w) := by
        cases hll' : l' with
        | nil => exact absurd hll' hl'ne
        | cons b u => rfl
      rw [← hl, hbd, hbd', List.map_map, List.map_map,
        ← extendedDates_perm h]
      apply List.map_congr_left
      intro D _
      show ((dayScoreAt l w D).date, (dayScoreAt l w D).probability) =
        ((dayScoreAt l' w D).date, (dayScoreAt l' w D).probability)
      rw [dayScoreAt_date, dayScoreAt_date, dayScoreAt_prob_perm w D h]

theorem findFertileWindow_congr {ds ds' : List DayScore} (th : ℝ)
    (h : (ds.map fun d => (d.date, d.probability)) =
      (ds'.map fun d => (d.date, d.probability))) :
    findFertileWindow ds th = findFertileWindow ds' th := by
  unfold findFertileWindow
  rw [h]

theorem reconcile_none_short {ps : List Prediction}
    {opts : ReconcilerOptions} (hmin : ps.length < optMinSources opts) :
    reconcile ps opts = none := by
  unfold reconcile
  rw [if_pos hmin]

theorem reconcile_none_noValid {ps : List Prediction}
    {opts : ReconcilerOptions} (hmin : ¬ ps.length < optMinSources opts)
    (hval : (validPredictionsOf ps).isEmpty = true) :
    reconcile ps opts = none := by
  unfold reconcile
  rw [if_neg hmin]
  simp only [hval, if_true]

end Fertile.Reconciler

namespace Fertile.Reconciler

open Fertile

theorem bestByWeight_pair {p q : Prediction} (w : SourceWeights)
    (h : getWeight q.source w ≤ getWeight p.source w) :
    bestByWeight [p, q] w = p := by
  have hle : (fun a b : Prediction =>
      decide (getWeight b.source w ≤ getWeight a.source w)) p q = true := by
    simp only
    exact decide_eq_true h
  unfold bestByWeight stableSort
  simp only [List.foldl_cons, List.foldl_nil]
  have h1 : insertStable (fun a b : Prediction =>
      decide (getWeight b.source w ≤ getWeight a.source w)) p
      ([] : List Prediction) = [p] := rfl
  rw [h1]
  unfold insertStable
  rw [if_pos hle]
  rfl

/-- C2, amended.  Permuting the input predictions preserves the
confidence and the outlier multiset of the reconciled result, and when
the main path extracts a window it preserves the window and the
ovulation date too; the fallback window, by contrast, can depend on the
input order, see the counterexample. -/
theorem reconcile_perm_invariant (l l' : List Prediction)
    (opts : ReconcilerOptions) (h : l.Perm l') :
    ((reconcile l opts).map fun r => r.confidence) =
      ((reconcile l' opts).map fun r => r.confidence) ∧
    ((reconcile l opts).map fun r =>
        (r.diagnostics.outliers : Multiset String)) =
      ((reconcile l' opts).map fun r =>
        (r.diagnostics.outliers : Multiset String)) ∧
    ((findFertileWindow (buildDayScores (validPredictionsOf l)
        (mergedWeights opts)) (effectiveThresholdOf opts
        (calculateSourceAgreement (validPredictionsOf l)))).isSome →
      ((reconcile l opts).map fun r =>
          (r.fertileStart, r.fertileEnd, r.ovulationDate)) =
        ((reconcile l' opts).map fun r =>
          (r.fertileStart, r.fertileEnd, r.ovulationDate))) := by
  have hvp : (validPredictionsOf l).Perm (validPredictionsOf l') :=
    h.filter _
  have hA : calculateSourceAgreement (validPredictionsOf l) =
      calculateSourceAgreement (validPredictionsOf l') :=
    sourceAgreement_perm hvp
  have hO : (identifyOutliers (validPredictionsOf l)
      (mergedWeights opts)).Perm
      (identifyOutliers (validPredictionsOf l') (mergedWeights opts)) :=
    identifyOutliers_perm _ hvp
  have hFF : findFertileWindow
      (buildDayScores (validPredictionsOf l) (mergedWeights opts))
      (effectiveThresholdOf opts
        (calculateSourceAgreement (validPredictionsOf l))) =
      findFertileWindow
      (buildDayScores (validPredictionsOf l') (mergedWeights opts))
      (effectiveThresholdOf opts
        (calculateSourceAgreement (validPredictionsOf l'))) := by
    rw [← hA]
    exact findFertileWindow_congr _ (buildDayScores_proj_perm _ hvp)
  by_cases hmin : l.length < optMinSources opts
  · have hmin' : l'.length < optMinSources opts := by
      rw [← h.length_eq]
      exact hmin
    rw [reconcile_none_short hmin, reconcile_none_short hmin']
    exact ⟨rfl, rfl, fun _ => rfl⟩
  · have hmin' : ¬ l'.length < optMinSources opts := by
      rw [← h.length_eq]
      exact hmin
    cases hval : (validPredictionsOf l).isEmpty with
    | true =>
        have hvnil : validPredictionsOf l = [] := by
          cases hvl : validPredictionsOf l with
          | nil => rfl
          | cons a t =>
              rw [hvl] at hval
              cases hval
        have hval' : (validPredictionsOf l').isEmpty = true := by
          rw [hvnil] at hvp
          rw [hvp.symm.eq_nil]
          rfl
        rw [reconcile_none_noValid hmin hval,
          reconcile_none_noValid hmin' hval']
        exact ⟨rfl, rfl, fun _ => rfl⟩
    | false =>
        have hval' : (validPredictionsOf l').isEmpty = false := by
          cases hvl' : validPredictionsOf l' with
          | nil =>
              rw [hvl'] at hvp
              rw [hvp.eq_nil] at hval
              cases hval
          | cons a t => rfl
        have hlenv : (validPredictionsOf l).length =
            (validPredictionsOf l').length := hvp.length_eq
        have hlo : (identifyOutliers (validPredictionsOf l)
            (mergedWeights opts)).length =
            (identifyOutliers (validPredictionsOf l')
              (mergedWeights opts)).length := hO.length_eq
        cases hw : findFertileWindow
            (buildDayScores (validPredictionsOf l) (mergedWeights opts))
            (effectiveThresholdOf opts
              (calculateSourceAgreement (validPredictionsOf l))) with
        | none =>
            have hw' : findFertileWindow
                (buildDayScores (validPredictionsOf l') (mergedWeights opts))
                (effectiveThresholdOf opts
                  (calculateSourceAgreement (validPredictionsOf l'))) =
                none := by
              rw [← hFF]
              exact hw
            rw [reconcile_eq_fallback l opts hmin hval hw,
              reconcile_eq_fallback l' opts hmin' hval' hw']
            refine ⟨?_, ?_, ?_⟩
            · simp only [Option.map_some', Option.some.injEq, fallbackResult]
              rw [hA]
            · simp only [Option.map_some', Option.some.injEq, fallbackResult]
              exact Multiset.coe_eq_coe.mpr hO
            · intro hsome
              simp at hsome
        | some trip =>
            obtain ⟨ws, we, pk⟩ := trip
            have hw' : findFertileWindow
                (buildDayScores (validPredictionsOf l') (mergedWeights opts))
                (effectiveThresholdOf opts
                  (calculateSourceAgreement (validPredictionsOf l'))) =
                some (ws, we, pk) := by
              rw [← hFF]
              exact hw
            rw [reconcile_eq_main l opts ws we pk hmin hval hw,
              reconcile_eq_main l' opts ws we pk hmin' hval' hw']
            refine ⟨?_, ?_, fun _ => rfl⟩
            · simp only [Option.map_some', Option.some.injEq, mainResult]
              rw [hA, hlenv, hlo]
            · simp only [Option.map_some', Option.some.injEq, mainResult]
              exact Multiset.coe_eq_coe.mpr hO

/-- C2, witness: the invariance applied to a two-element list and its
transposition. -/
theorem reconcile_perm_invariant_witness :
    (([Prediction.mk "x" "flo" 0 5 none (some 100) none none "" "",
       Prediction.mk "y" "clue" 0 5 none (some 100) none none "" ""] :
      List Prediction).Perm
      [Prediction.mk "y" "clue" 0 5 none (some 100) none none "" "",
       Prediction.mk "x" "flo" 0 5 none (some 100) none none "" ""]) ∧
    (((reconcile
        [Prediction.mk "x" "flo" 0 5 none (some 100) none none "" "",
         Prediction.mk "y" "clue" 0 5 none (some 100) none none "" ""]
        {}).map fun r => r.confidence) =
      ((reconcile
        [Prediction.mk "y" "clue" 0 5 none (some 100) none none "" "",
         Prediction.mk "x" "flo" 0 5 none (some 100) none none "" ""]
        {}).map fun r => r.confidence) ∧
    ((reconcile
        [Prediction.mk "x" "flo" 0 5 none (some 100) none none "" "",
         Prediction.mk "y" "clue" 0 5 none (some 100) none none "" ""]
        {}).map fun r => (r.diagnostics.outliers : Multiset String)) =
      ((reconcile
        [Prediction.mk "y" "clue" 0 5 none (some 100) none none "" "",
         Prediction.mk "x" "flo" 0 5 none (some 100) none none "" ""]
        {}).map fun r => (r.diagnostics.outliers : Multiset String)) ∧
    ((findFertileWindow (buildDayScores (validPredictionsOf
        [Prediction.mk "x" "flo" 0 5 none (some 100) none none "" "",
         Prediction.mk "y" "clue" 0 5 none (some 100) none none "" ""])
        (mergedWeights {})) (effectiveThresholdOf {}
        (calculateSourceAgreement (validPredictionsOf
          [Prediction.mk "x" "flo" 0 5 none (some 100) none none "" "",
           Prediction.mk "y" "clue" 0 5 none (some 100) none none
             "" ""])))).isSome →
      ((reconcile
          [Prediction.mk "x" "flo" 0 5 none (some 100) none none "" "",
           Prediction.mk "y" "clue" 0 5 none (some 100) none none "" ""]
          {}).map fun r => (r.fertileStart, r.fertileEnd, r.ovulationDate)) =
        ((reconcile
          [Prediction.mk "y" "clue" 0 5 none (some 100) none none "" "",
           Prediction.mk "x" "flo" 0 5 none (some 100) none none "" ""]
          {}).map fun r =>
            (r.fertileStart, r.fertileEnd, r.ovulationDate)))) :=
  ⟨List.Perm.swap _ _ [],
   reconcile_perm_invariant _ _ {} (List.Perm.swap _ _ [])⟩

end Fertile.Reconciler

namespace Fertile.Reconciler

open Fertile

/-- C2, counterexample.  A flo prediction on [0, 4] and a clue prediction
on [10, 14], both with confidence 20, tie at effective weight 0.7; both
orders take the fallback path and the stable sort keeps the first-seen
prediction on top, so the two orders return different fertile windows:
fertileStart 0 in one order and 10 in the other. -/
theorem reconcile_perm_fallback_tie_cex :
    ∃ r1 r2,
      reconcile [Prediction.mk "a" "flo" 0 4 none (some 20) none none "" "",
        Prediction.mk "b" "clue" 10 14 none (some 20) none none "" ""] {} =
        some r1 ∧
      reconcile [Prediction.mk "b" "clue" 10 14 none (some 20) none none
        "" "", Prediction.mk "a" "flo" 0 4 none (some 20) none none "" ""]
        {} = some r2 ∧
      ([Prediction.mk "a" "flo" 0 4 none (some 20) none none "" "",
        Prediction.mk "b" "clue" 10 14 none (some 20) none none "" ""] :
        List Prediction).Perm
        [Prediction.mk "b" "clue" 10 14 none (some 20) none none "" "",
         Prediction.mk "a" "flo" 0 4 none (some 20) none none "" ""] ∧
      r1.fertileStart = 0 ∧ r2.fertileStart = 10 ∧
      r1.fertileStart ≠ r2.fertileStart := by
  have hval1 : validPredictionsOf
      [Prediction.mk "a" "flo" 0 4 none (some 20) none none "" "",
       Prediction.mk "b" "clue" 10 14 none (some 20) none none "" ""] =
      [Prediction.mk "a" "flo" 0 4 none (some 20) none none "" "",
       Prediction.mk "b" "clue" 10 14 none (some 20) none none "" ""] := by
    apply validPredictionsOf_eq_self
    intro p hp
    rcases List.mem_cons.mp hp with rfl | hp
    · norm_num
    · rcases List.mem_singleton.mp hp with rfl
      norm_num
  have hval2 : validPredictionsOf
      [Prediction.mk "b" "clue" 10 14 none (some 20) none none "" "",
       Prediction.mk "a" "flo" 0 4 none (some 20) none none "" ""] =
      [Prediction.mk "b" "clue" 10 14 none (some 20) none none "" "",
       Prediction.mk "a" "flo" 0 4 none (some 20) none none "" ""] := by
    apply validPredictionsOf_eq_self
    intro p hp
    rcases List.mem_cons.mp hp with rfl | hp
    · norm_num
    · rcases List.mem_singleton.mp hp with rfl
      norm_num
  have hlen1 : ¬ ([Prediction.mk "a" "flo" 0 4 none (some 20) none none
      "" "", Prediction.mk "b" "clue" 10 14 none (some 20) none none
      "" ""] : List Prediction).length < optMinSources {} := by
    simp [optMinSources]
  have hlen2 : ¬ ([Prediction.mk "b" "clue" 10 14 none (some 20) none none
      "" "", Prediction.mk "a" "flo" 0 4 none (some 20) none none "" ""] :
      List Prediction).length < optMinSources {} := by
    simp [optMinSources]
  have hvalid1 : (validPredictionsOf
      [Prediction.mk "a" "flo" 0 4 none (some 20) none none "" "",
       Prediction.mk "b" "clue" 10 14 none (some 20) none none
         "" ""]).isEmpty = false := by
    rw [hval1]
    rfl
  have hvalid2 : (validPredictionsOf
      [Prediction.mk "b" "clue" 10 14 none (some 20) none none "" "",
       Prediction.mk "a" "flo" 0 4 none (some 20) none none
         "" ""]).isEmpty = false := by
    rw [hval2]
    rfl
  have hth1 := (effTh_default_bounds (calculateSourceAgreement
      [Prediction.mk "a" "flo" 0 4 none (some 20) none none "" "",
       Prediction.mk "b" "clue" 10 14 none (some 20) none none "" ""])
    (sourceAgreement_pos _).le (sourceAgreement_le_one _)).1
  have hth2 := (effTh_default_bounds (calculateSourceAgreement
      [Prediction.mk "b" "clue" 10 14 none (some 20) none none "" "",
       Prediction.mk "a" "flo" 0 4 none (some 20) none none "" ""])
    (sourceAgreement_pos _).le (sourceAgreement_le_one _)).1
  have hwnone1 : findFertileWindow
      (buildDayScores (validPredictionsOf
        [Prediction.mk "a" "flo" 0 4 none (some 20) none none "" "",
         Prediction.mk "b" "clue" 10 14 none (some 20) none none "" ""])
        (mergedWeights {}))
      (effectiveThresholdOf {}
        (calculateSourceAgreement (validPredictionsOf
          [Prediction.mk "a" "flo" 0 4 none (some 20) none none "" "",
           Prediction.mk "b" "clue" 10 14 none (some 20) none none
             "" ""]))) = none := by
    rw [hval1]
    apply findFertileWindow_none_of
    apply dayScores_all_lt
    · intro p _
      exact getWeight_default_nonneg _
    · intro p hp
      rcases List.mem_cons.mp hp with rfl | hp
      · exact selfConfidence_nonneg (by norm_num)
      · rcases List.mem_singleton.mp hp with rfl
        exact selfConfidence_nonneg (by norm_num)
    · simp only [totalEffectiveWeight, List.map_cons, List.map_nil,
        List.sum_cons, List.sum_nil]
      rw [getWeight_flo, getWeight_clue]
      norm_num
    · have hWv : totalEffectiveWeight
          [Prediction.mk "a" "flo" 0 4 none (some 20) none none "" "",
           Prediction.mk "b" "clue" 10 14 none (some 20) none none "" ""]
          (mergedWeights {}) = 1.4 := by
        simp only [totalEffectiveWeight, List.map_cons, List.map_nil,
          List.sum_cons, List.sum_nil]
        rw [getWeight_flo, getWeight_clue]
        norm_num
      have hsum : (([Prediction.mk "a" "flo" 0 4 none (some 20) none none
          "" "", Prediction.mk "b" "clue" 10 14 none (some 20) none none
          "" ""] : List Prediction).map fun p =>
          getWeight p.source (mergedWeights {}) * selfConfidence p).sum =
          0.28 := by
        simp only [List.map_cons, List.map_nil, List.sum_cons, List.sum_nil]
        rw [getWeight_flo, getWeight_clue]
        norm_num [selfConfidence]
      rw [hWv, hsum]
      have h02 : (0.28:ℝ) / 1.4 = 0.2 := by norm_num
      rw [h02]
      linarith
  have hwnone2 : findFertileWindow
      (buildDayScores (validPredictionsOf
        [Prediction.mk "b" "clue" 10 14 none (some 20) none none "" "",
         Prediction.mk "a" "flo" 0 4 none (some 20) none none "" ""])
        (mergedWeights {}))
      (effectiveThresholdOf {}
        (calculateSourceAgreement (validPredictionsOf
          [Prediction.mk "b" "clue" 10 14 none (some 20) none none "" "",
           Prediction.mk "a" "flo" 0 4 none (some 20) none none
             "" ""]))) = none := by
    rw [hval2]
    apply findFertileWindow_none_of
    apply dayScores_all_lt
    · intro p _
      exact getWeight_default_nonneg _
    · intro p hp
      rcases List.mem_cons.mp hp with rfl | hp
      · exact selfConfidence_nonneg (by norm_num)
      · rcases List.mem_singleton.mp hp with rfl
        exact selfConfidence_nonneg (by norm_num)
    · simp only [totalEffectiveWeight, List.map_cons, List.map_nil,
        List.sum_cons, List.sum_nil]
      rw [getWeight_flo, getWeight_clue]
      norm_num
    · have hWv : totalEffectiveWeight
          [Prediction.mk "b" "clue" 10 14 none (some 20) none none "" "",
           Prediction.mk "a" "flo" 0 4 none (some 20) none none "" ""]
          (mergedWeights {}) = 1.4 := by
        simp only [totalEffectiveWeight, List.map_cons, List.map_nil,
          List.sum_cons, List.sum_nil]
        rw [getWeight_flo, getWeight_clue]
        norm_num
      have hsum : (([Prediction.mk "b" "clue" 10 14 none (some 20) none
          none "" "", Prediction.mk "a" "flo" 0 4 none (some 20) none none
          "" ""] : List Prediction).map fun p =>
          getWeight p.source (mergedWeights {}) * selfConfidence p).sum =
          0.28 := by
        simp only [List.map_cons, List.map_nil, List.sum_cons, List.sum_nil]
        rw [getWeight_flo, getWeight_clue]
        norm_num [selfConfidence]
      rw [hWv, hsum]
      have h02 : (0.28:ℝ) / 1.4 = 0.2 := by norm_num
      rw [h02]
      linarith
  have hb1 : bestByWeight (validPredictionsOf
      [Prediction.mk "a" "flo" 0 4 none (some 20) none none "" "",
       Prediction.mk "b" "clue" 10 14 none (some 20) none none "" ""])
      (mergedWeights {}) =
      Prediction.mk "a" "flo" 0 4 none (some 20) none none "" "" := by
    rw [hval1]
    apply bestByWeight_pair
    show getWeight "clue" (mergedWeights {}) ≤
      getWeight "flo" (mergedWeights {})
    rw [getWeight_flo, getWeight_clue]
  have hb2 : bestByWeight (validPredictionsOf
      [Prediction.mk "b" "clue" 10 14 none (some 20) none none "" "",
       Prediction.mk "a" "flo" 0 4 none (some 20) none none "" ""])
      (mergedWeights {}) =
      Prediction.mk "b" "clue" 10 14 none (some 20) none none "" "" := by
    rw [hval2]
    apply bestByWeight_pair
    show getWeight "flo" (mergedWeights {}) ≤
      getWeight "clue" (mergedWeights {})
    rw [getWeight_flo, getWeight_clue]
  refine ⟨_, _, reconcile_eq_fallback _ {} hlen1 hvalid1 hwnone1,
    reconcile_eq_fallback _ {} hlen2 hvalid2 hwnone2,
    List.Perm.swap _ _ [], ?_, ?_, ?_⟩
  · show (bestByWeight (validPredictionsOf _) (mergedWeights {})).fertileStart
      = 0
    rw [hb1]
  · show (bestByWeight (validPredictionsOf _) (mergedWeights {})).fertileStart
      = 10
    rw [hb2]
  · intro hc
    have hc1 : (0:ℤ) = 10 := by
      calc (0:ℤ) = (bestByWeight (validPredictionsOf
          [Prediction.mk "a" "flo" 0 4 none (some 20) none none "" "",
           Prediction.mk "b" "clue" 10 14 none (some 20) none none "" ""])
          (mergedWeights {})).fertileStart := by rw [hb1]
        _ = (bestByWeight (validPredictionsOf
          [Prediction.mk "b" "clue" 10 14 none (some 20) none none "" "",
           Prediction.mk "a" "flo" 0 4 none (some 20) none none "" ""])
          (mergedWeights {})).fertileStart := hc
        _ = 10 := by rw [hb2]
    exact absurd hc1 (by decide)

end Fertile.Reconciler

namespace Fertile.Reconciler

open Fertile

theorem getWeight_default_ge (s : String) :
    (0.5:ℝ) ≤ getWeight s (mergedWeights {}) := by
  rw [getWeight_merged_none]
  unfold DEFAULT_WEIGHTS
  split_ifs <;> norm_num

theorem totalEffectiveWeight_default_pos {ps : List Prediction}
    (hne : ps ≠ []) :
    0 < totalEffectiveWeight ps (mergedWeights {}) := by
  cases ps with
  | nil => exact absurd rfl hne
  | cons a t =>
      unfold totalEffectiveWeight
      rw [List.map_cons, List.sum_cons]
      have h1 : (0.5:ℝ) ≤ getWeight a.source (mergedWeights {}) :=
        getWeight_default_ge _
      have h2 : 0 ≤ (t.map fun p =>
          getWeight p.source (mergedWeights {})).sum := by
        apply List.sum_nonneg
        intro x hx
        obtain ⟨p, _, rfl⟩ := List.mem_map.mp hx
        exact getWeight_default_nonneg _
      linarith

theorem dayScore_prob_ge_inWindow {ps : List Prediction} {w : SourceWeights}
    (d : ℤ)
    (hw : ∀ p ∈ ps, 0 ≤ getWeight p.source w)
    (hc : ∀ p ∈ ps, 0 ≤ selfConfidence p)
    (hW : 0 < totalEffectiveWeight ps w) :
    (ps.map fun p => if inWindow p d then
        getWeight p.source w * selfConfidence p else 0).sum /
      totalEffectiveWeight ps w ≤ (dayScoreAt ps w d).probability := by
  rw [dayScoreAt_probability, if_pos hW]
  refine (div_le_div_iff_of_pos_right hW).mpr ?_
  apply List.sum_le_sum
  intro p hp
  exact contribValue_ge_inWindow (hw p hp) (hc p hp)

theorem weightedCentroidStart_const {ps : List Prediction}
    {w : SourceWeights} {s : ℤ} (h : ∀ p ∈ ps, p.fertileStart = s)
    (hW : (ps.map fun p => getWeight p.source w).sum ≠ 0) :
    weightedCentroidStart ps w = (s : ℝ) := by
  unfold weightedCentroidStart
  have hnum : (ps.map fun p => (p.fertileStart : ℝ) * getWeight p.source w) =
      ps.map fun p => (s:ℝ) * getWeight p.source w := by
    apply List.map_congr_left
    intro p hp
    rw [h p hp]
  rw [hnum, List.sum_map_mul_left, mul_div_assoc, div_self hW, mul_one]

theorem weightedCentroidEnd_const {ps : List Prediction}
    {w : SourceWeights} {e : ℤ} (h : ∀ p ∈ ps, p.fertileEnd = e)
    (hW : (ps.map fun p => getWeight p.source w).sum ≠ 0) :
    weightedCentroidEnd ps w = (e : ℝ) := by
  unfold weightedCentroidEnd
  have hnum : (ps.map fun p => (p.fertileEnd : ℝ) * getWeight p.source w) =
      ps.map fun p => (e:ℝ) * getWeight p.source w := by
    apply List.map_congr_left
    intro p hp
    rw [h p hp]
  rw [hnum, List.sum_map_mul_left, mul_div_assoc, div_self hW, mul_one]

theorem identifyOutliers_const {ps : List Prediction} {s e : ℤ}
    (h : ∀ p ∈ ps, p.fertileStart = s ∧ p.fertileEnd = e)
    (hW : (ps.map fun p => getWeight p.source (mergedWeights {})).sum ≠ 0) :
    identifyOutliers ps (mergedWeights {}) = [] := by
  simp only [identifyOutliers]
  split
  · rfl
  · rw [weightedCentroidStart_const (fun p hp => (h p hp).1) hW,
      weightedCentroidEnd_const (fun p hp => (h p hp).2) hW]
    have hfil : (ps.filter fun p =>
        decide (3 < daysBetween (p.fertileStart : ℝ) ((s:ℤ):ℝ)) ||
        decide (3 < daysBetween (p.fertileEnd : ℝ) ((e:ℤ):ℝ))) = [] := by
      rw [List.filter_eq_nil_iff]
      intro p hp
      rw [(h p hp).1, (h p hp).2, daysBetween_intCast, daysBetween_intCast]
      simp
    rw [hfil]
    rfl

end Fertile.Reconciler

namespace Fertile.Reconciler

open Fertile

theorem fallbackResult_conf_le {vp : List Prediction} {w : SourceWeights}
    {sa : ℝ} {o : List String} {ds : List DayScore} (h1 : sa ≤ 1) :
    (fallbackResult vp w sa o ds).confidence ≤ 0.5 := by
  show max 0.2 (sa * 0.5) ≤ 0.5
  apply max_le (by norm_num)
  linarith

theorem mainResult_conf_le_one {vp : List Prediction} {w : SourceWeights}
    {sa : ℝ} {o : List String} {ds : List DayScore} {ws we pk : ℤ} :
    (mainResult vp w sa o ds ws we pk).confidence ≤ 1 :=
  min_le_left _ _

theorem mainResult_conf_le_sa {vp : List Prediction} {w : SourceWeights}
    {sa : ℝ} {o : List String} {ds : List DayScore} {ws we pk : ℤ}
    (h0 : 0 ≤ sa) :
    (mainResult vp w sa o ds ws we pk).confidence ≤ sa := by
  show min 1 (max 0 (sa * min 1 (0.7 + (vp.length : ℝ) * 0.1) *
    max 0.5 (1 - (o.length : ℝ) * 0.1))) ≤ sa
  have hm1a : min 1 (0.7 + (vp.length : ℝ) * 0.1) ≤ 1 := min_le_left _ _
  have hm1b : 0 ≤ min 1 (0.7 + (vp.length : ℝ) * 0.1) :=
    le_min (by norm_num) (by positivity)
  have hm2a : max 0.5 (1 - (o.length : ℝ) * 0.1) ≤ 1 := by
    apply max_le (by norm_num)
    have h : (0:ℝ) ≤ (o.length : ℝ) := Nat.cast_nonneg _
    nlinarith
  have hm2b : (0:ℝ) ≤ max 0.5 (1 - (o.length : ℝ) * 0.1) :=
    le_trans (by norm_num) (le_max_left _ _)
  have hprod : sa * min 1 (0.7 + (vp.length : ℝ) * 0.1) *
      max 0.5 (1 - (o.length : ℝ) * 0.1) ≤ sa := by
    nlinarith [mul_nonneg h0 (sub_nonneg.mpr hm2a),
      mul_nonneg (mul_nonneg h0 hm2b) (sub_nonneg.mpr hm1a)]
  calc min 1 (max 0 (sa * min 1 (0.7 + (vp.length : ℝ) * 0.1) *
      max 0.5 (1 - (o.length : ℝ) * 0.1))) ≤
      max 0 (sa * min 1 (0.7 + (vp.length : ℝ) * 0.1) *
        max 0.5 (1 - (o.length : ℝ) * 0.1)) := min_le_right _ _
    _ ≤ max 0 sa := max_le_max (le_refl 0) hprod
    _ = sa := max_eq_right h0

theorem mainResult_conf_ge {vp : List Prediction} {w : SourceWeights}
    {sa : ℝ} {o : List String} {ds : List DayScore} {ws we pk : ℤ}
    (hsa : sa = 1) (ho : o = []) :
    min 1 (0.7 + (vp.length : ℝ) * 0.1) ≤
      (mainResult vp w sa o ds ws we pk).confidence := by
  show _ ≤ min 1 (max 0 (sa * min 1 (0.7 + (vp.length : ℝ) * 0.1) *
    max 0.5 (1 - (o.length : ℝ) * 0.1)))
  subst hsa
  subst ho
  simp only [List.length_nil, Nat.cast_zero, one_mul]
  norm_num

theorem sourceAgreement_two_plus_far {p1 p2 q : Prediction} {s e : ℤ}
    (h1 : p1.fertileStart = s ∧ p1.fertileEnd = e)
    (h2 : p2.fertileStart = s ∧ p2.fertileEnd = e)
    (hs : 4 ≤ |q.fertileStart - s|) (he : 4 ≤ |q.fertileEnd - e|) :
    calculateSourceAgreement [p1, p2, q] ≤ Real.exp (-(4/9 : ℝ)) := by
  unfold calculateSourceAgreement
  rw [if_neg (by norm_num)]
  simp only [List.map_cons, List.map_nil, List.sum_cons, List.sum_nil,
    List.length_cons, List.length_nil]
  rw [h1.1, h1.2, h2.1, h2.2]
  apply Real.exp_le_exp.mpr
  have hx : (4:ℝ) ≤ |(q.fertileStart : ℝ) - (s : ℝ)| := by
    have hc : ((|q.fertileStart - s| : ℤ) : ℝ) =
        |(q.fertileStart : ℝ) - (s : ℝ)| := by
      push_cast
      rfl
    rw [← hc]
    exact_mod_cast hs
  have hy : (4:ℝ) ≤ |(q.fertileEnd : ℝ) - (e : ℝ)| := by
    have hc : ((|q.fertileEnd - e| : ℤ) : ℝ) =
        |(q.fertileEnd : ℝ) - (e : ℝ)| := by
      push_cast
      rfl
    rw [← hc]
    exact_mod_cast he
  have hx2 : (16:ℝ) ≤ ((q.fertileStart : ℝ) - (s : ℝ))^2 := by
    nlinarith [sq_abs ((q.fertileStart : ℝ) - (s : ℝ)),
      abs_nonneg ((q.fertileStart : ℝ) - (s : ℝ))]
  have hy2 : (16:ℝ) ≤ ((q.fertileEnd : ℝ) - (e : ℝ))^2 := by
    nlinarith [sq_abs ((q.fertileEnd : ℝ) - (e : ℝ)),
      abs_nonneg ((q.fertileEnd : ℝ) - (e : ℝ))]
  push_cast
  nlinarith [hx2, hy2]

end Fertile.Reconciler

namespace Fertile.Reconciler

open Fertile

/-- C3, amended.  Over a list of at least two positive-confidence
predictions sharing a single window, appending a far-outlier prediction q
(start and end each more than three rounded days from the respective
weighted centroid) never increases the reported confidence, provided the
original list reconciles on the main path.  Both added premises are
necessary: the main-path proviso because a shared-window list that falls
back reports only max(0.2, agreement / 2) = 0.5 while the extended list
can reach agreement exp(-4/9), about 0.64, on the main path with no
outlier penalty (the recorded counterexample); the shared-window premise
because an internally disagreeing list lets the outlier raise the
agreement itself (the second refutation below the counterexample). -/
theorem reconcile_far_outlier_mono (ps : List Prediction) (q : Prediction)
    (s e : ℤ)
    (hident : ∀ p ∈ ps, p.fertileStart = s ∧ p.fertileEnd = e)
    (hconf : ∀ p ∈ ps ++ [q], 0 < p.confidence.getD 50)
    (hn : 2 ≤ ps.length)
    (hfars : 3 < daysBetween (q.fertileStart : ℝ)
      (weightedCentroidStart ps (mergedWeights {})))
    (hfare : 3 < daysBetween (q.fertileEnd : ℝ)
      (weightedCentroidEnd ps (mergedWeights {})))
    (hmain : (findFertileWindow (buildDayScores (validPredictionsOf ps)
      (mergedWeights {})) (effectiveThresholdOf {}
      (calculateSourceAgreement (validPredictionsOf ps)))).isSome) :
    ∃ r r', reconcile ps {} = some r ∧ reconcile (ps ++ [q]) {} = some r' ∧
      r'.confidence ≤ r.confidence := by
  have hne : ps ≠ [] := by
    intro hh
    rw [hh] at hn
    simp at hn
  have hvps : validPredictionsOf ps = ps :=
    validPredictionsOf_eq_self fun p hp => hconf p (List.mem_append_left _ hp)
  have hvps' : validPredictionsOf (ps ++ [q]) = ps ++ [q] :=
    validPredictionsOf_eq_self hconf
  have hlen : ¬ ps.length < optMinSources ({} : ReconcilerOptions) := by
    simp only [optMinSources, Option.getD_none]
    omega
  have hlen' : ¬ (ps ++ [q]).length <
      optMinSources ({} : ReconcilerOptions) := by
    simp only [optMinSources, Option.getD_none, List.length_append]
    omega
  have hvalid : (validPredictionsOf ps).isEmpty = false := by
    rw [hvps]
    cases hps : ps with
    | nil => exact absurd hps hne
    | cons a t => rfl
  have hvalid' : (validPredictionsOf (ps ++ [q])).isEmpty = false := by
    rw [hvps']
    cases hps : ps with
    | nil => exact absurd hps hne
    | cons a t => rfl
  have hWps : (ps.map fun p =>
      getWeight p.source (mergedWeights {})).sum ≠ 0 := by
    have hpos := totalEffectiveWeight_default_pos hne
    unfold totalEffectiveWeight at hpos
    linarith
  have hA1 : calculateSourceAgreement (validPredictionsOf ps) = 1 := by
    rw [hvps]
    exact sourceAgreement_const hident
  have hO1 : identifyOutliers (validPredictionsOf ps)
      (mergedWeights {}) = [] := by
    rw [hvps]
    exact identifyOutliers_const hident hWps
  obtain ⟨trip, hw1⟩ := Option.isSome_iff_exists.mp hmain
  obtain ⟨ws1, we1, pk1⟩ := trip
  have hrec1 := reconcile_eq_main ps {} ws1 we1 pk1 hlen hvalid hw1
  cases hw2 : findFertileWindow
      (buildDayScores (validPredictionsOf (ps ++ [q])) (mergedWeights {}))
      (effectiveThresholdOf {}
        (calculateSourceAgreement (validPredictionsOf (ps ++ [q])))) with
  | none =>
      refine ⟨_, _, hrec1,
        reconcile_eq_fallback _ {} hlen' hvalid' hw2, ?_⟩
      refine le_trans (fallbackResult_conf_le (sourceAgreement_le_one _)) ?_
      refine le_trans (by norm_num : (0.5:ℝ) ≤ 0.9) ?_
      refine le_trans ?_ (mainResult_conf_ge hA1 hO1)
      rw [hvps]
      apply le_min (by norm_num)
      have hcast : (2:ℝ) ≤ (ps.length : ℝ) := by exact_mod_cast hn
      linarith
  | some trip2 =>
      obtain ⟨ws2, we2, pk2⟩ := trip2
      refine ⟨_, _, hrec1,
        reconcile_eq_main _ {} ws2 we2 pk2 hlen' hvalid' hw2, ?_⟩
      rcases Nat.lt_or_ge ps.length 3 with h3 | h3
      · have hn2 : ps.length = 2 := by omega
        cases ps with
        | nil => simp at hn2
        | cons p1 t =>
            cases t with
            | nil => simp at hn2
            | cons p2 t2 =>
                cases t2 with
                | cons p3 t3 => simp at hn2
                | nil =>
                    have hcent_s : weightedCentroidStart [p1, p2]
                        (mergedWeights {}) = (s : ℝ) :=
                      weightedCentroidStart_const
                        (fun p hp => (hident p hp).1) hWps
                    have hcent_e : weightedCentroidEnd [p1, p2]
                        (mergedWeights {}) = (e : ℝ) :=
                      weightedCentroidEnd_const
                        (fun p hp => (hident p hp).2) hWps
                    rw [hcent_s, daysBetween_intCast] at hfars
                    rw [hcent_e, daysBetween_intCast] at hfare
                    have hs4 : (4:ℤ) ≤ |q.fertileStart - s| := by
                      have := Int.lt_iff_add_one_le.mp hfars
                      linarith
                    have he4 : (4:ℤ) ≤ |q.fertileEnd - e| := by
                      have := Int.lt_iff_add_one_le.mp hfare
                      linarith
                    have hA2 : calculateSourceAgreement
                        (validPredictionsOf ([p1, p2] ++ [q])) ≤
                        Real.exp (-(4/9 : ℝ)) := by
                      rw [hvps']
                      show calculateSourceAgreement [p1, p2, q] ≤ _
                      exact sourceAgreement_two_plus_far
                        (hident p1 (by simp)) (hident p2 (by simp)) hs4 he4
                    have hexp : Real.exp (-(4/9 : ℝ)) ≤ 9/13 := by
                      have h13 : (13/9 : ℝ) ≤ Real.exp (4/9) := by
                        have := Real.add_one_le_exp (4/9 : ℝ)
                        linarith
                      have hmul : Real.exp (-(4/9 : ℝ)) *
                          Real.exp (4/9) = 1 := by
                        rw [← Real.exp_add]
                        norm_num
                      nlinarith [Real.exp_pos (-(4/9 : ℝ))]
                    refine le_trans (mainResult_conf_le_sa
                      (sourceAgreement_pos _).le) ?_
                    refine le_trans hA2 ?_
                    refine le_trans hexp ?_
                    refine le_trans (by norm_num : (9/13 : ℝ) ≤ 0.9) ?_
                    refine le_trans ?_ (mainResult_conf_ge hA1 hO1)
                    rw [hvps]
                    apply le_min (by norm_num)
                    norm_num
      · refine le_trans mainResult_conf_le_one ?_
        refine le_trans ?_ (mainResult_conf_ge hA1 hO1)
        rw [hvps]
        apply le_min (le_refl 1)
        have hcast : (3:ℝ) ≤ (ps.length : ℝ) := by exact_mod_cast h3
        linarith

end Fertile.Reconciler

namespace Fertile.Reconciler

open Fertile

theorem identifyOutliers_short {ps : List Prediction} {w : SourceWeights}
    (h : ps.length ≤ 2) : identifyOutliers ps w = [] := by
  unfold identifyOutliers
  rw [if_pos h]

theorem cex3_agreement_two :
    calculateSourceAgreement
      [Prediction.mk "o1" "flo" 0 0 none (some 100) none none "" "",
       Prediction.mk "o2" "flo" 12 12 none (some 100) none none "" ""] =
      Real.exp (-(9/2 : ℝ)) := by
  unfold calculateSourceAgreement
  rw [if_neg (by norm_num)]
  simp only [List.map_cons, List.map_nil, List.sum_cons, List.sum_nil,
    List.length_cons, List.length_nil]
  norm_num

theorem cex3_agreement_three :
    calculateSourceAgreement
      [Prediction.mk "o1" "flo" 0 0 none (some 100) none none "" "",
       Prediction.mk "o2" "flo" 12 12 none (some 100) none none "" "",
       Prediction.mk "o3" "flo" 11 12 none (some 100) none none "" ""] =
      Real.exp (-(277/72 : ℝ)) := by
  unfold calculateSourceAgreement
  rw [if_neg (by norm_num)]
  simp only [List.map_cons, List.map_nil, List.sum_cons, List.sum_nil,
    List.length_cons, List.length_nil]
  norm_num

end Fertile.Reconciler

namespace Fertile.Reconciler

open Fertile

theorem cex3_centroid_start :
    weightedCentroidStart
      [Prediction.mk "o1" "flo" 0 0 none (some 100) none none "" "",
       Prediction.mk "o2" "flo" 12 12 none (some 100) none none "" "",
       Prediction.mk "o3" "flo" 11 12 none (some 100) none none "" ""]
      (mergedWeights {}) = 23/3 := by
  unfold weightedCentroidStart
  simp only [List.map_cons, List.map_nil, List.sum_cons, List.sum_nil]
  rw [getWeight_flo]
  norm_num

theorem cex3_centroid_end :
    weightedCentroidEnd
      [Prediction.mk "o1" "flo" 0 0 none (some 100) none none "" "",
       Prediction.mk "o2" "flo" 12 12 none (some 100) none none "" "",
       Prediction.mk "o3" "flo" 11 12 none (some 100) none none "" ""]
      (mergedWeights {}) = 8 := by
  unfold weightedCentroidEnd
  simp only [List.map_cons, List.map_nil, List.sum_cons, List.sum_nil]
  rw [getWeight_flo]
  norm_num

theorem cex3_outliers :
    identifyOutliers
      [Prediction.mk "o1" "flo" 0 0 none (some 100) none none "" "",
       Prediction.mk "o2" "flo" 12 12 none (some 100) none none "" "",
       Prediction.mk "o3" "flo" 11 12 none (some 100) none none "" ""]
      (mergedWeights {}) = ["flo", "flo", "flo"] := by
  have hd1 : daysBetween (((0:ℤ)):ℝ) (23/3) = 8 := by
    unfold daysBetween jsRound
    rw [abs_of_nonpos (by norm_num)]
    apply Int.floor_eq_iff.mpr
    constructor <;> norm_num
  have hd2 : daysBetween (((12:ℤ)):ℝ) (23/3) = 4 := by
    unfold daysBetween jsRound
    rw [abs_of_nonneg (by norm_num)]
    apply Int.floor_eq_iff.mpr
    constructor <;> norm_num
  have hd3 : daysBetween (((11:ℤ)):ℝ) (23/3) = 3 := by
    unfold daysBetween jsRound
    rw [abs_of_nonneg (by norm_num)]
    apply Int.floor_eq_iff.mpr
    constructor <;> norm_num
  have hd4 : daysBetween (((12:ℤ)):ℝ) (8:ℝ) = 4 := by
    unfold daysBetween jsRound
    rw [abs_of_nonneg (by norm_num)]
    apply Int.floor_eq_iff.mpr
    constructor <;> norm_num
  simp only [identifyOutliers]
  rw [if_neg (by norm_num), cex3_centroid_start, cex3_centroid_end]
  simp only [List.filter_cons, List.filter_nil, hd1, hd2, hd3, hd4]
  norm_num

end Fertile.Reconciler

namespace Fertile.Reconciler

open Fertile

theorem mainResult_conf_eval {vp : List Prediction} {w : SourceWeights}
    {sa : ℝ} {o : List String} {ds : List DayScore} {ws we pk : ℤ}
    (hsa0 : 0 ≤ sa)
    (hle : sa * min 1 (0.7 + (vp.length : ℝ) * 0.1) *
      max 0.5 (1 - (o.length : ℝ) * 0.1) ≤ 1) :
    (mainResult vp w sa o ds ws we pk).confidence =
      sa * min 1 (0.7 + (vp.length : ℝ) * 0.1) *
        max 0.5 (1 - (o.length : ℝ) * 0.1) := by
  show min 1 (max 0 (sa * min 1 (0.7 + (vp.length : ℝ) * 0.1) *
    max 0.5 (1 - (o.length : ℝ) * 0.1))) = _
  have h0 : (0:ℝ) ≤ sa * min 1 (0.7 + (vp.length : ℝ) * 0.1) *
      max 0.5 (1 - (o.length : ℝ) * 0.1) :=
    mul_nonneg (mul_nonneg hsa0 (le_min (by norm_num) (by positivity)))
      (le_trans (by norm_num) (le_max_left _ _))
  rw [max_eq_right h0, min_eq_right hle]

theorem cex3_main_two :
    (findFertileWindow
      (buildDayScores (validPredictionsOf
        [Prediction.mk "o1" "flo" 0 0 none (some 100) none none "" "",
         Prediction.mk "o2" "flo" 12 12 none (some 100) none none "" ""])
        (mergedWeights {}))
      (effectiveThresholdOf {}
        (calculateSourceAgreement (validPredictionsOf
          [Prediction.mk "o1" "flo" 0 0 none (some 100) none none "" "",
           Prediction.mk "o2" "flo" 12 12 none (some 100) none none
             "" ""])))).isSome := by
  have hval : validPredictionsOf
      [Prediction.mk "o1" "flo" 0 0 none (some 100) none none "" "",
       Prediction.mk "o2" "flo" 12 12 none (some 100) none none "" ""] =
      [Prediction.mk "o1" "flo" 0 0 none (some 100) none none "" "",
       Prediction.mk "o2" "flo" 12 12 none (some 100) none none "" ""] := by
    apply validPredictionsOf_eq_self
    intro p hp
    rcases List.mem_cons.mp hp with rfl | hp
    · norm_num
    · rcases List.mem_singleton.mp hp with rfl
      norm_num
  have hth := (effTh_default_bounds (calculateSourceAgreement
      (validPredictionsOf
        [Prediction.mk "o1" "flo" 0 0 none (some 100) none none "" "",
         Prediction.mk "o2" "flo" 12 12 none (some 100) none none "" ""]))
    (sourceAgreement_pos _).le (sourceAgreement_le_one _)).2
  have hmem : dayScoreAt
      [Prediction.mk "o1" "flo" 0 0 none (some 100) none none "" "",
       Prediction.mk "o2" "flo" 12 12 none (some 100) none none "" ""]
      (mergedWeights {}) 0 ∈ buildDayScores
      [Prediction.mk "o1" "flo" 0 0 none (some 100) none none "" "",
       Prediction.mk "o2" "flo" 12 12 none (some 100) none none "" ""]
      (mergedWeights {}) := by
    apply List.mem_map_of_mem
    apply mem_dateRange
    · show minStartOf _ - 2 ≤ 0
      norm_num [minStartOf]
    · show (0:ℤ) ≤ maxEndOf _ + 2
      norm_num [maxEndOf]
  have hW : (0:ℝ) < totalEffectiveWeight
      [Prediction.mk "o1" "flo" 0 0 none (some 100) none none "" "",
       Prediction.mk "o2" "flo" 12 12 none (some 100) none none "" ""]
      (mergedWeights {}) := by
    simp only [totalEffectiveWeight, List.map_cons, List.map_nil,
      List.sum_cons, List.sum_nil]
    rw [getWeight_flo]
    norm_num
  have hge := @dayScore_prob_ge_inWindow
      [Prediction.mk "o1" "flo" 0 0 none (some 100) none none "" "",
       Prediction.mk "o2" "flo" 12 12 none (some 100) none none "" ""]
      (mergedWeights {}) 0
    (fun p _ => getWeight_default_nonneg _)
    (fun p hp => by
      rcases List.mem_cons.mp hp with rfl | hp
      · exact selfConfidence_nonneg (by norm_num)
      · rcases List.mem_singleton.mp hp with rfl
        exact selfConfidence_nonneg (by norm_num))
    hW
  rw [hval]
  apply findFertileWindow_isSome_of_mem hmem
  refine le_trans ?_ hge
  have hWv : totalEffectiveWeight
      [Prediction.mk "o1" "flo" 0 0 none (some 100) none none "" "",
       Prediction.mk "o2" "flo" 12 12 none (some 100) none none "" ""]
      (mergedWeights {}) = 1.4 := by
    simp only [totalEffectiveWeight, List.map_cons, List.map_nil,
      List.sum_cons, List.sum_nil]
    rw [getWeight_flo]
    norm_num
  have hnum : (([Prediction.mk "o1" "flo" 0 0 none (some 100) none none
      "" "", Prediction.mk "o2" "flo" 12 12 none (some 100) none none
      "" ""] : List Prediction).map fun p =>
      if inWindow p 0 then getWeight p.source (mergedWeights {}) *
        selfConfidence p else 0).sum = 0.7 := by
    simp only [List.map_cons, List.map_nil, List.sum_cons, List.sum_nil]
    norm_num [inWindow, getWeight_flo, selfConfidence]
  rw [hWv, hnum]
  rw [hval] at hth
  linarith
end Fertile.Reconciler

namespace Fertile.Reconciler

open Fertile

theorem cex3_main_three :
    (findFertileWindow
      (buildDayScores (validPredictionsOf
        [Prediction.mk "o1" "flo" 0 0 none (some 100) none none "" "",
         Prediction.mk "o2" "flo" 12 12 none (some 100) none none "" "",
         Prediction.mk "o3" "flo" 11 12 none (some 100) none none "" ""])
        (mergedWeights {}))
      (effectiveThresholdOf {}
        (calculateSourceAgreement (validPredictionsOf
          [Prediction.mk "o1" "flo" 0 0 none (some 100) none none "" "",
           Prediction.mk "o2" "flo" 12 12 none (some 100) none none "" "",
           Prediction.mk "o3" "flo" 11 12 none (some 100) none none
             "" ""])))).isSome := by
  have hval : validPredictionsOf
      [Prediction.mk "o1" "flo" 0 0 none (some 100) none none "" "",
       Prediction.mk "o2" "flo" 12 12 none (some 100) none none "" "",
       Prediction.mk "o3" "flo" 11 12 none (some 100) none none "" ""] =
      [Prediction.mk "o1" "flo" 0 0 none (some 100) none none "" "",
       Prediction.mk "o2" "flo" 12 12 none (some 100) none none "" "",
       Prediction.mk "o3" "flo" 11 12 none (some 100) none none "" ""] := by
    apply validPredictionsOf_eq_self
    intro p hp
    rcases List.mem_cons.mp hp with rfl | hp
    · norm_num
    · rcases List.mem_cons.mp hp with rfl | hp
      · norm_num
      · rcases List.mem_singleton.mp hp with rfl
        norm_num
  have hth := (effTh_default_bounds (calculateSourceAgreement
      (validPredictionsOf
        [Prediction.mk "o1" "flo" 0 0 none (some 100) none none "" "",
         Prediction.mk "o2" "flo" 12 12 none (some 100) none none "" "",
         Prediction.mk "o3" "flo" 11 12 none (some 100) none none "" ""]))
    (sourceAgreement_pos _).le (sourceAgreement_le_one _)).2
  have hmem : dayScoreAt
      [Prediction.mk "o1" "flo" 0 0 none (some 100) none none "" "",
       Prediction.mk "o2" "flo" 12 12 none (some 100) none none "" "",
       Prediction.mk "o3" "flo" 11 12 none (some 100) none none "" ""]
      (mergedWeights {}) 12 ∈ buildDayScores
      [Prediction.mk "o1" "flo" 0 0 none (some 100) none none "" "",
       Prediction.mk "o2" "flo" 12 12 none (some 100) none none "" "",
       Prediction.mk "o3" "flo" 11 12 none (some 100) none none "" ""]
      (mergedWeights {}) := by
    apply List.mem_map_of_mem
    apply mem_dateRange
    · show minStartOf _ - 2 ≤ 12
      norm_num [minStartOf]
    · show (12:ℤ) ≤ maxEndOf _ + 2
      norm_num [maxEndOf]
  have hW : (0:ℝ) < totalEffectiveWeight
      [Prediction.mk "o1" "flo" 0 0 none (some 100) none none "" "",
       Prediction.mk "o2" "flo" 12 12 none (some 100) none none "" "",
       Prediction.mk "o3" "flo" 11 12 none (some 100) none none "" ""]
      (mergedWeights {}) := by
    simp only [totalEffectiveWeight, List.map_cons, List.map_nil,
      List.sum_cons, List.sum_nil]
    rw [getWeight_flo]
    norm_num
  have hge := @dayScore_prob_ge_inWindow
      [Prediction.mk "o1" "flo" 0 0 none (some 100) none none "" "",
       Prediction.mk "o2" "flo" 12 12 none (some 100) none none "" "",
       Prediction.mk "o3" "flo" 11 12 none (some 100) none none "" ""]
      (mergedWeights {}) 12
    (fun p _ => getWeight_default_nonneg _)
    (fun p hp => by
      rcases List.mem_cons.mp hp with rfl | hp
      · exact selfConfidence_nonneg (by norm_num)
      · rcases List.mem_cons.mp hp with rfl | hp
        · exact selfConfidence_nonneg (by norm_num)
        · rcases List.mem_singleton.mp hp with rfl
          exact selfConfidence_nonneg (by norm_num))
    hW
  rw [hval]
  apply findFertileWindow_isSome_of_mem hmem
  refine le_trans ?_ hge
  have hWv : totalEffectiveWeight
      [Prediction.mk "o1" "flo" 0 0 none (some 100) none none "" "",
       Prediction.mk "o2" "flo" 12 12 none (some 100) none none "" "",
       Prediction.mk "o3" "flo" 11 12 none (some 100) none none "" ""]
      (mergedWeights {}) = 2.1 := by
    simp only [totalEffectiveWeight, List.map_cons, List.map_nil,
      List.sum_cons, List.sum_nil]
    rw [getWeight_flo]
    norm_num
  have hnum : (([Prediction.mk "o1" "flo" 0 0 none (some 100) none none
      "" "", Prediction.mk "o2" "flo" 12 12 none (some 100) none none
      "" "", Prediction.mk "o3" "flo" 11 12 none (some 100) none none
      "" ""] : List Prediction).map fun p =>
      if inWindow p 12 then getWeight p.source (mergedWeights {}) *
        selfConfidence p else 0).sum = 1.4 := by
    simp only [List.map_cons, List.map_nil, List.sum_cons, List.sum_nil]
    norm_num [inWindow, getWeight_flo, selfConfidence]
  rw [hWv, hnum]
  rw [hval] at hth
  linarith

end Fertile.Reconciler

namespace Fertile.Reconciler

open Fertile

/-- A second refutation of the unamended C3, showing the shared-window
premise of the amendment is also necessary: L holds two flo predictions
with differing windows [0, 0] and [12, 12], confidence 100; Q is a far
outlier with window [11, 12] (its start and end lie 5 and 6 rounded days
from the centroids of L).  Both lists reconcile on the main path; adding
Q raises the agreement from exp(-9/2) to exp(-277/72) because Q sides
with one faction of an already-disagreeing pair, and the reported
confidence rises from 0.9 exp(-9/2) to 0.7 exp(-277/72), refuting
monotonicity even with the main-path proviso satisfied. -/
theorem reconcile_far_outlier_confidence_increase_cex :
    ∃ r r',
      reconcile [Prediction.mk "o1" "flo" 0 0 none (some 100) none none
        "" "", Prediction.mk "o2" "flo" 12 12 none (some 100) none none
        "" ""] {} = some r ∧
      reconcile [Prediction.mk "o1" "flo" 0 0 none (some 100) none none
        "" "", Prediction.mk "o2" "flo" 12 12 none (some 100) none none
        "" "", Prediction.mk "o3" "flo" 11 12 none (some 100) none none
        "" ""] {} = some r' ∧
      3 < daysBetween
        (((Prediction.mk "o3" "flo" 11 12 none (some 100) none none
          "" "").fertileStart : ℤ) : ℝ)
        (weightedCentroidStart
          [Prediction.mk "o1" "flo" 0 0 none (some 100) none none "" "",
           Prediction.mk "o2" "flo" 12 12 none (some 100) none none "" ""]
          (mergedWeights {})) ∧
      3 < daysBetween
        (((Prediction.mk "o3" "flo" 11 12 none (some 100) none none
          "" "").fertileEnd : ℤ) : ℝ)
        (weightedCentroidEnd
          [Prediction.mk "o1" "flo" 0 0 none (some 100) none none "" "",
           Prediction.mk "o2" "flo" 12 12 none (some 100) none none "" ""]
          (mergedWeights {})) ∧
      r.confidence < r'.confidence := by
  have hval1 : validPredictionsOf
      [Prediction.mk "o1" "flo" 0 0 none (some 100) none none "" "",
       Prediction.mk "o2" "flo" 12 12 none (some 100) none none "" ""] =
      [Prediction.mk "o1" "flo" 0 0 none (some 100) none none "" "",
       Prediction.mk "o2" "flo" 12 12 none (some 100) none none "" ""] := by
    apply validPredictionsOf_eq_self
    intro p hp
    rcases List.mem_cons.mp hp with rfl | hp
    · norm_num
    · rcases List.mem_singleton.mp hp with rfl
      norm_num
  have hval2 : validPredictionsOf
      [Prediction.mk "o1" "flo" 0 0 none (some 100) none none "" "",
       Prediction.mk "o2" "flo" 12 12 none (some 100) none none "" "",
       Prediction.mk "o3" "flo" 11 12 none (some 100) none none "" ""] =
      [Prediction.mk "o1" "flo" 0 0 none (some 100) none none "" "",
       Prediction.mk "o2" "flo" 12 12 none (some 100) none none "" "",
       Prediction.mk "o3" "flo" 11 12 none (some 100) none none "" ""] := by
    apply validPredictionsOf_eq_self
    intro p hp
    rcases List.mem_cons.mp hp with rfl | hp
    · norm_num
    · rcases List.mem_cons.mp hp with rfl | hp
      · norm_num
      · rcases List.mem_singleton.mp hp with rfl
        norm_num
  have hlen1 : ¬ ([Prediction.mk "o1" "flo" 0 0 none (some 100) none none
      "" "", Prediction.mk "o2" "flo" 12 12 none (some 100) none none
      "" ""] : List Prediction).length < optMinSources {} := by
    simp [optMinSources]
  have hlen2 : ¬ ([Prediction.mk "o1" "flo" 0 0 none (some 100) none none
      "" "", Prediction.mk "o2" "flo" 12 12 none (some 100) none none
      "" "", Prediction.mk "o3" "flo" 11 12 none (some 100) none none
      "" ""] : List Prediction).length < optMinSources {} := by
    simp [optMinSources]
  have hvalid1 : (validPredictionsOf
      [Prediction.mk "o1" "flo" 0 0 none (some 100) none none "" "",
       Prediction.mk "o2" "flo" 12 12 none (some 100) none none
         "" ""]).isEmpty = false := by
    rw [hval1]
    rfl
  have hvalid2 : (validPredictionsOf
      [Prediction.mk "o1" "flo" 0 0 none (some 100) none none "" "",
       Prediction.mk "o2" "flo" 12 12 none (some 100) none none "" "",
       Prediction.mk "o3" "flo" 11 12 none (some 100) none none
         "" ""]).isEmpty = false := by
    rw [hval2]
    rfl
  obtain ⟨trip1, hw1⟩ := Option.isSome_iff_exists.mp cex3_main_two
  obtain ⟨ws1, we1, pk1⟩ := trip1
  obtain ⟨trip2, hw2⟩ := Option.isSome_iff_exists.mp cex3_main_three
  obtain ⟨ws2, we2, pk2⟩ := trip2
  have hrec1 := reconcile_eq_main
      [Prediction.mk "o1" "flo" 0 0 none (some 100) none none "" "",
       Prediction.mk "o2" "flo" 12 12 none (some 100) none none "" ""]
      {} ws1 we1 pk1 hlen1 hvalid1 hw1
  have hrec2 := reconcile_eq_main
      [Prediction.mk "o1" "flo" 0 0 none (some 100) none none "" "",
       Prediction.mk "o2" "flo" 12 12 none (some 100) none none "" "",
       Prediction.mk "o3" "flo" 11 12 none (some 100) none none "" ""]
      {} ws2 we2 pk2 hlen2 hvalid2 hw2
  have hA1 : calculateSourceAgreement (validPredictionsOf
      [Prediction.mk "o1" "flo" 0 0 none (some 100) none none "" "",
       Prediction.mk "o2" "flo" 12 12 none (some 100) none none "" ""]) =
      Real.exp (-(9/2 : ℝ)) := by
    rw [hval1]
    exact cex3_agreement_two
  have hA2 : calculateSourceAgreement (validPredictionsOf
      [Prediction.mk "o1" "flo" 0 0 none (some 100) none none "" "",
       Prediction.mk "o2" "flo" 12 12 none (some 100) none none "" "",
       Prediction.mk "o3" "flo" 11 12 none (some 100) none none "" ""]) =
      Real.exp (-(277/72 : ℝ)) := by
    rw [hval2]
    exact cex3_agreement_three
  have hO1 : identifyOutliers (validPredictionsOf
      [Prediction.mk "o1" "flo" 0 0 none (some 100) none none "" "",
       Prediction.mk "o2" "flo" 12 12 none (some 100) none none "" ""])
      (mergedWeights {}) = [] := by
    rw [hval1]
    exact identifyOutliers_short (by norm_num)
  have hO2 : identifyOutliers (validPredictionsOf
      [Prediction.mk "o1" "flo" 0 0 none (some 100) none none "" "",
       Prediction.mk "o2" "flo" 12 12 none (some 100) none none "" "",
       Prediction.mk "o3" "flo" 11 12 none (some 100) none none "" ""])
      (mergedWeights {}) = ["flo", "flo", "flo"] := by
    rw [hval2]
    exact cex3_outliers
  have hexp1le : Real.exp (-(9/2 : ℝ)) ≤ 1 :=
    Real.exp_le_one_iff.mpr (by norm_num)
  have hexp1pos : (0:ℝ) < Real.exp (-(9/2 : ℝ)) := Real.exp_pos _
  have hexp2le : Real.exp (-(277/72 : ℝ)) ≤ 1 :=
    Real.exp_le_one_iff.mpr (by norm_num)
  have hexp2pos : (0:ℝ) < Real.exp (-(277/72 : ℝ)) := Real.exp_pos _
  have hle1 : calculateSourceAgreement (validPredictionsOf
      [Prediction.mk "o1" "flo" 0 0 none (some 100) none none "" "",
       Prediction.mk "o2" "flo" 12 12 none (some 100) none none "" ""]) *
      min 1 (0.7 + (((validPredictionsOf
        [Prediction.mk "o1" "flo" 0 0 none (some 100) none none "" "",
         Prediction.mk "o2" "flo" 12 12 none (some 100) none none
           "" ""]).length : ℕ) : ℝ) * 0.1) *
      max 0.5 (1 - (((identifyOutliers (validPredictionsOf
        [Prediction.mk "o1" "flo" 0 0 none (some 100) none none "" "",
         Prediction.mk "o2" "flo" 12 12 none (some 100) none none "" ""])
        (mergedWeights {})).length : ℕ) : ℝ) * 0.1) ≤ 1 := by
    rw [hA1, hO1, hval1]
    simp only [List.length_cons, List.length_nil]
    norm_num [min_def, max_def]
    nlinarith
  have hle2 : calculateSourceAgreement (validPredictionsOf
      [Prediction.mk "o1" "flo" 0 0 none (some 100) none none "" "",
       Prediction.mk "o2" "flo" 12 12 none (some 100) none none "" "",
       Prediction.mk "o3" "flo" 11 12 none (some 100) none none "" ""]) *
      min 1 (0.7 + (((validPredictionsOf
        [Prediction.mk "o1" "flo" 0 0 none (some 100) none none "" "",
         Prediction.mk "o2" "flo" 12 12 none (some 100) none none "" "",
         Prediction.mk "o3" "flo" 11 12 none (some 100) none none
           "" ""]).length : ℕ) : ℝ) * 0.1) *
      max 0.5 (1 - (((identifyOutliers (validPredictionsOf
        [Prediction.mk "o1" "flo" 0 0 none (some 100) none none "" "",
         Prediction.mk "o2" "flo" 12 12 none (some 100) none none "" "",
         Prediction.mk "o3" "flo" 11 12 none (some 100) none none "" ""])
        (mergedWeights {})).length : ℕ) : ℝ) * 0.1) ≤ 1 := by
    rw [hA2, hO2, hval2]
    simp only [List.length_cons, List.length_nil]
    norm_num [min_def, max_def]
    nlinarith
  have hc1 : (mainResult (validPredictionsOf
      [Prediction.mk "o1" "flo" 0 0 none (some 100) none none "" "",
       Prediction.mk "o2" "flo" 12 12 none (some 100) none none "" ""])
      (mergedWeights {})
      (calculateSourceAgreement (validPredictionsOf
        [Prediction.mk "o1" "flo" 0 0 none (some 100) none none "" "",
         Prediction.mk "o2" "flo" 12 12 none (some 100) none none "" ""]))
      (identifyOutliers (validPredictionsOf
        [Prediction.mk "o1" "flo" 0 0 none (some 100) none none "" "",
         Prediction.mk "o2" "flo" 12 12 none (some 100) none none "" ""])
        (mergedWeights {}))
      (buildDayScores (validPredictionsOf
        [Prediction.mk "o1" "flo" 0 0 none (some 100) none none "" "",
         Prediction.mk "o2" "flo" 12 12 none (some 100) none none "" ""])
        (mergedWeights {}))
      ws1 we1 pk1).confidence = 0.9 * Real.exp (-(9/2 : ℝ)) := by
    rw [mainResult_conf_eval (sourceAgreement_pos _).le hle1]
    rw [hA1, hO1, hval1]
    simp only [List.length_cons, List.length_nil]
    norm_num [min_def, max_def]
    ring
  have hc2 : (mainResult (validPredictionsOf
      [Prediction.mk "o1" "flo" 0 0 none (some 100) none none "" "",
       Prediction.mk "o2" "flo" 12 12 none (some 100) none none "" "",
       Prediction.mk "o3" "flo" 11 12 none (some 100) none none "" ""])
      (mergedWeights {})
      (calculateSourceAgreement (validPredictionsOf
        [Prediction.mk "o1" "flo" 0 0 none (some 100) none none "" "",
         Prediction.mk "o2" "flo" 12 12 none (some 100) none none "" "",
         Prediction.mk "o3" "flo" 11 12 none (some 100) none none "" ""]))
      (identifyOutliers (validPredictionsOf
        [Prediction.mk "o1" "flo" 0 0 none (some 100) none none "" "",
         Prediction.mk "o2" "flo" 12 12 none (some 100) none none "" "",
         Prediction.mk "o3" "flo" 11 12 none (some 100) none none "" ""])
        (mergedWeights {}))
      (buildDayScores (validPredictionsOf
        [Prediction.mk "o1" "flo" 0 0 none (some 100) none none "" "",
         Prediction.mk "o2" "flo" 12 12 none (some 100) none none "" "",
         Prediction.mk "o3" "flo" 11 12 none (some 100) none none "" ""])
        (mergedWeights {}))
      ws2 we2 pk2).confidence = 0.7 * Real.exp (-(277/72 : ℝ)) := by
    rw [mainResult_conf_eval (sourceAgreement_pos _).le hle2]
    rw [hA2, hO2, hval2]
    simp only [List.length_cons, List.length_nil]
    norm_num [min_def, max_def]
    ring
  have hcentS : weightedCentroidStart
      [Prediction.mk "o1" "flo" 0 0 none (some 100) none none "" "",
       Prediction.mk "o2" "flo" 12 12 none (some 100) none none "" ""]
      (mergedWeights {}) = 6 := by
    unfold weightedCentroidStart
    simp only [List.map_cons, List.map_nil, List.sum_cons, List.sum_nil]
    rw [getWeight_flo]
    norm_num
  have hcentE : weightedCentroidEnd
      [Prediction.mk "o1" "flo" 0 0 none (some 100) none none "" "",
       Prediction.mk "o2" "flo" 12 12 none (some 100) none none "" ""]
      (mergedWeights {}) = 6 := by
    unfold weightedCentroidEnd
    simp only [List.map_cons, List.map_nil, List.sum_cons, List.sum_nil]
    rw [getWeight_flo]
    norm_num
  have hd5 : daysBetween (((11:ℤ)):ℝ) (6:ℝ) = 5 := by
    unfold daysBetween jsRound
    rw [abs_of_nonneg (by norm_num)]
    apply Int.floor_eq_iff.mpr
    constructor <;> norm_num
  have hd6 : daysBetween (((12:ℤ)):ℝ) (6:ℝ) = 6 := by
    unfold daysBetween jsRound
    rw [abs_of_nonneg (by norm_num)]
    apply Int.floor_eq_iff.mpr
    constructor <;> norm_num
  refine ⟨_, _, hrec1, hrec2, ?_, ?_, ?_⟩
  · show 3 < daysBetween (((11:ℤ)):ℝ) (weightedCentroidStart _ _)
    rw [hcentS, hd5]
    norm_num
  · show 3 < daysBetween (((12:ℤ)):ℝ) (weightedCentroidEnd _ _)
    rw [hcentE, hd6]
    norm_num
  · rw [hc1, hc2]
    have hsplit : Real.exp (-(9/2 : ℝ)) =
        Real.exp (-(277/72 : ℝ)) * Real.exp (-(47/72 : ℝ)) := by
      rw [← Real.exp_add]
      norm_num
    have h1 : (9/7 : ℝ) < Real.exp ((47:ℝ)/72) := by
      have := Real.add_one_le_exp ((47:ℝ)/72)
      linarith
    have hml : Real.exp (-(47/72 : ℝ)) * Real.exp ((47:ℝ)/72) = 1 := by
      rw [← Real.exp_add]
      norm_num
    have he79 : Real.exp (-(47/72 : ℝ)) < 7/9 := by
      nlinarith [Real.exp_pos (-(47/72 : ℝ))]
    rw [hsplit]
    nlinarith [Real.exp_pos (-(277/72 : ℝ)), Real.exp_pos (-(47/72 : ℝ))]

end Fertile.Reconciler

namespace Fertile.Reconciler

open Fertile

/-- C3, witness: two flo predictions on [0, 5] with confidence 100 and a
far outlier on [10, 15]; appending the outlier does not increase the
confidence. -/
theorem reconcile_far_outlier_mono_witness :
    (∀ p ∈ ([Prediction.mk "w1" "flo" 0 5 none (some 100) none none "" "",
        Prediction.mk "w2" "flo" 0 5 none (some 100) none none "" ""] :
        List Prediction),
      p.fertileStart = (0:ℤ) ∧ p.fertileEnd = (5:ℤ)) ∧
    (∀ p ∈ ([Prediction.mk "w1" "flo" 0 5 none (some 100) none none "" "",
        Prediction.mk "w2" "flo" 0 5 none (some 100) none none "" ""] :
        List Prediction) ++
        [Prediction.mk "w3" "flo" 10 15 none (some 100) none none "" ""],
      0 < p.confidence.getD 50) ∧
    2 ≤ ([Prediction.mk "w1" "flo" 0 5 none (some 100) none none "" "",
        Prediction.mk "w2" "flo" 0 5 none (some 100) none none "" ""] :
        List Prediction).length ∧
    3 < daysBetween
      (((Prediction.mk "w3" "flo" 10 15 none (some 100) none none
        "" "").fertileStart : ℤ) : ℝ)
      (weightedCentroidStart
        [Prediction.mk "w1" "flo" 0 5 none (some 100) none none "" "",
         Prediction.mk "w2" "flo" 0 5 none (some 100) none none "" ""]
        (mergedWeights {})) ∧
    3 < daysBetween
      (((Prediction.mk "w3" "flo" 10 15 none (some 100) none none
        "" "").fertileEnd : ℤ) : ℝ)
      (weightedCentroidEnd
        [Prediction.mk "w1" "flo" 0 5 none (some 100) none none "" "",
         Prediction.mk "w2" "flo" 0 5 none (some 100) none none "" ""]
        (mergedWeights {})) ∧
    (findFertileWindow (buildDayScores (validPredictionsOf
      [Prediction.mk "w1" "flo" 0 5 none (some 100) none none "" "",
       Prediction.mk "w2" "flo" 0 5 none (some 100) none none "" ""])
      (mergedWeights {})) (effectiveThresholdOf {}
      (calculateSourceAgreement (validPredictionsOf
        [Prediction.mk "w1" "flo" 0 5 none (some 100) none none "" "",
         Prediction.mk "w2" "flo" 0 5 none (some 100) none none
           "" ""])))).isSome ∧
    ∃ r r', reconcile
        [Prediction.mk "w1" "flo" 0 5 none (some 100) none none "" "",
         Prediction.mk "w2" "flo" 0 5 none (some 100) none none "" ""]
        {} = some r ∧
      reconcile
        ([Prediction.mk "w1" "flo" 0 5 none (some 100) none none "" "",
          Prediction.mk "w2" "flo" 0 5 none (some 100) none none "" ""] ++
         [Prediction.mk "w3" "flo" 10 15 none (some 100) none none "" ""])
        {} = some r' ∧
      r'.confidence ≤ r.confidence := by
  have hident : ∀ p ∈ ([Prediction.mk "w1" "flo" 0 5 none (some 100) none
      none "" "", Prediction.mk "w2" "flo" 0 5 none (some 100) none none
      "" ""] : List Prediction),
      p.fertileStart = (0:ℤ) ∧ p.fertileEnd = (5:ℤ) := by
    intro p hp
    rcases List.mem_cons.mp hp with rfl | hp
    · exact ⟨rfl, rfl⟩
    · rcases List.mem_singleton.mp hp with rfl
      exact ⟨rfl, rfl⟩
  have hconf : ∀ p ∈ ([Prediction.mk "w1" "flo" 0 5 none (some 100) none
      none "" "", Prediction.mk "w2" "flo" 0 5 none (some 100) none none
      "" ""] : List Prediction) ++
      [Prediction.mk "w3" "flo" 10 15 none (some 100) none none "" ""],
      0 < p.confidence.getD 50 := by
    intro p hp
    rcases List.mem_cons.mp hp with rfl | hp
    · norm_num
    · rcases List.mem_cons.mp hp with rfl | hp
      · norm_num
      · rcases List.mem_singleton.mp hp with rfl
        norm_num
  have hn : 2 ≤ ([Prediction.mk "w1" "flo" 0 5 none (some 100) none none
      "" "", Prediction.mk "w2" "flo" 0 5 none (some 100) none none
      "" ""] : List Prediction).length := by
    simp
  have hWne : (([Prediction.mk "w1" "flo" 0 5 none (some 100) none none
      "" "", Prediction.mk "w2" "flo" 0 5 none (some 100) none none
      "" ""] : List Prediction).map fun p =>
      getWeight p.source (mergedWeights {})).sum ≠ 0 := by
    simp only [List.map_cons, List.map_nil, List.sum_cons, List.sum_nil]
    rw [getWeight_flo]
    norm_num
  have hcentS : weightedCentroidStart
      [Prediction.mk "w1" "flo" 0 5 none (some 100) none none "" "",
       Prediction.mk "w2" "flo" 0 5 none (some 100) none none "" ""]
      (mergedWeights {}) = ((0:ℤ):ℝ) :=
    weightedCentroidStart_const (fun p hp => (hident p hp).1) hWne
  have hcentE : weightedCentroidEnd
      [Prediction.mk "w1" "flo" 0 5 none (some 100) none none "" "",
       Prediction.mk "w2" "flo" 0 5 none (some 100) none none "" ""]
      (mergedWeights {}) = ((5:ℤ):ℝ) :=
    weightedCentroidEnd_const (fun p hp => (hident p hp).2) hWne
  have hfars : 3 < daysBetween
      (((Prediction.mk "w3" "flo" 10 15 none (some 100) none none
        "" "").fertileStart : ℤ) : ℝ)
      (weightedCentroidStart
        [Prediction.mk "w1" "flo" 0 5 none (some 100) none none "" "",
         Prediction.mk "w2" "flo" 0 5 none (some 100) none none "" ""]
        (mergedWeights {})) := by
    rw [hcentS]
    show 3 < daysBetween (((10:ℤ)):ℝ) (((0:ℤ)):ℝ)
    rw [daysBetween_intCast]
    decide
  have hfare : 3 < daysBetween
      (((Prediction.mk "w3" "flo" 10 15 none (some 100) none none
        "" "").fertileEnd : ℤ) : ℝ)
      (weightedCentroidEnd
        [Prediction.mk "w1" "flo" 0 5 none (some 100) none none "" "",
         Prediction.mk "w2" "flo" 0 5 none (some 100) none none "" ""]
        (mergedWeights {})) := by
    rw [hcentE]
    show 3 < daysBetween (((15:ℤ)):ℝ) (((5:ℤ)):ℝ)
    rw [daysBetween_intCast]
    decide
  have hval : validPredictionsOf
      [Prediction.mk "w1" "flo" 0 5 none (some 100) none none "" "",
       Prediction.mk "w2" "flo" 0 5 none (some 100) none none "" ""] =
      [Prediction.mk "w1" "flo" 0 5 none (some 100) none none "" "",
       Prediction.mk "w2" "flo" 0 5 none (some 100) none none "" ""] := by
    apply validPredictionsOf_eq_self
    intro p hp
    rcases List.mem_cons.mp hp with rfl | hp
    · norm_num
    · rcases List.mem_singleton.mp hp with rfl
      norm_num
  have hmain : (findFertileWindow (buildDayScores (validPredictionsOf
      [Prediction.mk "w1" "flo" 0 5 none (some 100) none none "" "",
       Prediction.mk "w2" "flo" 0 5 none (some 100) none none "" ""])
      (mergedWeights {})) (effectiveThresholdOf {}
      (calculateSourceAgreement (validPredictionsOf
        [Prediction.mk "w1" "flo" 0 5 none (some 100) none none "" "",
         Prediction.mk "w2" "flo" 0 5 none (some 100) none none
           "" ""])))).isSome := by
    have hth := (effTh_default_bounds (calculateSourceAgreement
        (validPredictionsOf
          [Prediction.mk "w1" "flo" 0 5 none (some 100) none none "" "",
           Prediction.mk "w2" "flo" 0 5 none (some 100) none none "" ""]))
      (sourceAgreement_pos _).le (sourceAgreement_le_one _)).2
    have hmem : dayScoreAt
        [Prediction.mk "w1" "flo" 0 5 none (some 100) none none "" "",
         Prediction.mk "w2" "flo" 0 5 none (some 100) none none "" ""]
        (mergedWeights {}) 0 ∈ buildDayScores
        [Prediction.mk "w1" "flo" 0 5 none (some 100) none none "" "",
         Prediction.mk "w2" "flo" 0 5 none (some 100) none none "" ""]
        (mergedWeights {}) := by
      apply List.mem_map_of_mem
      apply mem_dateRange
      · show minStartOf _ - 2 ≤ 0
        norm_num [minStartOf]
      · show (0:ℤ) ≤ maxEndOf _ + 2
        norm_num [maxEndOf]
    have hW : (0:ℝ) < totalEffectiveWeight
        [Prediction.mk "w1" "flo" 0 5 none (some 100) none none "" "",
         Prediction.mk "w2" "flo" 0 5 none (some 100) none none "" ""]
        (mergedWeights {}) := by
      simp only [totalEffectiveWeight, List.map_cons, List.map_nil,
        List.sum_cons, List.sum_nil]
      rw [getWeight_flo]
      norm_num
    have hge := @dayScore_prob_ge_inWindow
        [Prediction.mk "w1" "flo" 0 5 none (some 100) none none "" "",
         Prediction.mk "w2" "flo" 0 5 none (some 100) none none "" ""]
        (mergedWeights {}) 0
      (fun p _ => getWeight_default_nonneg _)
      (fun p hp => by
        rcases List.mem_cons.mp hp with rfl | hp
        · exact selfConfidence_nonneg (by norm_num)
        · rcases List.mem_singleton.mp hp with rfl
          exact selfConfidence_nonneg (by norm_num))
      hW
    rw [hval]
    apply findFertileWindow_isSome_of_mem hmem
    refine le_trans ?_ hge
    have hWv : totalEffectiveWeight
        [Prediction.mk "w1" "flo" 0 5 none (some 100) none none "" "",
         Prediction.mk "w2" "flo" 0 5 none (some 100) none none "" ""]
        (mergedWeights {}) = 1.4 := by
      simp only [totalEffectiveWeight, List.map_cons, List.map_nil,
        List.sum_cons, List.sum_nil]
      rw [getWeight_flo]
      norm_num
    have hnum : (([Prediction.mk "w1" "flo" 0 5 none (some 100) none none
        "" "", Prediction.mk "w2" "flo" 0 5 none (some 100) none none
        "" ""] : List Prediction).map fun p =>
        if inWindow p 0 then getWeight p.source (mergedWeights {}) *
          selfConfidence p else 0).sum = 1.4 := by
      simp only [List.map_cons, List.map_nil, List.sum_cons, List.sum_nil]
      norm_num [inWindow, getWeight_flo, selfConfidence]
    rw [hWv, hnum]
    rw [hval] at hth
    linarith
  exact ⟨hident, hconf, hn, hfars, hfare, hmain,
    reconcile_far_outlier_mono _ _ 0 5 hident hconf hn hfars hfare hmain⟩

end Fertile.Reconciler

namespace Fertile.Reconciler

open Fertile

theorem getWeight_other : getWeight "other" (mergedWeights {}) = 0.5 := by
  rw [getWeight_merged_none]
  simp [DEFAULT_WEIGHTS]

theorem getWeight_nc :
    getWeight "natural-cycles" (mergedWeights {}) = 0.95 := by
  rw [getWeight_merged_none]
  simp [DEFAULT_WEIGHTS]

theorem gaincex_agreement_three :
    calculateSourceAgreement
      [Prediction.mk "g1" "other" 0 5 none (some 20) none none "" "",
       Prediction.mk "g2" "other" 0 5 none (some 20) none none "" "",
       Prediction.mk "g3" "natural-cycles" 4 9 none (some 100) none none
         "" ""] = Real.exp (-(4/9 : ℝ)) := by
  unfold calculateSourceAgreement
  rw [if_neg (by norm_num)]
  simp only [List.map_cons, List.map_nil, List.sum_cons, List.sum_nil,
    List.length_cons, List.length_nil]
  norm_num

theorem gaincex_centroid_start :
    weightedCentroidStart
      [Prediction.mk "g1" "other" 0 5 none (some 20) none none "" "",
       Prediction.mk "g2" "other" 0 5 none (some 20) none none "" "",
       Prediction.mk "g3" "natural-cycles" 4 9 none (some 100) none none
         "" ""] (mergedWeights {}) = 76/39 := by
  unfold weightedCentroidStart
  simp only [List.map_cons, List.map_nil, List.sum_cons, List.sum_nil]
  rw [getWeight_other, getWeight_nc]
  norm_num

theorem gaincex_centroid_end :
    weightedCentroidEnd
      [Prediction.mk "g1" "other" 0 5 none (some 20) none none "" "",
       Prediction.mk "g2" "other" 0 5 none (some 20) none none "" "",
       Prediction.mk "g3" "natural-cycles" 4 9 none (some 100) none none
         "" ""] (mergedWeights {}) = 271/39 := by
  unfold weightedCentroidEnd
  simp only [List.map_cons, List.map_nil, List.sum_cons, List.sum_nil]
  rw [getWeight_other, getWeight_nc]
  norm_num

theorem gaincex_outliers :
    identifyOutliers
      [Prediction.mk "g1" "other" 0 5 none (some 20) none none "" "",
       Prediction.mk "g2" "other" 0 5 none (some 20) none none "" "",
       Prediction.mk "g3" "natural-cycles" 4 9 none (some 100) none none
         "" ""] (mergedWeights {}) = [] := by
  have hd1 : daysBetween (((0:ℤ)):ℝ) (76/39) = 2 := by
    unfold daysBetween jsRound
    rw [abs_of_nonpos (by norm_num)]
    apply Int.floor_eq_iff.mpr
    constructor <;> norm_num
  have hd2 : daysBetween (((4:ℤ)):ℝ) (76/39) = 2 := by
    unfold daysBetween jsRound
    rw [abs_of_nonneg (by norm_num)]
    apply Int.floor_eq_iff.mpr
    constructor <;> norm_num
  have hd3 : daysBetween (((5:ℤ)):ℝ) (271/39) = 2 := by
    unfold daysBetween jsRound
    rw [abs_of_nonpos (by norm_num)]
    apply Int.floor_eq_iff.mpr
    constructor <;> norm_num
  have hd4 : daysBetween (((9:ℤ)):ℝ) (271/39) = 2 := by
    unfold daysBetween jsRound
    rw [abs_of_nonneg (by norm_num)]
    apply Int.floor_eq_iff.mpr
    constructor <;> norm_num
  simp only [identifyOutliers]
  rw [if_neg (by norm_num), gaincex_centroid_start, gaincex_centroid_end]
  simp only [List.filter_cons, List.filter_nil, hd1, hd2, hd3, hd4]
  norm_num

theorem gaincex_main_three :
    (findFertileWindow
      (buildDayScores
        [Prediction.mk "g1" "other" 0 5 none (some 20) none none "" "",
         Prediction.mk "g2" "other" 0 5 none (some 20) none none "" "",
         Prediction.mk "g3" "natural-cycles" 4 9 none (some 100) none none
           "" ""] (mergedWeights {}))
      (effectiveThresholdOf {}
        (calculateSourceAgreement
          [Prediction.mk "g1" "other" 0 5 none (some 20) none none "" "",
           Prediction.mk "g2" "other" 0 5 none (some 20) none none "" "",
           Prediction.mk "g3" "natural-cycles" 4 9 none (some 100) none
             none "" ""]))).isSome := by
  have hth := (effTh_default_bounds (calculateSourceAgreement
      [Prediction.mk "g1" "other" 0 5 none (some 20) none none "" "",
       Prediction.mk "g2" "other" 0 5 none (some 20) none none "" "",
       Prediction.mk "g3" "natural-cycles" 4 9 none (some 100) none none
         "" ""])
    (sourceAgreement_pos _).le (sourceAgreement_le_one _)).2
  have hmem : dayScoreAt
      [Prediction.mk "g1" "other" 0 5 none (some 20) none none "" "",
       Prediction.mk "g2" "other" 0 5 none (some 20) none none "" "",
       Prediction.mk "g3" "natural-cycles" 4 9 none (some 100) none none
         "" ""] (mergedWeights {}) 9 ∈ buildDayScores
      [Prediction.mk "g1" "other" 0 5 none (some 20) none none "" "",
       Prediction.mk "g2" "other" 0 5 none (some 20) none none "" "",
       Prediction.mk "g3" "natural-cycles" 4 9 none (some 100) none none
         "" ""] (mergedWeights {}) := by
    apply List.mem_map_of_mem
    apply mem_dateRange
    · show minStartOf _ - 2 ≤ 9
      norm_num [minStartOf]
    · show (9:ℤ) ≤ maxEndOf _ + 2
      norm_num [maxEndOf]
  have hW : (0:ℝ) < totalEffectiveWeight
      [Prediction.mk "g1" "other" 0 5 none (some 20) none none "" "",
       Prediction.mk "g2" "other" 0 5 none (some 20) none none "" "",
       Prediction.mk "g3" "natural-cycles" 4 9 none (some 100) none none
         "" ""] (mergedWeights {}) := by
    simp only [totalEffectiveWeight, List.map_cons, List.map_nil,
      List.sum_cons, List.sum_nil]
    rw [getWeight_other, getWeight_nc]
    norm_num
  have hge := @dayScore_prob_ge_inWindow
      [Prediction.mk "g1" "other" 0 5 none (some 20) none none "" "",
       Prediction.mk "g2" "other" 0 5 none (some 20) none none "" "",
       Prediction.mk "g3" "natural-cycles" 4 9 none (some 100) none none
         "" ""] (mergedWeights {}) 9
    (fun p _ => getWeight_default_nonneg _)
    (fun p hp => by
      rcases List.mem_cons.mp hp with rfl | hp
      · exact selfConfidence_nonneg (by norm_num)
      · rcases List.mem_cons.mp hp with rfl | hp
        · exact selfConfidence_nonneg (by norm_num)
        · rcases List.mem_singleton.mp hp with rfl
          exact selfConfidence_nonneg (by norm_num))
    hW
  apply findFertileWindow_isSome_of_mem hmem
  refine le_trans ?_ hge
  have hWv : totalEffectiveWeight
      [Prediction.mk "g1" "other" 0 5 none (some 20) none none "" "",
       Prediction.mk "g2" "other" 0 5 none (some 20) none none "" "",
       Prediction.mk "g3" "natural-cycles" 4 9 none (some 100) none none
         "" ""] (mergedWeights {}) = 1.95 := by
    simp only [totalEffectiveWeight, List.map_cons, List.map_nil,
      List.sum_cons, List.sum_nil]
    rw [getWeight_other, getWeight_nc]
    norm_num
  have hnum : (([Prediction.mk "g1" "other" 0 5 none (some 20) none none
      "" "", Prediction.mk "g2" "other" 0 5 none (some 20) none none
      "" "", Prediction.mk "g3" "natural-cycles" 4 9 none (some 100) none
      none "" ""] : List Prediction).map fun p =>
      if inWindow p 9 then getWeight p.source (mergedWeights {}) *
        selfConfidence p else 0).sum = 0.95 := by
    simp only [List.map_cons, List.map_nil, List.sum_cons, List.sum_nil]
    norm_num [inWindow, getWeight_nc, selfConfidence]
  rw [hWv, hnum]
  linarith

end Fertile.Reconciler

namespace Fertile.Reconciler

open Fertile

/-- C3, counterexample.  L holds two predictions of an unlisted source
(effective weight 0.5) sharing the window [0, 5] with confidence 20, and
q is a natural-cycles prediction on [4, 9] with confidence 100, lying 4
rounded days from both centroids of L — every hypothesis of the amended
statement except the main-path proviso holds.  L itself falls back (its
day probabilities peak at 0.2, below the 0.3 threshold), so its
confidence is max(0.2, 1 times 0.5) = 0.5; appending q yields agreement
exp(-4/9), a main-path window at day 9 (probability 0.95/1.95 above the
threshold), and no outliers, because q sits within 3 rounded days of the
weight-shifted centroids of the extended list, so the new confidence is
exp(-4/9), about 0.64 — an increase.  This refutes the original claim
and shows the main-path proviso of the amendment is necessary. -/
theorem reconcile_far_outlier_fallback_gain_cex :
    (∀ p ∈ ([Prediction.mk "g1" "other" 0 5 none (some 20) none none
        "" "", Prediction.mk "g2" "other" 0 5 none (some 20) none none
        "" ""] : List Prediction),
      p.fertileStart = (0:ℤ) ∧ p.fertileEnd = (5:ℤ)) ∧
    (∀ p ∈ ([Prediction.mk "g1" "other" 0 5 none (some 20) none none
        "" "", Prediction.mk "g2" "other" 0 5 none (some 20) none none
        "" ""] : List Prediction) ++
        [Prediction.mk "g3" "natural-cycles" 4 9 none (some 100) none
          none "" ""],
      0 < p.confidence.getD 50) ∧
    2 ≤ ([Prediction.mk "g1" "other" 0 5 none (some 20) none none "" "",
        Prediction.mk "g2" "other" 0 5 none (some 20) none none "" ""] :
        List Prediction).length ∧
    3 < daysBetween
      (((Prediction.mk "g3" "natural-cycles" 4 9 none (some 100) none
        none "" "").fertileStart : ℤ) : ℝ)
      (weightedCentroidStart
        [Prediction.mk "g1" "other" 0 5 none (some 20) none none "" "",
         Prediction.mk "g2" "other" 0 5 none (some 20) none none "" ""]
        (mergedWeights {})) ∧
    3 < daysBetween
      (((Prediction.mk "g3" "natural-cycles" 4 9 none (some 100) none
        none "" "").fertileEnd : ℤ) : ℝ)
      (weightedCentroidEnd
        [Prediction.mk "g1" "other" 0 5 none (some 20) none none "" "",
         Prediction.mk "g2" "other" 0 5 none (some 20) none none "" ""]
        (mergedWeights {})) ∧
    findFertileWindow (buildDayScores (validPredictionsOf
      [Prediction.mk "g1" "other" 0 5 none (some 20) none none "" "",
       Prediction.mk "g2" "other" 0 5 none (some 20) none none "" ""])
      (mergedWeights {})) (effectiveThresholdOf {}
      (calculateSourceAgreement (validPredictionsOf
        [Prediction.mk "g1" "other" 0 5 none (some 20) none none "" "",
         Prediction.mk "g2" "other" 0 5 none (some 20) none none
           "" ""]))) = none ∧
    ∃ r r', reconcile
        [Prediction.mk "g1" "other" 0 5 none (some 20) none none "" "",
         Prediction.mk "g2" "other" 0 5 none (some 20) none none "" ""]
        {} = some r ∧
      reconcile
        ([Prediction.mk "g1" "other" 0 5 none (some 20) none none "" "",
          Prediction.mk "g2" "other" 0 5 none (some 20) none none "" ""] ++
         [Prediction.mk "g3" "natural-cycles" 4 9 none (some 100) none
           none "" ""]) {} = some r' ∧
      r.confidence = 0.5 ∧ r'.confidence = Real.exp (-(4/9 : ℝ)) ∧
      r.confidence < r'.confidence := by
  have hident : ∀ p ∈ ([Prediction.mk "g1" "other" 0 5 none (some 20)
      none none "" "", Prediction.mk "g2" "other" 0 5 none (some 20) none
      none "" ""] : List Prediction),
      p.fertileStart = (0:ℤ) ∧ p.fertileEnd = (5:ℤ) := by
    intro p hp
    rcases List.mem_cons.mp hp with rfl | hp
    · exact ⟨rfl, rfl⟩
    · rcases List.mem_singleton.mp hp with rfl
      exact ⟨rfl, rfl⟩
  have hconf : ∀ p ∈ ([Prediction.mk "g1" "other" 0 5 none (some 20) none
      none "" "", Prediction.mk "g2" "other" 0 5 none (some 20) none none
      "" ""] : List Prediction) ++
      [Prediction.mk "g3" "natural-cycles" 4 9 none (some 100) none none
        "" ""], 0 < p.confidence.getD 50 := by
    intro p hp
    rcases List.mem_cons.mp hp with rfl | hp
    · norm_num
    · rcases List.mem_cons.mp hp with rfl | hp
      · norm_num
      · rcases List.mem_singleton.mp hp with rfl
        norm_num
  have hn : 2 ≤ ([Prediction.mk "g1" "other" 0 5 none (some 20) none none
      "" "", Prediction.mk "g2" "other" 0 5 none (some 20) none none
      "" ""] : List Prediction).length := by
    simp
  have hvalL : validPredictionsOf
      [Prediction.mk "g1" "other" 0 5 none (some 20) none none "" "",
       Prediction.mk "g2" "other" 0 5 none (some 20) none none "" ""] =
      [Prediction.mk "g1" "other" 0 5 none (some 20) none none "" "",
       Prediction.mk "g2" "other" 0 5 none (some 20) none none "" ""] := by
    apply validPredictionsOf_eq_self
    intro p hp
    rcases List.mem_cons.mp hp with rfl | hp
    · norm_num
    · rcases List.mem_singleton.mp hp with rfl
      norm_num
  have hWneL : (([Prediction.mk "g1" "other" 0 5 none (some 20) none none
      "" "", Prediction.mk "g2" "other" 0 5 none (some 20) none none
      "" ""] : List Prediction).map fun p =>
      getWeight p.source (mergedWeights {})).sum ≠ 0 := by
    simp only [List.map_cons, List.map_nil, List.sum_cons, List.sum_nil]
    rw [getWeight_other]
    norm_num
  have hcentS : weightedCentroidStart
      [Prediction.mk "g1" "other" 0 5 none (some 20) none none "" "",
       Prediction.mk "g2" "other" 0 5 none (some 20) none none "" ""]
      (mergedWeights {}) = ((0:ℤ):ℝ) :=
    weightedCentroidStart_const (fun p hp => (hident p hp).1) hWneL
  have hcentE : weightedCentroidEnd
      [Prediction.mk "g1" "other" 0 5 none (some 20) none none "" "",
       Prediction.mk "g2" "other" 0 5 none (some 20) none none "" ""]
      (mergedWeights {}) = ((5:ℤ):ℝ) :=
    weightedCentroidEnd_const (fun p hp => (hident p hp).2) hWneL
  have hfars : 3 < daysBetween
      (((Prediction.mk "g3" "natural-cycles" 4 9 none (some 100) none
        none "" "").fertileStart : ℤ) : ℝ)
      (weightedCentroidStart
        [Prediction.mk "g1" "other" 0 5 none (some 20) none none "" "",
         Prediction.mk "g2" "other" 0 5 none (some 20) none none "" ""]
        (mergedWeights {})) := by
    rw [hcentS]
    show 3 < daysBetween (((4:ℤ)):ℝ) (((0:ℤ)):ℝ)
    rw [daysBetween_intCast]
    decide
  have hfare : 3 < daysBetween
      (((Prediction.mk "g3" "natural-cycles" 4 9 none (some 100) none
        none "" "").fertileEnd : ℤ) : ℝ)
      (weightedCentroidEnd
        [Prediction.mk "g1" "other" 0 5 none (some 20) none none "" "",
         Prediction.mk "g2" "other" 0 5 none (some 20) none none "" ""]
        (mergedWeights {})) := by
    rw [hcentE]
    show 3 < daysBetween (((9:ℤ)):ℝ) (((5:ℤ)):ℝ)
    rw [daysBetween_intCast]
    decide
  have hAL : calculateSourceAgreement (validPredictionsOf
      [Prediction.mk "g1" "other" 0 5 none (some 20) none none "" "",
       Prediction.mk "g2" "other" 0 5 none (some 20) none none "" ""]) =
      1 := by
    rw [hvalL]
    exact sourceAgreement_const hident
  have hthL : effectiveThresholdOf {} (calculateSourceAgreement
      (validPredictionsOf
        [Prediction.mk "g1" "other" 0 5 none (some 20) none none "" "",
         Prediction.mk "g2" "other" 0 5 none (some 20) none none
           "" ""])) = 0.3 := by
    rw [hAL]
    norm_num [effectiveThresholdOf, optMinCT, optDP]
  have hwnone : findFertileWindow (buildDayScores (validPredictionsOf
      [Prediction.mk "g1" "other" 0 5 none (some 20) none none "" "",
       Prediction.mk "g2" "other" 0 5 none (some 20) none none "" ""])
      (mergedWeights {})) (effectiveThresholdOf {}
      (calculateSourceAgreement (validPredictionsOf
        [Prediction.mk "g1" "other" 0 5 none (some 20) none none "" "",
         Prediction.mk "g2" "other" 0 5 none (some 20) none none
           "" ""]))) = none := by
    rw [hthL, hvalL]
    apply findFertileWindow_none_of
    apply dayScores_all_lt
    · intro p _
      exact getWeight_default_nonneg _
    · intro p hp
      rcases List.mem_cons.mp hp with rfl | hp
      · exact selfConfidence_nonneg (by norm_num)
      · rcases List.mem_singleton.mp hp with rfl
        exact selfConfidence_nonneg (by norm_num)
    · simp only [totalEffectiveWeight, List.map_cons, List.map_nil,
        List.sum_cons, List.sum_nil]
      rw [getWeight_other]
      norm_num
    · have hWv : totalEffectiveWeight
          [Prediction.mk "g1" "other" 0 5 none (some 20) none none "" "",
           Prediction.mk "g2" "other" 0 5 none (some 20) none none "" ""]
          (mergedWeights {}) = 1 := by
        simp only [totalEffectiveWeight, List.map_cons, List.map_nil,
          List.sum_cons, List.sum_nil]
        rw [getWeight_other]
        norm_num
      have hsum : (([Prediction.mk "g1" "other" 0 5 none (some 20) none
          none "" "", Prediction.mk "g2" "other" 0 5 none (some 20) none
          none "" ""] : List Prediction).map fun p =>
          getWeight p.source (mergedWeights {}) * selfConfidence p).sum =
          0.2 := by
        simp only [List.map_cons, List.map_nil, List.sum_cons,
          List.sum_nil]
        rw [getWeight_other]
        norm_num [selfConfidence]
      rw [hWv, hsum]
      norm_num
  have hlenL : ¬ ([Prediction.mk "g1" "other" 0 5 none (some 20) none
      none "" "", Prediction.mk "g2" "other" 0 5 none (some 20) none none
      "" ""] : List Prediction).length < optMinSources {} := by
    simp [optMinSources]
  have hvalidL : (validPredictionsOf
      [Prediction.mk "g1" "other" 0 5 none (some 20) none none "" "",
       Prediction.mk "g2" "other" 0 5 none (some 20) none none
         "" ""]).isEmpty = false := by
    rw [hvalL]
    rfl
  have hrec1 := reconcile_eq_fallback
      [Prediction.mk "g1" "other" 0 5 none (some 20) none none "" "",
       Prediction.mk "g2" "other" 0 5 none (some 20) none none "" ""]
      {} hlenL hvalidL hwnone
  have hcat : ([Prediction.mk "g1" "other" 0 5 none (some 20) none none
      "" "", Prediction.mk "g2" "other" 0 5 none (some 20) none none
      "" ""] : List Prediction) ++
      [Prediction.mk "g3" "natural-cycles" 4 9 none (some 100) none none
        "" ""] =
      [Prediction.mk "g1" "other" 0 5 none (some 20) none none "" "",
       Prediction.mk "g2" "other" 0 5 none (some 20) none none "" "",
       Prediction.mk "g3" "natural-cycles" 4 9 none (some 100) none none
         "" ""] := rfl
  have hvalL' : validPredictionsOf
      (([Prediction.mk "g1" "other" 0 5 none (some 20) none none "" "",
         Prediction.mk "g2" "other" 0 5 none (some 20) none none "" ""] :
        List Prediction) ++
       [Prediction.mk "g3" "natural-cycles" 4 9 none (some 100) none none
         "" ""]) =
      ([Prediction.mk "g1" "other" 0 5 none (some 20) none none "" "",
        Prediction.mk "g2" "other" 0 5 none (some 20) none none "" ""] :
        List Prediction) ++
      [Prediction.mk "g3" "natural-cycles" 4 9 none (some 100) none none
        "" ""] := validPredictionsOf_eq_self hconf
  have hlenL' : ¬ (([Prediction.mk "g1" "other" 0 5 none (some 20) none
      none "" "", Prediction.mk "g2" "other" 0 5 none (some 20) none none
      "" ""] : List Prediction) ++
      [Prediction.mk "g3" "natural-cycles" 4 9 none (some 100) none none
        "" ""]).length < optMinSources {} := by
    simp [optMinSources]
  have hvalidL' : (validPredictionsOf
      (([Prediction.mk "g1" "other" 0 5 none (some 20) none none "" "",
         Prediction.mk "g2" "other" 0 5 none (some 20) none none "" ""] :
        List Prediction) ++
       [Prediction.mk "g3" "natural-cycles" 4 9 none (some 100) none none
         "" ""])).isEmpty = false := by
    rw [hvalL']
    rfl
  have hA' : calculateSourceAgreement (validPredictionsOf
      (([Prediction.mk "g1" "other" 0 5 none (some 20) none none "" "",
         Prediction.mk "g2" "other" 0 5 none (some 20) none none "" ""] :
        List Prediction) ++
       [Prediction.mk "g3" "natural-cycles" 4 9 none (some 100) none none
         "" ""])) = Real.exp (-(4/9 : ℝ)) := by
    rw [hvalL', hcat]
    exact gaincex_agreement_three
  have hO' : identifyOutliers (validPredictionsOf
      (([Prediction.mk "g1" "other" 0 5 none (some 20) none none "" "",
         Prediction.mk "g2" "other" 0 5 none (some 20) none none "" ""] :
        List Prediction) ++
       [Prediction.mk "g3" "natural-cycles" 4 9 none (some 100) none none
         "" ""])) (mergedWeights {}) = [] := by
    rw [hvalL', hcat]
    exact gaincex_outliers
  have hsome' : (findFertileWindow (buildDayScores (validPredictionsOf
      (([Prediction.mk "g1" "other" 0 5 none (some 20) none none "" "",
         Prediction.mk "g2" "other" 0 5 none (some 20) none none "" ""] :
        List Prediction) ++
       [Prediction.mk "g3" "natural-cycles" 4 9 none (some 100) none none
         "" ""])) (mergedWeights {})) (effectiveThresholdOf {}
      (calculateSourceAgreement (validPredictionsOf
        (([Prediction.mk "g1" "other" 0 5 none (some 20) none none "" "",
           Prediction.mk "g2" "other" 0 5 none (some 20) none none
             "" ""] : List Prediction) ++
         [Prediction.mk "g3" "natural-cycles" 4 9 none (some 100) none
           none "" ""]))))).isSome := by
    rw [hvalL', hcat]
    exact gaincex_main_three
  obtain ⟨trip2, hw2⟩ := Option.isSome_iff_exists.mp hsome'
  obtain ⟨ws2, we2, pk2⟩ := trip2
  have hrec2 := reconcile_eq_main
      (([Prediction.mk "g1" "other" 0 5 none (some 20) none none "" "",
         Prediction.mk "g2" "other" 0 5 none (some 20) none none "" ""] :
        List Prediction) ++
       [Prediction.mk "g3" "natural-cycles" 4 9 none (some 100) none none
         "" ""]) {} ws2 we2 pk2 hlenL' hvalidL' hw2
  have hexpo : Real.exp (-(4/9 : ℝ)) ≤ 1 :=
    Real.exp_le_one_iff.mpr (by norm_num)
  have hexpp : (0:ℝ) < Real.exp (-(4/9 : ℝ)) := Real.exp_pos _
  have hle' : calculateSourceAgreement (validPredictionsOf
      (([Prediction.mk "g1" "other" 0 5 none (some 20) none none "" "",
         Prediction.mk "g2" "other" 0 5 none (some 20) none none "" ""] :
        List Prediction) ++
       [Prediction.mk "g3" "natural-cycles" 4 9 none (some 100) none none
         "" ""])) *
      min 1 (0.7 + (((validPredictionsOf
        (([Prediction.mk "g1" "other" 0 5 none (some 20) none none "" "",
           Prediction.mk "g2" "other" 0 5 none (some 20) none none
             "" ""] : List Prediction) ++
         [Prediction.mk "g3" "natural-cycles" 4 9 none (some 100) none
           none "" ""])).length : ℕ) : ℝ) * 0.1) *
      max 0.5 (1 - (((identifyOutliers (validPredictionsOf
        (([Prediction.mk "g1" "other" 0 5 none (some 20) none none "" "",
           Prediction.mk "g2" "other" 0 5 none (some 20) none none
             "" ""] : List Prediction) ++
         [Prediction.mk "g3" "natural-cycles" 4 9 none (some 100) none
           none "" ""])) (mergedWeights {})).length : ℕ) : ℝ) * 0.1) ≤
      1 := by
    rw [hA', hO', hvalL', hcat]
    simp only [List.length_cons, List.length_nil]
    norm_num [min_def, max_def]
  have hcold : (fallbackResult (validPredictionsOf
      [Prediction.mk "g1" "other" 0 5 none (some 20) none none "" "",
       Prediction.mk "g2" "other" 0 5 none (some 20) none none "" ""])
      (mergedWeights {})
      (calculateSourceAgreement (validPredictionsOf
        [Prediction.mk "g1" "other" 0 5 none (some 20) none none "" "",
         Prediction.mk "g2" "other" 0 5 none (some 20) none none "" ""]))
      (identifyOutliers (validPredictionsOf
        [Prediction.mk "g1" "other" 0 5 none (some 20) none none "" "",
         Prediction.mk "g2" "other" 0 5 none (some 20) none none "" ""])
        (mergedWeights {}))
      (buildDayScores (validPredictionsOf
        [Prediction.mk "g1" "other" 0 5 none (some 20) none none "" "",
         Prediction.mk "g2" "other" 0 5 none (some 20) none none "" ""])
        (mergedWeights {}))).confidence = 0.5 := by
    show max 0.2 (calculateSourceAgreement (validPredictionsOf
      [Prediction.mk "g1" "other" 0 5 none (some 20) none none "" "",
       Prediction.mk "g2" "other" 0 5 none (some 20) none none "" ""]) *
      0.5) = 0.5
    rw [hAL]
    norm_num [max_def]
  have hcnew : (mainResult (validPredictionsOf
      (([Prediction.mk "g1" "other" 0 5 none (some 20) none none "" "",
         Prediction.mk "g2" "other" 0 5 none (some 20) none none "" ""] :
        List Prediction) ++
       [Prediction.mk "g3" "natural-cycles" 4 9 none (some 100) none none
         "" ""])) (mergedWeights {})
      (calculateSourceAgreement (validPredictionsOf
        (([Prediction.mk "g1" "other" 0 5 none (some 20) none none "" "",
           Prediction.mk "g2" "other" 0 5 none (some 20) none none
             "" ""] : List Prediction) ++
         [Prediction.mk "g3" "natural-cycles" 4 9 none (some 100) none
           none "" ""])))
      (identifyOutliers (validPredictionsOf
        (([Prediction.mk "g1" "other" 0 5 none (some 20) none none "" "",
           Prediction.mk "g2" "other" 0 5 none (some 20) none none
             "" ""] : List Prediction) ++
         [Prediction.mk "g3" "natural-cycles" 4 9 none (some 100) none
           none "" ""])) (mergedWeights {}))
      (buildDayScores (validPredictionsOf
        (([Prediction.mk "g1" "other" 0 5 none (some 20) none none "" "",
           Prediction.mk "g2" "other" 0 5 none (some 20) none none
             "" ""] : List Prediction) ++
         [Prediction.mk "g3" "natural-cycles" 4 9 none (some 100) none
           none "" ""])) (mergedWeights {}))
      ws2 we2 pk2).confidence = Real.exp (-(4/9 : ℝ)) := by
    rw [mainResult_conf_eval (sourceAgreement_pos _).le hle']
    rw [hA', hO', hvalL', hcat]
    simp only [List.length_cons, List.length_nil]
    norm_num [min_def, max_def]
  refine ⟨hident, hconf, hn, hfars, hfare, hwnone, _, _, hrec1, hrec2,
    hcold, hcnew, ?_⟩
  rw [hcold, hcnew]
  have hbound := Real.add_one_le_exp (-(4/9 : ℝ))
  linarith

end Fertile.Reconciler
